import Mathlib

/-!
# MPU6050 driver core (`drivers/input/misc/mpu6050.c`)

A shallow embedding of the control core of the MPU6050 accelerometer/gyroscope
driver, and machine-checked statements about it.

Conventions of the embedding

* C integers are `Int`; a value stored in an `s16` goes through `s16`, a value
  passed as a `u8` goes through `u8`.
* `struct mpu6050_sensor` is an explicit state record.  Every call that
  reaches the hardware (register bus, regulators, enable line, delayed work,
  interrupt line, input events) appends one event to `log`, so that "no bus
  access was issued" or "A was written before B" are statements about `log`.
* The hardware is a parameter `env : Env`: the result of an operation is a
  function of the operations performed so far and of the operation itself.
  A scripted fault, a device that answers by access count and a faithful
  register file are all instances.
* `mpu6050.h` is not part of the sources.  Its bit masks and enumerators are
  the fields of `Hdr`; registers are named by their field in
  `struct mpu_reg_map`.
-/

namespace MPU6050

/-! ## Integer conversions -/

/-- Conversion of a C `int` to `s16` (two's complement wrap-around). -/
def s16 (x : Int) : Int := (x + 32768) % 65536 - 32768

/-- Conversion of a C `int` to `u8`. -/
def u8 (x : Int) : Nat := (x % 256).toNat

/-- The C expression `x & ~m` on a `u8` value `x`. -/
def clear_bits (x m : Nat) : Nat := (x % 256) &&& (255 ^^^ (m % 256))

/-- The C expression `x | m` stored back into a `u8`. -/
def set_bits (x m : Nat) : Nat := ((x % 256) ||| m) % 256

/-! ## Constants of `mpu6050.c` -/

def MPU6050_ACCEL_MIN_VALUE : Int := -32768
def MPU6050_ACCEL_MAX_VALUE : Int := 32767
def MPU6050_GYRO_MIN_VALUE : Int := -32768
def MPU6050_GYRO_MAX_VALUE : Int := 32767

def MPU6050_ACCEL_MIN_POLL_INTERVAL_MS : Nat := 1
def MPU6050_ACCEL_MAX_POLL_INTERVAL_MS : Nat := 5000
def MPU6050_ACCEL_DEFAULT_POLL_INTERVAL_MS : Nat := 200
def MPU6050_GYRO_MIN_POLL_INTERVAL_MS : Nat := 1
def MPU6050_GYRO_MAX_POLL_INTERVAL_MS : Nat := 5000
def MPU6050_GYRO_DEFAULT_POLL_INTERVAL_MS : Nat := 200

def MPU6050_ACCEL_SCALE_SHIFT_8G : Nat := 2
def MPU6050_GYRO_SCALE_SHIFT_FS0 : Nat := 0
def MPU6050_ACCEL_UNIT_08G : Int := 4096
def CALIBRATION_TEST_COUNT : Nat := 10

def MPU6050_AXIS_REMAP_TAB_SZ : Int := 8

/-- Linux errno values used by the driver. -/
def EPERM : Int := 1
def EIO : Int := 5
def EBUSY : Int := 16
def ENODEV : Int := 19
def EINVAL : Int := 22

/-! ## Constants of `mpu6050.h` -/

/-- The bit masks and enumerators that `mpu6050.c` takes from `mpu6050.h`.
The header is not part of the sources, so their values are a parameter `K`
of every function that uses one. -/
structure Hdr where
  BIT_H_RESET : Nat
  BIT_SLEEP : Nat
  BIT_CLK_MASK : Nat
  MPU_CLK_INTERNAL : Nat
  MPU_CLK_PLL_X : Nat
  BIT_PWR_ACCEL_STBY_MASK : Nat
  BIT_PWR_GYRO_STBY_MASK : Nat
  BIT_LPA_FREQ_MASK : Nat
  MPU6050_LPA_5HZ : Nat
  BIT_ACCEL_FIFO : Nat
  BIT_GYRO_FIFO : Nat
  MPU_FSR_2000DPS : Nat
  GYRO_CONFIG_FSR_SHIFT : Nat
  MPU_DLPF_42HZ : Nat
  ACCEL_FS_08G : Nat
  ACCL_CONFIG_FSR_SHIFT : Nat
  ODR_DLPF_ENA : Nat
  INIT_FIFO_RATE : Nat
  MPU6050_ID : Nat
  MPU6500_ID : Nat
  deriving DecidableEq, Repr

/-- The values of the InvenSense register map, used for concrete runs. -/
def mpu6050_h : Hdr where
  BIT_H_RESET := 0x80
  BIT_SLEEP := 0x40
  BIT_CLK_MASK := 0x07
  MPU_CLK_INTERNAL := 0
  MPU_CLK_PLL_X := 1
  BIT_PWR_ACCEL_STBY_MASK := 0x38
  BIT_PWR_GYRO_STBY_MASK := 0x07
  BIT_LPA_FREQ_MASK := 0xC0
  MPU6050_LPA_5HZ := 0x40
  BIT_ACCEL_FIFO := 0x08
  BIT_GYRO_FIFO := 0x70
  MPU_FSR_2000DPS := 3
  GYRO_CONFIG_FSR_SHIFT := 3
  MPU_DLPF_42HZ := 3
  ACCEL_FS_08G := 2
  ACCL_CONFIG_FSR_SHIFT := 3
  ODR_DLPF_ENA := 1000
  INIT_FIFO_RATE := 200
  MPU6050_ID := 0x68
  MPU6500_ID := 0x70

/-! ## Data model -/

/-- The C `struct axis_data`: raw samples and persistent offsets, all `s16`. -/
structure axis_data where
  x : Int
  y : Int
  z : Int
  off_x : Int
  off_y : Int
  off_z : Int
  rx : Int
  ry : Int
  rz : Int
  off_rx : Int
  off_ry : Int
  off_rz : Int
  deriving DecidableEq, Repr

/-- The C `struct sensor_axis_remap` (bit-fields wide enough for the table). -/
structure sensor_axis_remap where
  src_x : Nat
  src_y : Nat
  src_z : Nat
  sign_x : Int
  sign_y : Int
  sign_z : Int
  deriving DecidableEq, Repr

def mpu6050_accel_axis_remap_tab : List sensor_axis_remap :=
  [ ⟨0, 1, 2, 1, 1, 1⟩,
    ⟨1, 0, 2, 1, -1, 1⟩,
    ⟨0, 1, 2, -1, -1, 1⟩,
    ⟨1, 0, 2, -1, 1, 1⟩,
    ⟨0, 1, 2, -1, 1, -1⟩,
    ⟨1, 0, 2, -1, -1, -1⟩,
    ⟨0, 1, 2, 1, -1, -1⟩,
    ⟨1, 0, 2, 1, 1, -1⟩ ]

def mpu6050_gyro_axis_remap_tab : List sensor_axis_remap :=
  [ ⟨0, 1, 2, -1, 1, -1⟩,
    ⟨1, 0, 2, -1, -1, -1⟩,
    ⟨0, 1, 2, 1, -1, -1⟩,
    ⟨1, 0, 2, 1, 1, -1⟩,
    ⟨0, 1, 2, 1, 1, 1⟩,
    ⟨1, 0, 2, 1, -1, 1⟩,
    ⟨0, 1, 2, -1, -1, 1⟩,
    ⟨1, 0, 2, -1, 1, 1⟩ ]

/-- Modelled from the spec: `struct mpu_chip_config` of `mpu6050.h` (not part
of the sources), with the fields the driver reads and writes: the spec's
Configuration record.  Flags hold 0 or 1 and are tested for non-zero. -/
structure mpu_chip_config where
  fsr : Nat
  lpf : Nat
  accel_fs : Nat
  enable : Nat
  accel_enable : Nat
  accel_fifo_enable : Nat
  gyro_enable : Nat
  gyro_fifo_enable : Nat
  is_asleep : Nat
  lpa_freq : Nat
  fifo_rate : Nat
  deriving DecidableEq, Repr

/-- The configuration after `memset(&sensor->cfg, 0, ...)`. -/
def mpu_chip_config.zero : mpu_chip_config :=
  ⟨0, 0, 0, 0, 0, 0, 0, 0, 0, 0, 0⟩

/-- The C `enum inv_devices` of `mpu6050.h`: the two chip variants. -/
inductive inv_devices where
  | INV_MPU6050
  | INV_MPU6500
  deriving DecidableEq, Repr

/-! ## Hardware interface -/

/-- The three supplies held by the driver: `vdd`, `vlogic`, `vi2c`. -/
inductive Rail where
  | vdd
  | vlogic
  | vi2c
  deriving DecidableEq, Repr

/-- Registers, named by their field in `struct mpu_reg_map`; `whoami` is the
identity register `REG_WHOAMI`. -/
inductive Reg where
  | sample_rate_div
  | lpf
  | fifo_en
  | gyro_config
  | accel_config
  | raw_gyro
  | raw_accel
  | pwr_mgmt_1
  | pwr_mgmt_2
  | whoami
  deriving DecidableEq, Repr

/-- The three delayed works of the driver. -/
inductive Work where
  | accel_poll_work
  | gyro_poll_work
  | delay_resume_work
  deriving DecidableEq, Repr

/-- The two input devices. -/
inductive InputDev where
  | accel_dev
  | gyro_dev
  deriving DecidableEq, Repr

/-- Absolute axes reported to the input layer. -/
inductive Abs where
  | ABS_X
  | ABS_Y
  | ABS_Z
  | ABS_RX
  | ABS_RY
  | ABS_RZ
  deriving DecidableEq, Repr

/-- One call into a collaborator of the driver. -/
inductive Op where
  /-- The call `i2c_smbus_read_byte_data(client, reg)`. -/
  | rd (r : Reg)
  /-- The call `i2c_smbus_write_byte_data(client, reg, v)`. -/
  | wr (r : Reg) (v : Nat)
  /-- The call `mpu6050_read_reg(client, reg, buf, len)`. -/
  | blk (r : Reg) (len : Nat)
  | regulator_enable (r : Rail)
  | regulator_disable (r : Rail)
  /-- The call `gpio_set_value(sensor->enable_gpio, v)`. -/
  | gpio_set_value (v : Nat)
  /-- The call `schedule_delayed_work(w, msecs_to_jiffies(ms))`. -/
  | schedule_delayed_work (w : Work) (ms : Nat)
  | cancel_delayed_work_sync (w : Work)
  | enable_irq
  | disable_irq
  | input_report_abs (d : InputDev) (a : Abs) (v : Int)
  | input_sync (d : InputDev)
  deriving DecidableEq, Repr

/-- A performed operation together with the value it returned. -/
structure Ev where
  op : Op
  ret : Int
  deriving DecidableEq, Repr

/-- The hardware: `ret log op` is what `op` returns after the operations in
`log`; `raw log r` are the bytes a block read of `r` delivers. -/
structure Env where
  ret : List Ev → Op → Int
  raw : List Ev → Reg → List Nat

/-- The C `struct mpu6050_sensor`, reduced to the fields the control core
uses, plus the log of hardware operations. -/
structure mpu6050_sensor where
  chip_type : inv_devices
  cfg : mpu_chip_config
  axis : axis_data
  gyro_poll_ms : Nat
  accel_poll_ms : Nat
  /-- Whether `gpio_is_valid(sensor->enable_gpio)`. -/
  enable_gpio_valid : Bool
  use_poll : Bool
  power_enabled : Bool
  /-- The mounting orientation `sensor->pdata->place`. -/
  place : Int
  log : List Ev
  deriving DecidableEq, Repr

/-- Perform `op` on the hardware and record it. -/
def hw (env : Env) (s : mpu6050_sensor) (op : Op) : Int × mpu6050_sensor :=
  (env.ret s.log op, { s with log := s.log ++ [⟨op, env.ret s.log op⟩] })

/-- Perform an operation whose result the driver never looks at. -/
def hw_void (s : mpu6050_sensor) (op : Op) : mpu6050_sensor :=
  { s with log := s.log ++ [⟨op, 0⟩] }

def i2c_smbus_read_byte_data (env : Env) (s : mpu6050_sensor) (r : Reg) :
    Int × mpu6050_sensor :=
  hw env s (.rd r)

/-- The value is passed as a `u8`. -/
def i2c_smbus_write_byte_data (env : Env) (s : mpu6050_sensor) (r : Reg) (v : Nat) :
    Int × mpu6050_sensor :=
  hw env s (.wr r (v % 256))

/-- The events appended to the log between state `s` and the later state
`t`. -/
def new_events (s t : mpu6050_sensor) : List Ev := t.log.drop s.log.length

def regulator_enable (env : Env) (s : mpu6050_sensor) (r : Rail) :
    Int × mpu6050_sensor :=
  hw env s (.regulator_enable r)

def regulator_disable (env : Env) (s : mpu6050_sensor) (r : Rail) :
    Int × mpu6050_sensor :=
  hw env s (.regulator_disable r)

/-! ## Axis remapping -/

/-- The function `mpu6050_remap_accel_data`. -/
def mpu6050_remap_accel_data (data : axis_data) (place : Int) : axis_data :=
  if place ≤ 0 ∨ place ≥ MPU6050_AXIS_REMAP_TAB_SZ then data
  else
    let remap := mpu6050_accel_axis_remap_tab.getD place.toNat ⟨0, 0, 0, 0, 0, 0⟩
    let tmp := [data.x, data.y, data.z]
    { data with
      x := s16 (tmp.getD remap.src_x 0 * remap.sign_x)
      y := s16 (tmp.getD remap.src_y 0 * remap.sign_y)
      z := s16 (tmp.getD remap.src_z 0 * remap.sign_z) }

/-- The function `mpu6050_remap_gyro_data`. -/
def mpu6050_remap_gyro_data (data : axis_data) (place : Int) : axis_data :=
  if place ≤ 0 ∨ place ≥ MPU6050_AXIS_REMAP_TAB_SZ then data
  else
    let remap := mpu6050_gyro_axis_remap_tab.getD place.toNat ⟨0, 0, 0, 0, 0, 0⟩
    let tmp := [data.rx, data.ry, data.rz]
    { data with
      rx := s16 (tmp.getD remap.src_x 0 * remap.sign_x)
      ry := s16 (tmp.getD remap.src_y 0 * remap.sign_y)
      rz := s16 (tmp.getD remap.src_z 0 * remap.sign_z) }

/-! ## Power sequencing -/

/-- The function `mpu6050_power_ctl`.  The settling delays (`udelay`,
`msleep`) and the log messages have no effect on the state and are left
out. -/
def mpu6050_power_ctl (env : Env) (s : mpu6050_sensor) (on_ : Bool) :
    Int × mpu6050_sensor :=
  if on_ && !s.power_enabled then
    let r1 := regulator_enable env s .vdd
    if r1.1 ≠ 0 then r1
    else
      let r2 := regulator_enable env r1.2 .vlogic
      if r2.1 ≠ 0 then (r2.1, (regulator_disable env r2.2 .vdd).2)
      else
        let r3 := regulator_enable env r2.2 .vi2c
        if r3.1 ≠ 0 then
          (r3.1, (regulator_disable env (regulator_disable env r3.2 .vlogic).2 .vdd).2)
        else
          let s4 := if r3.2.enable_gpio_valid then hw_void r3.2 (.gpio_set_value 1) else r3.2
          (r3.1, { s4 with power_enabled := true })
  else if !on_ && s.power_enabled then
    let s0 := if s.enable_gpio_valid then hw_void s (.gpio_set_value 0) else s
    let r1 := regulator_disable env s0 .vdd
    if r1.1 ≠ 0 then r1
    else
      let r2 := regulator_disable env r1.2 .vlogic
      if r2.1 ≠ 0 then regulator_enable env r2.2 .vdd
      else
        let r3 := regulator_disable env r2.2 .vi2c
        if r3.1 ≠ 0 then
          let c1 := regulator_enable env r3.2 .vi2c
          if c1.1 ≠ 0 then (- EIO, c1.2)
          else
            let c2 := regulator_enable env c1.2 .vdd
            if c2.1 ≠ 0 then (- EIO, c2.2)
            else (r3.1, { c2.2 with power_enabled := false })
        else (r3.1, { r3.2 with power_enabled := false })
  else (0, s)

/-- Whether rail `r` is on after the operations in `log`, when it was
`init` before them: a regulator call that returns 0 takes effect, a failed
one does not. -/
def rail_on (r : Rail) (init : Bool) : List Ev → Bool
  | [] => init
  | e :: es =>
    if e.op = .regulator_enable r ∧ e.ret = 0 then rail_on r true es
    else if e.op = .regulator_disable r ∧ e.ret = 0 then rail_on r false es
    else rail_on r init es


/-! ## Engine control -/

/-- The function `mpu6050_switch_engine`.  A step that the C code skips is
written as the pair `(0, state)`, so that the following error test passes. -/
def mpu6050_switch_engine (K : Hdr) (env : Env) (s : mpu6050_sensor) (en : Bool)
    (mask : Nat) : Int × mpu6050_sensor :=
  let gyro : Bool := K.BIT_PWR_GYRO_STBY_MASK == mask
  let r0 := if gyro then i2c_smbus_read_byte_data env s .pwr_mgmt_1 else (0, s)
  if r0.1 < 0 then r0
  else
    let mgmt_1 : Nat :=
      if gyro then clear_bits (u8 r0.1) K.BIT_CLK_MASK else K.MPU_CLK_INTERNAL % 256
    let r1 :=
      if gyro && !en then
        i2c_smbus_write_byte_data env r0.2 .pwr_mgmt_1 (set_bits mgmt_1 K.MPU_CLK_INTERNAL)
      else (0, r0.2)
    if r1.1 < 0 then r1
    else
      let r2 := i2c_smbus_read_byte_data env r1.2 .pwr_mgmt_2
      if r2.1 < 0 then r2
      else
        let data : Nat := if en then clear_bits (u8 r2.1) mask else set_bits (u8 r2.1) mask
        let r3 := i2c_smbus_write_byte_data env r2.2 .pwr_mgmt_2 data
        if r3.1 < 0 then r3
        else
          let r4 :=
            if gyro && en then
              i2c_smbus_write_byte_data env r3.2 .pwr_mgmt_1 (set_bits mgmt_1 K.MPU_CLK_PLL_X)
            else (0, r3.2)
          if r4.1 < 0 then r4 else (0, r4.2)

/-- The function `mpu6050_set_power_mode`: it returns the result of the
write, whatever it is. -/
def mpu6050_set_power_mode (K : Hdr) (env : Env) (s : mpu6050_sensor) (power_on : Bool) :
    Int × mpu6050_sensor :=
  let r := i2c_smbus_read_byte_data env s .pwr_mgmt_1
  if r.1 < 0 then r
  else
    let val : Nat :=
      if power_on then clear_bits (u8 r.1) K.BIT_SLEEP else set_bits (u8 r.1) K.BIT_SLEEP
    i2c_smbus_write_byte_data env r.2 .pwr_mgmt_1 val

/-- The function `mpu6050_gyro_enable`. -/
def mpu6050_gyro_enable (K : Hdr) (env : Env) (s : mpu6050_sensor) (on_ : Bool) :
    Int × mpu6050_sensor :=
  if s.cfg.is_asleep ≠ 0 then (- EINVAL, s)
  else
    let r := i2c_smbus_read_byte_data env s .pwr_mgmt_1
    if r.1 < 0 then r
    else
      let data : Nat := u8 r.1
      if on_ then
        let e := mpu6050_switch_engine K env r.2 true K.BIT_PWR_GYRO_STBY_MASK
        if e.1 ≠ 0 then e
        else
          let s1 : mpu6050_sensor := { e.2 with cfg := { e.2.cfg with gyro_enable := 1 } }
          let w := i2c_smbus_write_byte_data env s1 .pwr_mgmt_1 (clear_bits data K.BIT_SLEEP)
          if w.1 < 0 then w
          else (0, { w.2 with cfg := { w.2.cfg with enable := 1 } })
      else
        let e := mpu6050_switch_engine K env r.2 false K.BIT_PWR_GYRO_STBY_MASK
        if e.1 ≠ 0 then e
        else
          let s1 : mpu6050_sensor := { e.2 with cfg := { e.2.cfg with gyro_enable := 0 } }
          if s1.cfg.accel_enable = 0 then
            let w := i2c_smbus_write_byte_data env s1 .pwr_mgmt_1 (set_bits data K.BIT_SLEEP)
            if w.1 < 0 then w
            else (0, { w.2 with cfg := { w.2.cfg with enable := 0 } })
          else (0, s1)

/-- The function `mpu6050_accel_enable`. -/
def mpu6050_accel_enable (K : Hdr) (env : Env) (s : mpu6050_sensor) (on_ : Bool) :
    Int × mpu6050_sensor :=
  if s.cfg.is_asleep ≠ 0 then (- EINVAL, s)
  else
    let r := i2c_smbus_read_byte_data env s .pwr_mgmt_1
    if r.1 < 0 then r
    else
      let data : Nat := u8 r.1
      if on_ then
        let e := mpu6050_switch_engine K env r.2 true K.BIT_PWR_ACCEL_STBY_MASK
        if e.1 ≠ 0 then e
        else
          let s1 : mpu6050_sensor := { e.2 with cfg := { e.2.cfg with accel_enable := 1 } }
          let w := i2c_smbus_write_byte_data env s1 .pwr_mgmt_1 (clear_bits data K.BIT_SLEEP)
          if w.1 < 0 then w
          else (0, { w.2 with cfg := { w.2.cfg with enable := 1 } })
      else
        let e := mpu6050_switch_engine K env r.2 false K.BIT_PWR_ACCEL_STBY_MASK
        if e.1 ≠ 0 then e
        else
          let s1 : mpu6050_sensor := { e.2 with cfg := { e.2.cfg with accel_enable := 0 } }
          if s1.cfg.gyro_enable = 0 then
            let w := i2c_smbus_write_byte_data env s1 .pwr_mgmt_1 (set_bits data K.BIT_SLEEP)
            if w.1 < 0 then w
            else (0, { w.2 with cfg := { w.2.cfg with enable := 0 } })
          else (0, s1)

/-- The common shape of `mpu6050_gyro_enable` and `mpu6050_accel_enable`:
`mask` is the standby mask of the engine, `set_flag` writes its enable flag
and `other` reads the enable flag of the other engine.  Used to prove
properties of both at once. -/
def engine_enable (K : Hdr) (env : Env) (mask : Nat)
    (set_flag : mpu_chip_config → Nat → mpu_chip_config) (other : mpu_chip_config → Nat)
    (s : mpu6050_sensor) (on_ : Bool) : Int × mpu6050_sensor :=
  if s.cfg.is_asleep ≠ 0 then (- EINVAL, s)
  else
    let r := i2c_smbus_read_byte_data env s .pwr_mgmt_1
    if r.1 < 0 then r
    else
      let data : Nat := u8 r.1
      if on_ then
        let e := mpu6050_switch_engine K env r.2 true mask
        if e.1 ≠ 0 then e
        else
          let s1 : mpu6050_sensor := { e.2 with cfg := set_flag e.2.cfg 1 }
          let w := i2c_smbus_write_byte_data env s1 .pwr_mgmt_1 (clear_bits data K.BIT_SLEEP)
          if w.1 < 0 then w
          else (0, { w.2 with cfg := { w.2.cfg with enable := 1 } })
      else
        let e := mpu6050_switch_engine K env r.2 false mask
        if e.1 ≠ 0 then e
        else
          let s1 : mpu6050_sensor := { e.2 with cfg := set_flag e.2.cfg 0 }
          if other s1.cfg = 0 then
            let w := i2c_smbus_write_byte_data env s1 .pwr_mgmt_1 (set_bits data K.BIT_SLEEP)
            if w.1 < 0 then w
            else (0, { w.2 with cfg := { w.2.cfg with enable := 0 } })
          else (0, s1)

/-! ## Default configuration -/

/-- The `do ... while (ret & BIT_H_RESET)` loop of `mpu6050_init_config`:
read power-mgmt-1 until the read fails or the reset bit reads clear.  The C
loop has no counter; `fuel` bounds the number of iterations of the model, and
`none` means that the loop is still running when the fuel is used up. -/
def reset_poll (K : Hdr) (env : Env) : Nat → mpu6050_sensor → Option (Int × mpu6050_sensor)
  | 0, _ => none
  | fuel + 1, s =>
    let r := i2c_smbus_read_byte_data env s .pwr_mgmt_1
    if r.1 < 0 then some r
    else if r.1.toNat &&& K.BIT_H_RESET ≠ 0 then reset_poll K env fuel r.2
    else some r

/-- The value `ODR_DLPF_ENA / INIT_FIFO_RATE - 1` as the `u8` that is written
to the sample-rate divider. -/
def sample_rate_divider (K : Hdr) : Nat :=
  u8 (((K.ODR_DLPF_ENA / K.INIT_FIFO_RATE : Nat) : Int) - 1)

/-- The part of `mpu6050_init_config` after the reset poll: clear the cached
configuration and write the defaults. -/
def init_config_defaults (K : Hdr) (env : Env) (s : mpu6050_sensor) :
    Int × mpu6050_sensor :=
  let s0 : mpu6050_sensor := { s with cfg := mpu_chip_config.zero }
  let w1 := i2c_smbus_write_byte_data env s0 .gyro_config
    (K.MPU_FSR_2000DPS <<< K.GYRO_CONFIG_FSR_SHIFT)
  if w1.1 < 0 then w1
  else
    let s1 : mpu6050_sensor := { w1.2 with cfg := { w1.2.cfg with fsr := K.MPU_FSR_2000DPS } }
    let w2 := i2c_smbus_write_byte_data env s1 .lpf K.MPU_DLPF_42HZ
    if w2.1 < 0 then w2
    else
      let s2 : mpu6050_sensor := { w2.2 with cfg := { w2.2.cfg with lpf := K.MPU_DLPF_42HZ } }
      let w3 := i2c_smbus_write_byte_data env s2 .sample_rate_div (sample_rate_divider K)
      if w3.1 < 0 then w3
      else
        let s3 : mpu6050_sensor := { w3.2 with cfg := { w3.2.cfg with fifo_rate := K.INIT_FIFO_RATE } }
        let w4 := i2c_smbus_write_byte_data env s3 .accel_config
          (K.ACCEL_FS_08G <<< K.ACCL_CONFIG_FSR_SHIFT)
        if w4.1 < 0 then w4
        else
          (0, { w4.2 with cfg := { w4.2.cfg with
            accel_fs := K.ACCEL_FS_08G
            gyro_enable := 0
            gyro_fifo_enable := 0
            accel_enable := 0
            accel_fifo_enable := 0 } })

/-- The function `mpu6050_init_config`; `fuel` bounds the reset poll, see
`reset_poll`. -/
def mpu6050_init_config (K : Hdr) (env : Env) (fuel : Nat) (s : mpu6050_sensor) :
    Option (Int × mpu6050_sensor) :=
  if s.cfg.is_asleep ≠ 0 then some (- EINVAL, s)
  else
    let w := i2c_smbus_write_byte_data env s .pwr_mgmt_1 K.BIT_H_RESET
    if w.1 < 0 then some w
    else
      match reset_poll K env fuel w.2 with
      | none => none
      | some p => if p.1 < 0 then some p else some (init_config_defaults K env p.2)

/-- The events of `j` consecutive status reads of power-mgmt-1 issued after
the operations in `log`. -/
def poll_events (env : Env) : Nat → List Ev → List Ev
  | 0, _ => []
  | j + 1, log =>
    ⟨.rd .pwr_mgmt_1, env.ret log (.rd .pwr_mgmt_1)⟩ ::
      poll_events env j (log ++ [⟨.rd .pwr_mgmt_1, env.ret log (.rd .pwr_mgmt_1)⟩])

/-- What the status read that follows `j` earlier status reads returns. -/
def poll_ret (env : Env) (j : Nat) (log : List Ev) : Int :=
  env.ret (log ++ poll_events env j log) (.rd .pwr_mgmt_1)

/-- The status read after `j` earlier ones succeeds and shows the reset bit
still set. -/
def poll_busy (K : Hdr) (env : Env) (j : Nat) (log : List Ev) : Prop :=
  0 ≤ poll_ret env j log ∧ (poll_ret env j log).toNat &&& K.BIT_H_RESET ≠ 0

/-- The status read after `j` earlier ones ends the poll: it fails, or it
shows the reset bit clear. -/
def poll_done (K : Hdr) (env : Env) (j : Nat) (log : List Ev) : Prop :=
  poll_ret env j log < 0 ∨ (poll_ret env j log).toNat &&& K.BIT_H_RESET = 0

instance (K : Hdr) (env : Env) (j : Nat) (log : List Ev) : Decidable (poll_busy K env j log) := by
  unfold poll_busy
  infer_instance

instance (K : Hdr) (env : Env) (j : Nat) (log : List Ev) : Decidable (poll_done K env j log) := by
  unfold poll_done
  infer_instance

/-- The log right after the reset write that opens `mpu6050_init_config`. -/
def reset_log (K : Hdr) (env : Env) (s : mpu6050_sensor) : List Ev :=
  (i2c_smbus_write_byte_data env s .pwr_mgmt_1 K.BIT_H_RESET).2.log

/-- The number of reads of power-mgmt-1 among the events. -/
def status_reads (evs : List Ev) : Nat :=
  (evs.filter (fun e => e.op = .rd .pwr_mgmt_1)).length

/-! ## Restoring the configuration -/

/-- The function `mpu6050_set_lpa_freq`: on the MPU6050 the wake-frequency
field of power-mgmt-2 is rewritten with the fixed 5 Hz code, whatever
`lpa_freq` is; then `lpa_freq` is cached. -/
def mpu6050_set_lpa_freq (K : Hdr) (env : Env) (s : mpu6050_sensor) (lpa_freq : Nat) :
    Int × mpu6050_sensor :=
  if s.chip_type = .INV_MPU6050 then
    let r := i2c_smbus_read_byte_data env s .pwr_mgmt_2
    if r.1 < 0 then r
    else
      let data : Nat := set_bits (clear_bits (u8 r.1) K.BIT_LPA_FREQ_MASK) K.MPU6050_LPA_5HZ
      let w := i2c_smbus_write_byte_data env r.2 .pwr_mgmt_2 data
      if w.1 < 0 then w
      else (0, { w.2 with cfg := { w.2.cfg with lpa_freq := lpa_freq } })
  else (0, { s with cfg := { s.cfg with lpa_freq := lpa_freq } })

/-- The function `mpu6050_restore_context`.  It returns the result of the
first failing access, or else the result of the last write.  A write that the
C code skips is written as the pair `(0, state)`. -/
def mpu6050_restore_context (K : Hdr) (env : Env) (s : mpu6050_sensor) :
    Int × mpu6050_sensor :=
  let w1 := i2c_smbus_write_byte_data env s .gyro_config
    (s.cfg.fsr <<< K.GYRO_CONFIG_FSR_SHIFT)
  if w1.1 < 0 then w1
  else
    let w2 := i2c_smbus_write_byte_data env w1.2 .lpf w1.2.cfg.lpf
    if w2.1 < 0 then w2
    else
      let w3 := i2c_smbus_write_byte_data env w2.2 .accel_config
        (K.ACCEL_FS_08G <<< K.ACCL_CONFIG_FSR_SHIFT)
      if w3.1 < 0 then w3
      else
        let r := i2c_smbus_read_byte_data env w3.2 .fifo_en
        if r.1 < 0 then r
        else
          let data : Nat := u8 r.1
          let a :=
            if r.2.cfg.accel_fifo_enable ≠ 0 then
              i2c_smbus_write_byte_data env r.2 .fifo_en (set_bits data K.BIT_ACCEL_FIFO)
            else (0, r.2)
          if a.1 < 0 then a
          else
            let data1 : Nat :=
              if r.2.cfg.accel_fifo_enable ≠ 0 then set_bits data K.BIT_ACCEL_FIFO else data
            let g :=
              if a.2.cfg.gyro_fifo_enable ≠ 0 then
                i2c_smbus_write_byte_data env a.2 .fifo_en (set_bits data1 K.BIT_GYRO_FIFO)
              else (0, a.2)
            if g.1 < 0 then g
            else
              let l := mpu6050_set_lpa_freq K env g.2 g.2.cfg.lpa_freq
              if l.1 < 0 then l
              else i2c_smbus_write_byte_data env l.2 .sample_rate_div (sample_rate_divider K)

/-- The part of `mpu6050_restore_context` that follows the three
configuration writes, as a function of the state they leave: the FIFO
settings, the wake frequency and the sample-rate divider.  It is the same
text as above and serves to reason about the function in two halves. -/
def restore_context_tail (K : Hdr) (env : Env) (s : mpu6050_sensor) : Int × mpu6050_sensor :=
  let r := i2c_smbus_read_byte_data env s .fifo_en
  if r.1 < 0 then r
  else
    let data : Nat := u8 r.1
    let a :=
      if r.2.cfg.accel_fifo_enable ≠ 0 then
        i2c_smbus_write_byte_data env r.2 .fifo_en (set_bits data K.BIT_ACCEL_FIFO)
      else (0, r.2)
    if a.1 < 0 then a
    else
      let data1 : Nat :=
        if r.2.cfg.accel_fifo_enable ≠ 0 then set_bits data K.BIT_ACCEL_FIFO else data
      let g :=
        if a.2.cfg.gyro_fifo_enable ≠ 0 then
          i2c_smbus_write_byte_data env a.2 .fifo_en (set_bits data1 K.BIT_GYRO_FIFO)
        else (0, a.2)
      if g.1 < 0 then g
      else
        let l := mpu6050_set_lpa_freq K env g.2 g.2.cfg.lpa_freq
        if l.1 < 0 then l
        else i2c_smbus_write_byte_data env l.2 .sample_rate_div (sample_rate_divider K)

/-! ## Acquisition -/

def MPU6050_RAW_ACCEL_DATA_LEN : Nat := 6
def MPU6050_RAW_GYRO_DATA_LEN : Nat := 6

/-- The conversion `be16_to_cpu` of the 16-bit word made of the bytes `hi`
and `lo`, stored into an `s16`. -/
def be16 (hi lo : Nat) : Int := s16 (((hi % 256) * 256 + lo % 256 : Nat) : Int)

/-- The function `mpu6050_read_accel_data` on `&sensor->axis`: one block read
of `raw_accel`, whose result is not looked at.  The bytes in the buffer are
the ones the device delivers (whatever is in the buffer, if the transfer
failed). -/
def mpu6050_read_accel_data (env : Env) (s : mpu6050_sensor) : mpu6050_sensor :=
  let buf := env.raw s.log .raw_accel
  let s1 := (hw env s (.blk .raw_accel MPU6050_RAW_ACCEL_DATA_LEN)).2
  { s1 with axis := { s1.axis with
      x := be16 (buf.getD 0 0) (buf.getD 1 0)
      y := be16 (buf.getD 2 0) (buf.getD 3 0)
      z := be16 (buf.getD 4 0) (buf.getD 5 0) } }

/-- The function `mpu6050_read_gyro_data` on `&sensor->axis`. -/
def mpu6050_read_gyro_data (env : Env) (s : mpu6050_sensor) : mpu6050_sensor :=
  let buf := env.raw s.log .raw_gyro
  let s1 := (hw env s (.blk .raw_gyro MPU6050_RAW_GYRO_DATA_LEN)).2
  { s1 with axis := { s1.axis with
      rx := be16 (buf.getD 0 0) (buf.getD 1 0)
      ry := be16 (buf.getD 2 0) (buf.getD 3 0)
      rz := be16 (buf.getD 4 0) (buf.getD 5 0) } }

/-- The function `mpu6050_interrupt_thread`. -/
def mpu6050_interrupt_thread (env : Env) (s : mpu6050_sensor) : mpu6050_sensor :=
  let s1 := mpu6050_read_accel_data env s
  let s2 := mpu6050_read_gyro_data env s1
  let s3 := hw_void s2 (.input_report_abs .accel_dev .ABS_X s2.axis.x)
  let s4 := hw_void s3 (.input_report_abs .accel_dev .ABS_Y s3.axis.y)
  let s5 := hw_void s4 (.input_report_abs .accel_dev .ABS_Z s4.axis.z)
  let s6 := hw_void s5 (.input_sync .accel_dev)
  let s7 := hw_void s6 (.input_report_abs .gyro_dev .ABS_RX s6.axis.rx)
  let s8 := hw_void s7 (.input_report_abs .gyro_dev .ABS_RY s7.axis.ry)
  let s9 := hw_void s8 (.input_report_abs .gyro_dev .ABS_RZ s8.axis.rz)
  hw_void s9 (.input_sync .gyro_dev)

/-- The function `mpu6050_accel_work_fn`.  The sums are C `int` sums of two
`s16` values, which cannot overflow; `>>` on a negative `int` is the
arithmetic shift. -/
def mpu6050_accel_work_fn (env : Env) (s : mpu6050_sensor) : mpu6050_sensor :=
  let s1 := mpu6050_read_accel_data env s
  let s2 : mpu6050_sensor := { s1 with axis := mpu6050_remap_accel_data s1.axis s1.place }
  let s3 := hw_void s2 (.input_report_abs .accel_dev .ABS_X
    ((s2.axis.x + s2.axis.off_x) >>> MPU6050_ACCEL_SCALE_SHIFT_8G))
  let s4 := hw_void s3 (.input_report_abs .accel_dev .ABS_Y
    ((s3.axis.y + s3.axis.off_y) >>> MPU6050_ACCEL_SCALE_SHIFT_8G))
  let s5 := hw_void s4 (.input_report_abs .accel_dev .ABS_Z
    ((s4.axis.z + s4.axis.off_z) >>> MPU6050_ACCEL_SCALE_SHIFT_8G))
  let s6 := hw_void s5 (.input_sync .accel_dev)
  if s6.use_poll then hw_void s6 (.schedule_delayed_work .accel_poll_work s6.accel_poll_ms)
  else s6

/-- The function `mpu6050_gyro_work_fn`.  The negated value is stored back
into the `s16` field `axis.rx` before the reports are built; the period of
the next run is the `u32` sum `gyro_poll_ms + 10`. -/
def mpu6050_gyro_work_fn (env : Env) (s : mpu6050_sensor) : mpu6050_sensor :=
  let s1 := mpu6050_read_gyro_data env s
  let s2 : mpu6050_sensor := { s1 with axis := mpu6050_remap_gyro_data s1.axis s1.place }
  let s2 : mpu6050_sensor :=
    { s2 with axis := { s2.axis with rx := s16 (-(s2.axis.rx + s2.axis.off_rx)) } }
  let s3 := hw_void s2 (.input_report_abs .gyro_dev .ABS_RX
    ((s2.axis.rx + s2.axis.off_rx) >>> MPU6050_GYRO_SCALE_SHIFT_FS0))
  let s4 := hw_void s3 (.input_report_abs .gyro_dev .ABS_RY
    ((s3.axis.ry + s3.axis.off_ry) >>> MPU6050_GYRO_SCALE_SHIFT_FS0))
  let s5 := hw_void s4 (.input_report_abs .gyro_dev .ABS_RZ
    ((s4.axis.rz + s4.axis.off_rz) >>> MPU6050_GYRO_SCALE_SHIFT_FS0))
  let s6 := hw_void s5 (.input_sync .gyro_dev)
  if s6.use_poll then
    hw_void s6 (.schedule_delayed_work .gyro_poll_work ((s6.gyro_poll_ms + 10) % 4294967296))
  else s6

/-! ## Enable, disable and poll interval -/

/-- The function `mpu6050_gyro_set_enable` (the mutex is left out). -/
def mpu6050_gyro_set_enable (K : Hdr) (env : Env) (s : mpu6050_sensor) (enable : Bool) :
    Int × mpu6050_sensor :=
  if enable then
    let p : Int × mpu6050_sensor :=
      if s.cfg.enable = 0 then
        let pw := mpu6050_power_ctl env s true
        if pw.1 < 0 then pw else mpu6050_restore_context K env pw.2
      else (0, s)
    if p.1 < 0 then p
    else
      let g := mpu6050_gyro_enable K env p.2 true
      if g.1 ≠ 0 then (- EBUSY, g.2)
      else if g.2.use_poll then
        (g.1, hw_void g.2 (.schedule_delayed_work .gyro_poll_work g.2.gyro_poll_ms))
      else (g.1, hw_void g.2 .enable_irq)
  else
    let g := mpu6050_gyro_enable K env s false
    if g.1 ≠ 0 then (- EBUSY, g.2)
    else if g.2.use_poll then (g.1, hw_void g.2 (.cancel_delayed_work_sync .gyro_poll_work))
    else (g.1, hw_void g.2 .disable_irq)

/-- The function `mpu6050_accel_set_enable` (the mutex is left out). -/
def mpu6050_accel_set_enable (K : Hdr) (env : Env) (s : mpu6050_sensor) (enable : Bool) :
    Int × mpu6050_sensor :=
  if enable then
    let p : Int × mpu6050_sensor :=
      if s.cfg.enable = 0 then
        let pw := mpu6050_power_ctl env s true
        if pw.1 < 0 then pw else mpu6050_restore_context K env pw.2
      else (0, s)
    if p.1 < 0 then p
    else
      let a := mpu6050_accel_enable K env p.2 true
      if a.1 ≠ 0 then (- EBUSY, a.2)
      else if a.2.use_poll then
        (a.1, hw_void a.2 (.schedule_delayed_work .accel_poll_work a.2.accel_poll_ms))
      else (a.1, hw_void a.2 .enable_irq)
  else
    let s1 :=
      if s.use_poll then hw_void s (.cancel_delayed_work_sync .accel_poll_work)
      else hw_void s .disable_irq
    let a := mpu6050_accel_enable K env s1 false
    if a.1 ≠ 0 then (- EBUSY, a.2) else a

/-- The function `mpu6050_gyro_set_poll_delay`. -/
def mpu6050_gyro_set_poll_delay (s : mpu6050_sensor) (delay : Nat) : Int × mpu6050_sensor :=
  let d1 := if delay < MPU6050_GYRO_MIN_POLL_INTERVAL_MS then
    MPU6050_GYRO_MIN_POLL_INTERVAL_MS else delay
  let d2 := if d1 > MPU6050_GYRO_MAX_POLL_INTERVAL_MS then
    MPU6050_GYRO_MAX_POLL_INTERVAL_MS else d1
  let s1 : mpu6050_sensor := { s with gyro_poll_ms := d2 }
  if s1.use_poll then
    (0, hw_void (hw_void s1 (.cancel_delayed_work_sync .gyro_poll_work))
      (.schedule_delayed_work .gyro_poll_work s1.gyro_poll_ms))
  else (0, s1)

/-- The function `mpu6050_accel_set_poll_delay`: the new interval is stored
only if it differs from the cached one and the write of the sample-rate
divider returns 0; the function returns 0 in every case. -/
def mpu6050_accel_set_poll_delay (K : Hdr) (env : Env) (s : mpu6050_sensor) (delay : Nat) :
    Int × mpu6050_sensor :=
  let d1 := if delay < MPU6050_ACCEL_MIN_POLL_INTERVAL_MS then
    MPU6050_ACCEL_MIN_POLL_INTERVAL_MS else delay
  let d2 := if d1 > MPU6050_ACCEL_MAX_POLL_INTERVAL_MS then
    MPU6050_ACCEL_MAX_POLL_INTERVAL_MS else d1
  let s1 : mpu6050_sensor :=
    if s.accel_poll_ms ≠ d2 then
      let w := i2c_smbus_write_byte_data env s .sample_rate_div (sample_rate_divider K)
      if w.1 = 0 then { w.2 with accel_poll_ms := d2 } else w.2
    else s
  if s1.use_poll then
    (0, hw_void (hw_void s1 (.cancel_delayed_work_sync .accel_poll_work))
      (.schedule_delayed_work .accel_poll_work s1.accel_poll_ms))
  else (0, s1)

/-- The function `mpu6050_accel_attr_set_polling_delay`, the store method of
the sysfs attribute.  `interval_ms` is the outcome of `kstrtoul(buf, 10, ...)`:
`none` when the text is not a number.  `size` is the length of the text, which
the method returns on success. -/
def mpu6050_accel_attr_set_polling_delay (K : Hdr) (env : Env) (s : mpu6050_sensor)
    (interval_ms : Option Nat) (size : Nat) : Int × mpu6050_sensor :=
  match interval_ms with
  | none => (- EINVAL, s)
  | some d =>
    let r := mpu6050_accel_set_poll_delay K env s d
    (if r.1 ≠ 0 then - EBUSY else (size : Int), r.2)

/-! ## Calibration -/

/-- The sampling loop of `gyro_calibration_xyz`, with `n` iterations left:
read, remap, add to the three `int` sums. -/
def gyro_calibration_loop (env : Env) :
    Nat → mpu6050_sensor → Int × Int × Int → mpu6050_sensor × (Int × Int × Int)
  | 0, s, acc => (s, acc)
  | n + 1, s, acc =>
    let s1 := mpu6050_read_gyro_data env s
    let s2 : mpu6050_sensor := { s1 with axis := mpu6050_remap_gyro_data s1.axis s1.place }
    gyro_calibration_loop env n s2
      (acc.1 + s2.axis.rx, acc.2.1 + s2.axis.ry, acc.2.2 + s2.axis.rz)

/-- The function `gyro_calibration_xyz`; `/` of the C code is the truncating
division, and the offsets are `s16` fields. -/
def gyro_calibration_xyz (K : Hdr) (env : Env) (s : mpu6050_sensor) : Int × mpu6050_sensor :=
  let pwr_bak := s.cfg.enable
  let s1 := (mpu6050_gyro_set_enable K env s true).2
  let l := gyro_calibration_loop env CALIBRATION_TEST_COUNT s1 (0, 0, 0)
  let gyro_x := Int.tdiv l.2.1 CALIBRATION_TEST_COUNT
  let gyro_y := Int.tdiv l.2.2.1 CALIBRATION_TEST_COUNT
  let gyro_z := Int.tdiv l.2.2.2 CALIBRATION_TEST_COUNT
  let s2 : mpu6050_sensor := { l.1 with axis := { l.1.axis with
    off_rx := s16 (-gyro_x)
    off_ry := s16 (-gyro_y)
    off_rz := s16 (-gyro_z) } }
  if pwr_bak = 0 then (0, (mpu6050_gyro_set_enable K env s2 false).2) else (0, s2)

/-- The sampling loop of `mpu6050_self_calibration_xyz`, with `n` iterations
left: read, remap, add a tenth of each value (truncating division) to the
three `int` sums. -/
def accel_calibration_loop (env : Env) :
    Nat → mpu6050_sensor → Int × Int × Int → mpu6050_sensor × (Int × Int × Int)
  | 0, s, acc => (s, acc)
  | n + 1, s, acc =>
    let s1 := mpu6050_read_accel_data env s
    let s2 : mpu6050_sensor := { s1 with axis := mpu6050_remap_accel_data s1.axis s1.place }
    accel_calibration_loop env n s2
      (acc.1 + Int.tdiv s2.axis.x CALIBRATION_TEST_COUNT,
       acc.2.1 + Int.tdiv s2.axis.y CALIBRATION_TEST_COUNT,
       acc.2.2 + Int.tdiv s2.axis.z CALIBRATION_TEST_COUNT)

/-- The function `mpu6050_self_calibration_xyz`. -/
def mpu6050_self_calibration_xyz (K : Hdr) (env : Env) (s : mpu6050_sensor) :
    Int × mpu6050_sensor :=
  let pwr_bak := s.cfg.enable
  let s1 := (mpu6050_accel_set_enable K env s true).2
  let l := accel_calibration_loop env CALIBRATION_TEST_COUNT s1 (0, 0, 0)
  let s2 := if pwr_bak = 0 then (mpu6050_accel_set_enable K env l.1 false).2 else l.1
  (0, { s2 with axis := { s2.axis with
    off_x := s16 (0 - l.2.1)
    off_y := s16 (0 - l.2.2.1)
    off_z := s16 (MPU6050_ACCEL_UNIT_08G - l.2.2.2) } })

/-! ## Chip identification -/

/-- The function `mpu_check_chip_type`; `name` is `id->name`.  The call
`setup_mpu6050_reg` fills the register map, which the model names
symbolically. -/
def mpu_check_chip_type (K : Hdr) (env : Env) (s : mpu6050_sensor) (name : String) :
    Int × mpu6050_sensor :=
  if name ≠ "mpu6050" ∧ name ≠ "mpu6500" ∧ name ≠ "mpu6xxx" then (- EPERM, s)
  else
    let s0 : mpu6050_sensor :=
      { s with chip_type := if name = "mpu6500" then .INV_MPU6500 else .INV_MPU6050 }
    let p1 := mpu6050_set_power_mode K env s0 false
    if p1.1 ≠ 0 then p1
    else
      let p2 := mpu6050_set_power_mode K env p1.2 true
      if p2.1 ≠ 0 then p2
      else if name = "mpu6xxx" then
        let r := i2c_smbus_read_byte_data env p2.2 .whoami
        if r.1 < 0 then r
        else if r.1 = (K.MPU6500_ID : Int) then (0, { r.2 with chip_type := .INV_MPU6500 })
        else if r.1 = (K.MPU6050_ID : Int) then (0, { r.2 with chip_type := .INV_MPU6050 })
        else (- ENODEV, r.2)
      else (0, p2.2)

/-! ## Resume work -/

/-- The function `mpu6050_delay_resume_work_fn`; every `goto exit` ends the
function with the state reached so far. -/
def mpu6050_delay_resume_work_fn (K : Hdr) (env : Env) (s : mpu6050_sensor) :
    mpu6050_sensor :=
  let r1 := mpu6050_restore_context K env s
  if r1.1 < 0 then r1.2
  else if r1.2.cfg.enable ≠ 0 ∧ (mpu6050_restore_context K env r1.2).1 < 0 then
    (mpu6050_restore_context K env r1.2).2
  else
    let s2 : mpu6050_sensor :=
      if r1.2.cfg.enable ≠ 0 then
        (mpu6050_set_power_mode K env (mpu6050_restore_context K env r1.2).2 true).2
      else (mpu6050_set_power_mode K env r1.2 false).2
    let g : Int × mpu6050_sensor :=
      if s2.cfg.gyro_enable ≠ 0 then mpu6050_gyro_enable K env s2 true else (0, s2)
    if g.1 < 0 then g.2
    else
      let s3 : mpu6050_sensor :=
        if s2.cfg.gyro_enable ≠ 0 ∧ g.2.use_poll then
          hw_void g.2 (.schedule_delayed_work .gyro_poll_work g.2.gyro_poll_ms)
        else g.2
      let a : Int × mpu6050_sensor :=
        if s3.cfg.accel_enable ≠ 0 then mpu6050_accel_enable K env s3 true else (0, s3)
      if a.1 < 0 then a.2
      else if s3.cfg.accel_enable ≠ 0 ∧ a.2.use_poll then
        hw_void a.2 (.schedule_delayed_work .accel_poll_work a.2.accel_poll_ms)
      else a.2

/-! ## Suspend and resume -/

/-- The function `mpu6050_suspend` (the mutex is left out).  The result of
`mpu6050_set_power_mode` is not looked at; the result of `mpu6050_power_ctl`
is returned. -/
def mpu6050_suspend (K : Hdr) (env : Env) (s : mpu6050_sensor) : Int × mpu6050_sensor :=
  let s1 : mpu6050_sensor :=
    if !s.use_poll then hw_void s .disable_irq
    else
      let g :=
        if s.cfg.gyro_enable ≠ 0 then hw_void s (.cancel_delayed_work_sync .gyro_poll_work)
        else s
      if g.cfg.accel_enable ≠ 0 then hw_void g (.cancel_delayed_work_sync .accel_poll_work)
      else g
  let s2 := (mpu6050_set_power_mode K env s1 false).2
  mpu6050_power_ctl env s2 false

/-- The function `mpu6050_resume`.  The variable `ret` is initialised to 0
and never assigned; the results of the regulator calls go to `rc`, which is
only logged.  The delayed resume work is scheduled after 100 ms. -/
def mpu6050_resume (env : Env) (s : mpu6050_sensor) : Int × mpu6050_sensor :=
  if !s.power_enabled then
    let r1 := regulator_enable env s .vdd
    let r2 := regulator_enable env r1.2 .vlogic
    let s2 := if r2.1 ≠ 0 then (regulator_disable env r2.2 .vdd).2 else r2.2
    let r3 := regulator_enable env s2 .vi2c
    let s3 :=
      if r3.1 ≠ 0 then (regulator_disable env (regulator_disable env r3.2 .vlogic).2 .vdd).2
      else r3.2
    let s4 := if s3.enable_gpio_valid then hw_void s3 (.gpio_set_value 1) else s3
    let s5 := hw_void s4 (.schedule_delayed_work .delay_resume_work 100)
    (0, { s5 with power_enabled := true })
  else (0, s)

/-! ## Concrete states and devices -/

/-- A device on which every operation succeeds and every register reads 0. -/
def env_ok : Env where
  ret := fun _ _ => 0
  raw := fun _ _ => [0, 0, 0, 0, 0, 0]

/-- A powered-down sensor in polled mode whose cached configuration is all
zero, as the allocation leaves it before `mpu6050_init_config` has run; the
poll intervals are the defaults.  The state that a complete probe leaves is
`sensor_probed`. -/
def sensor0 : mpu6050_sensor where
  chip_type := .INV_MPU6050
  cfg := mpu_chip_config.zero
  axis := ⟨0, 0, 0, 0, 0, 0, 0, 0, 0, 0, 0, 0⟩
  gyro_poll_ms := 200
  accel_poll_ms := 200
  enable_gpio_valid := true
  use_poll := true
  power_enabled := false
  place := 0
  log := []

/-- A device on which one operation fails with `-EIO` and all others
succeed. -/
def env_fail (bad : Op) : Env where
  ret := fun _ op => if op = bad then -5 else 0
  raw := fun _ _ => [0, 0, 0, 0, 0, 0]

/-- A device whose power-mgmt-1 reads back with the reset bit set (0x80) as
long as fewer than `n` operations have been performed, and reads 0 from then
on; every other operation succeeds. -/
def env_reset_until (n : Nat) : Env where
  ret := fun log op =>
    match op with
    | .rd .pwr_mgmt_1 => if log.length < n then 0x80 else 0
    | _ => 0
  raw := fun _ _ => [0, 0, 0, 0, 0, 0]

/-- A device whose reset bit never clears: power-mgmt-1 always reads 0x80. -/
def env_stuck : Env where
  ret := fun _ op =>
    match op with
    | .rd .pwr_mgmt_1 => 0x80
    | _ => 0
  raw := fun _ _ => [0, 0, 0, 0, 0, 0]

/-- A device on which every operation succeeds and every block read
delivers the bytes `b`. -/
def env_raw (b : List Nat) : Env where
  ret := fun _ _ => 0
  raw := fun _ _ => b

/-- A device on which every operation succeeds, every register reads 0
and the identity register reads `id`. -/
def env_whoami (id : Int) : Env where
  ret := fun _ op =>
    match op with
    | .rd .whoami => id
    | _ => 0
  raw := fun _ _ => [0, 0, 0, 0, 0, 0]

/-- The content of register `r` after the operations in `log`, on a device
that keeps what is written: the value of the last write of `r`, or `init r`
when `r` has not been written. -/
def reg_value (init : Reg → Nat) (r : Reg) (log : List Ev) : Nat :=
  log.foldl (fun cur e =>
    match e.op with
    | .wr r2 v => if r2 = r then v else cur
    | _ => cur) (init r)

/-- A faithful register file: every access succeeds, a write returns 0 and
a read returns the last value written to the register (`init` at the start). -/
def env_regfile (init : Reg → Nat) : Env where
  ret := fun log op =>
    match op with
    | .rd r => (reg_value init r log : Int)
    | _ => 0
  raw := fun _ _ => [0, 0, 0, 0, 0, 0]

/-- The sensor `sensor0` in interrupt mode. -/
def sensor0_int : mpu6050_sensor := { sensor0 with use_poll := false }

/-- The sensor as a complete `mpu6050_probe` leaves it, for the header values
`mpu6050_h`: the configuration cached by `mpu6050_init_config` (2000 dps, the
42 Hz filter, 8g, `INIT_FIFO_RATE`, every flag and the wake frequency zero),
both poll intervals at their default, the rails switched off again, polled
mode. -/
def sensor_probed : mpu6050_sensor :=
  { sensor0 with cfg := { mpu_chip_config.zero with
      fsr := mpu6050_h.MPU_FSR_2000DPS
      lpf := mpu6050_h.MPU_DLPF_42HZ
      accel_fs := mpu6050_h.ACCEL_FS_08G
      fifo_rate := mpu6050_h.INIT_FIFO_RATE } }

/-- The rails that `mpu6050_power_ctl` enables before rail `r`. -/
def rails_before : Rail → List Rail
  | .vdd => []
  | .vlogic => [.vdd]
  | .vi2c => [.vdd, .vlogic]

/-! ## Notions used in the statements -/

/-- Every register read and write on the bus succeeds. -/
def bus_ok (env : Env) : Prop :=
  (∀ log r, 0 ≤ env.ret log (.rd r)) ∧ (∀ log r v, 0 ≤ env.ret log (.wr r v))

/-- The outcome `p` of an engine-enable call from state `s` with `on=true`:
success, `cfg.enable` is 1, and the last bus access of the call is a write of
power-mgmt-1 with the sleep bit clear. -/
def sleep_rule_on (K : Hdr) (s : mpu6050_sensor) (p : Int × mpu6050_sensor) : Prop :=
  p.1 = 0 ∧ p.2.cfg.enable = 1 ∧
  ∃ v ret, (new_events s p.2).getLast? = some ⟨.wr .pwr_mgmt_1 v, ret⟩ ∧ v &&& K.BIT_SLEEP = 0

/-- The outcome `p` of an engine-enable call from state `s` with `on=false`,
where `other` is the enable flag of the other engine.  If `other` is 0, the
last bus access of the call is a write of power-mgmt-1 with the sleep bit
set, and `cfg.enable` becomes 0.  If `other` is not 0, `cfg.enable` keeps its
value and no write of the call turns the sleep bit on: a write of
power-mgmt-1 carries a sleep bit only if a read of power-mgmt-1 in the same
call returned it. -/
def sleep_rule_off (K : Hdr) (s : mpu6050_sensor) (other : Nat)
    (p : Int × mpu6050_sensor) : Prop :=
  p.1 = 0 ∧
  (other = 0 → p.2.cfg.enable = 0 ∧
    ∃ v ret, (new_events s p.2).getLast? = some ⟨.wr .pwr_mgmt_1 v, ret⟩ ∧
      v &&& K.BIT_SLEEP = K.BIT_SLEEP) ∧
  (other ≠ 0 → p.2.cfg.enable = s.cfg.enable ∧
    (∀ v ret, (new_events s p.2).getLast? ≠ some ⟨.wr .pwr_mgmt_1 v, ret⟩) ∧
    ∀ e ∈ new_events s p.2, ∀ v, e.op = .wr .pwr_mgmt_1 v → v &&& K.BIT_SLEEP ≠ 0 →
      ∃ e2 ∈ new_events s p.2, e2.op = .rd .pwr_mgmt_1 ∧ u8 e2.ret &&& K.BIT_SLEEP ≠ 0)

/-- Whether an operation is an access to the standby bits, that is, a read or
a write of power-mgmt-2. -/
def standby_access : Op → Bool
  | .rd .pwr_mgmt_2 => true
  | .wr .pwr_mgmt_2 _ => true
  | _ => false

/-- The outcome `p` of an engine-enable call from state `s`: a failed access
to the standby bits ends the call with that error and with the cached
configuration as it was, and the cached configuration differs from the one
before the call only if the call contains a successful write of
power-mgmt-2. -/
def flag_follows_standby (s : mpu6050_sensor) (p : Int × mpu6050_sensor) : Prop :=
  (∀ e ∈ new_events s p.2, standby_access e.op = true → e.ret < 0 →
    p.1 = e.ret ∧ p.2.cfg = s.cfg) ∧
  (p.2.cfg ≠ s.cfg → ∃ e ∈ new_events s p.2, ∃ v, e.op = .wr .pwr_mgmt_2 v ∧ 0 ≤ e.ret)

/-- The values reported for axis `a` of input device `d` among the events,
in order. -/
def reported (d : InputDev) (a : Abs) (evs : List Ev) : List Int :=
  evs.filterMap fun e =>
    match e.op with
    | .input_report_abs d2 a2 v => if d2 = d ∧ a2 = a then some v else none
    | _ => none

/-- State `t` is reached from state `s` by control-plane code: the sample
and offset record, the two poll intervals, the acquisition mode, the
orientation and the enable-line validity are as in `s`, and the log of `t` is
the log of `s` followed by operations that all satisfy `P`. -/
def steps (P : Op → Prop) (s t : mpu6050_sensor) : Prop :=
  t.axis = s.axis ∧ t.gyro_poll_ms = s.gyro_poll_ms ∧ t.accel_poll_ms = s.accel_poll_ms ∧
  t.use_poll = s.use_poll ∧ t.place = s.place ∧ t.enable_gpio_valid = s.enable_gpio_valid ∧
  ∃ evs, t.log = s.log ++ evs ∧ ∀ e ∈ evs, P e.op

/-- `P` holds for every operation other than a block read, a timer
scheduling and an input event: register reads and writes, regulator calls,
the enable line, timer cancellation and the interrupt line. -/
def covers_ctl (P : Op → Prop) : Prop :=
  (∀ r, P (.rd r)) ∧ (∀ r v, P (.wr r v)) ∧ (∀ r, P (.regulator_enable r)) ∧
  (∀ r, P (.regulator_disable r)) ∧ (∀ v, P (.gpio_set_value v)) ∧
  (∀ w, P (.cancel_delayed_work_sync w)) ∧ P .enable_irq ∧ P .disable_irq

/-- Whether the event is a block read of `r`. -/
def is_blk (r : Reg) (e : Ev) : Bool :=
  match e.op with
  | .blk r2 _ => decide (r2 = r)
  | _ => false

/-- The number of block reads of `r` among `evs`. -/
def blk_count (r : Reg) (evs : List Ev) : Nat := evs.countP (is_blk r)

/-- From state `s` on, the block reads of `r` deliver the byte strings
`samples 0`, `samples 1`, ... in this order. -/
def delivers (env : Env) (s : mpu6050_sensor) (r : Reg) (samples : Nat → List Nat) : Prop :=
  ∀ evs, env.raw (s.log ++ evs) r = samples (blk_count r evs)

/-- A device on which every operation succeeds and the `i`-th block read of
a register (counted from 0, per register) delivers `samples i`. -/
def env_samples (samples : Nat → List Nat) : Env where
  ret := fun _ _ => 0
  raw := fun log r => samples (blk_count r log)

/-- The remapped gyroscope sample decoded from the bytes `b`, for the
orientation `place`. -/
def gyro_sample (b : List Nat) (place : Int) : axis_data :=
  mpu6050_remap_gyro_data
    ⟨0, 0, 0, 0, 0, 0, be16 (b.getD 0 0) (b.getD 1 0), be16 (b.getD 2 0) (b.getD 3 0),
      be16 (b.getD 4 0) (b.getD 5 0), 0, 0, 0⟩ place

/-- The remapped accelerometer sample decoded from the bytes `b`, for the
orientation `place`. -/
def accel_sample (b : List Nat) (place : Int) : axis_data :=
  mpu6050_remap_accel_data
    ⟨be16 (b.getD 0 0) (b.getD 1 0), be16 (b.getD 2 0) (b.getD 3 0),
      be16 (b.getD 4 0) (b.getD 5 0), 0, 0, 0, 0, 0, 0, 0, 0, 0⟩ place

/-- The sum of `f 0`, ..., `f 9`. -/
def sum10 (f : Nat → Int) : Int := ((List.range CALIBRATION_TEST_COUNT).map f).sum

/-- The arithmetic mean of `f 0`, ..., `f 9` with integer truncation. -/
def mean10 (f : Nat → Int) : Int := Int.tdiv (sum10 f) 10

/-- The operation is not a block read. -/
def not_blk (op : Op) : Prop := ∀ r n, op ≠ .blk r n

/-- The entry points of the driver that schedule a polling timer or change
a poll interval. -/
inductive Action where
  | gyro_set_poll_delay (delay : Nat)
  | accel_set_poll_delay (delay : Nat)
  | gyro_set_enable (enable : Bool)
  | accel_set_enable (enable : Bool)
  | gyro_work_fn
  | accel_work_fn
  | delay_resume_work_fn
  deriving DecidableEq, Repr

/-- One call of an entry point. -/
def Action.run (K : Hdr) (env : Env) (s : mpu6050_sensor) : Action → mpu6050_sensor
  | .gyro_set_poll_delay d => (mpu6050_gyro_set_poll_delay s d).2
  | .accel_set_poll_delay d => (mpu6050_accel_set_poll_delay K env s d).2
  | .gyro_set_enable b => (mpu6050_gyro_set_enable K env s b).2
  | .accel_set_enable b => (mpu6050_accel_set_enable K env s b).2
  | .gyro_work_fn => mpu6050_gyro_work_fn env s
  | .accel_work_fn => mpu6050_accel_work_fn env s
  | .delay_resume_work_fn => mpu6050_delay_resume_work_fn K env s

/-- A sequence of calls of entry points, one after the other. -/
def run_actions (K : Hdr) (env : Env) (s : mpu6050_sensor) (acts : List Action) :
    mpu6050_sensor :=
  acts.foldl (fun t a => a.run K env t) s

/-- The three range settings of the cached configuration (gyro full-scale
range, low-pass filter, accelerometer full-scale range) are in `t` what they
are in `s`. -/
def ranges_kept (s t : mpu6050_sensor) : Prop :=
  t.cfg.fsr = s.cfg.fsr ∧ t.cfg.lpf = s.cfg.lpf ∧ t.cfg.accel_fs = s.cfg.accel_fs

/-- Whether an operation is an access to one of the two power-management
registers: the footprint of `mpu6050_switch_engine`,
`mpu6050_set_power_mode` and the two engine-enable functions. -/
def pm_op : Op → Bool
  | .rd .pwr_mgmt_1 => true
  | .wr .pwr_mgmt_1 _ => true
  | .rd .pwr_mgmt_2 => true
  | .wr .pwr_mgmt_2 _ => true
  | _ => false

/-- Whether an operation is a register read or write, a regulator call or a
change of the enable line. -/
def bus_op : Op → Bool
  | .rd _ => true
  | .wr _ _ => true
  | .regulator_enable _ => true
  | .regulator_disable _ => true
  | .gpio_set_value _ => true
  | _ => false

/-- Whether an operation is a regulator call or a change of the enable
line: the footprint of `mpu6050_power_ctl`. -/
def rail_op : Op → Bool
  | .regulator_enable _ => true
  | .regulator_disable _ => true
  | .gpio_set_value _ => true
  | _ => false

/-- Whether an operation is a bus access of `mpu6050_restore_context`. -/
def restore_op : Op → Bool
  | .wr .gyro_config _ => true
  | .wr .lpf _ => true
  | .wr .accel_config _ => true
  | .rd .fifo_en => true
  | .wr .fifo_en _ => true
  | .rd .pwr_mgmt_2 => true
  | .wr .pwr_mgmt_2 _ => true
  | .wr .sample_rate_div _ => true
  | _ => false

/-- Whether an operation arms the acquisition: it schedules one of the two
polling timers or enables the sampling interrupt. -/
def arm_op : Op → Bool
  | .schedule_delayed_work .accel_poll_work _ => true
  | .schedule_delayed_work .gyro_poll_work _ => true
  | .enable_irq => true
  | _ => false

/-- The operation fits the acquisition mode `use_poll`: a polling timer is
scheduled only in polled mode, the sampling interrupt is enabled only in
interrupt mode. -/
def mode_ok (use_poll : Bool) (op : Op) : Prop :=
  match op with
  | .schedule_delayed_work .accel_poll_work _ => use_poll = true
  | .schedule_delayed_work .gyro_poll_work _ => use_poll = true
  | .enable_irq => use_poll = false
  | _ => True

/-- Every register access succeeds and every regulator call returns 0. -/
def all_ok (env : Env) : Prop :=
  bus_ok env ∧ (∀ log r, env.ret log (.regulator_enable r) = 0) ∧
  (∀ log r, env.ret log (.regulator_disable r) = 0)

/-- The six persistent offsets fit the `s16` fields that hold them. -/
def offsets_s16 (a : axis_data) : Prop :=
  (-32768 ≤ a.off_x ∧ a.off_x ≤ 32767) ∧ (-32768 ≤ a.off_y ∧ a.off_y ≤ 32767) ∧
  (-32768 ≤ a.off_z ∧ a.off_z ≤ 32767) ∧ (-32768 ≤ a.off_rx ∧ a.off_rx ≤ 32767) ∧
  (-32768 ≤ a.off_ry ∧ a.off_ry ≤ 32767) ∧ (-32768 ≤ a.off_rz ∧ a.off_rz ≤ 32767)

instance (a : axis_data) : Decidable (offsets_s16 a) := by
  unfold offsets_s16
  infer_instance

/-! ## Theorems -/

/-- C1: with mounting orientation 0, `mpu6050_remap_accel_data` and
`mpu6050_remap_gyro_data` return the sample unchanged, raw values and
offsets alike. -/
theorem remap_place_zero_identity (data : axis_data) :
    mpu6050_remap_accel_data data 0 = data ∧ mpu6050_remap_gyro_data data 0 = data := by
  constructor <;> rfl


/-! ### Helper lemmas -/

@[simp] theorem drop_log_append (l x : List Ev) : (l ++ x).drop l.length = x :=
  List.drop_left l x

theorem testBit_255 (j : Nat) : Nat.testBit 255 j = decide (j < 8) := by
  have h : (255 : Nat) = 2 ^ 8 - 1 := by norm_num
  rw [h, Nat.testBit_two_pow_sub_one]

theorem mod_256_eq (x : Nat) : x % 256 = x % 2 ^ 8 := by norm_num

theorem clear_bits_and (x m : Nat) : clear_bits x m &&& m = 0 := by
  apply Nat.eq_of_testBit_eq
  intro j
  simp only [clear_bits, mod_256_eq, Nat.testBit_and, Nat.testBit_xor, Nat.testBit_mod_two_pow,
    testBit_255, Nat.zero_testBit]
  by_cases h : j < 8 <;> simp [h]

theorem set_bits_and (x m : Nat) (hm : m < 256) : set_bits x m &&& m = m := by
  apply Nat.eq_of_testBit_eq
  intro j
  simp only [set_bits, mod_256_eq, Nat.testBit_and, Nat.testBit_or, Nat.testBit_mod_two_pow]
  by_cases h : j < 8
  · simp [h]
    exact fun hh => Or.inr hh
  · have hj : m.testBit j = false := by
      apply Nat.testBit_lt_two_pow
      calc m < 2 ^ 8 := by simpa using hm
        _ ≤ 2 ^ j := Nat.pow_le_pow_right (by norm_num) (by omega)
    simp [h, hj]

theorem set_clear_carries (x c i m : Nat) (hx : (x % 256) &&& m = 0) (hi : i &&& m = 0) :
    set_bits (clear_bits x c) i &&& m = 0 := by
  apply Nat.eq_of_testBit_eq
  intro j
  have h1 := congrArg (fun n => Nat.testBit n j) hx
  have h2 := congrArg (fun n => Nat.testBit n j) hi
  simp only [mod_256_eq, Nat.testBit_and, Nat.testBit_mod_two_pow, Nat.zero_testBit] at h1 h2
  simp only [set_bits, clear_bits, mod_256_eq, Nat.testBit_and, Nat.testBit_or, Nat.testBit_xor,
    Nat.testBit_mod_two_pow, testBit_255, Nat.zero_testBit]
  by_cases h : j < 8 <;> simp [h] at h1 h2 ⊢
  cases hm : m.testBit j <;> simp_all

theorem clear_bits_mod (x m : Nat) : clear_bits x m % 256 = clear_bits x m := by
  apply Nat.mod_eq_of_lt
  unfold clear_bits
  exact lt_of_le_of_lt Nat.and_le_left (Nat.mod_lt _ (by norm_num))

theorem set_bits_mod (x m : Nat) : set_bits x m % 256 = set_bits x m := by
  unfold set_bits
  exact Nat.mod_mod _ _

theorem u8_lt (x : Int) : u8 x < 256 := by
  unfold u8
  omega

theorem u8_mod (x : Int) : u8 x % 256 = u8 x := Nat.mod_eq_of_lt (u8_lt x)

/-- What `mpu6050_switch_engine` does to the state: it only appends bus
events; an access that fails is the one whose code is returned; a return of 0
comes with a successful write of power-mgmt-2; a non-zero return is negative. -/
theorem switch_engine_frame (K : Hdr) (env : Env) (s : mpu6050_sensor) (en : Bool)
    (mask : Nat) :
    (mpu6050_switch_engine K env s en mask).2 =
      { s with log := s.log ++ new_events s (mpu6050_switch_engine K env s en mask).2 } ∧
    (∀ e ∈ new_events s (mpu6050_switch_engine K env s en mask).2, e.ret < 0 →
      (mpu6050_switch_engine K env s en mask).1 = e.ret) ∧
    ((mpu6050_switch_engine K env s en mask).1 = 0 →
      ∃ e ∈ new_events s (mpu6050_switch_engine K env s en mask).2,
        ∃ v, e.op = .wr .pwr_mgmt_2 v ∧ 0 ≤ e.ret) ∧
    ((mpu6050_switch_engine K env s en mask).1 ≠ 0 →
      (mpu6050_switch_engine K env s en mask).1 < 0) := by
  unfold mpu6050_switch_engine
  simp only [i2c_smbus_read_byte_data, i2c_smbus_write_byte_data, hw, new_events]
  by_cases hg : K.BIT_PWR_GYRO_STBY_MASK = mask <;> cases en <;>
    simp only [hg, beq_self_eq_true, beq_iff_eq, if_true, if_false, Bool.and_true, Bool.and_false,
      Bool.not_true, Bool.not_false, Bool.true_and, Bool.false_and, Bool.false_eq_true,
      lt_self_iff_false] <;>
    split_ifs <;> simp_all
  all_goals omega

theorem switch_engine_shape (K : Hdr) (env : Env) (s : mpu6050_sensor) (en : Bool)
    (mask : Nat) :
    ∃ e1 evs, mpu6050_switch_engine K env s en mask = (e1, { s with log := s.log ++ evs }) ∧
      (∀ e ∈ evs, e.ret < 0 → e1 = e.ret) ∧
      (e1 = 0 → ∃ e ∈ evs, ∃ v, e.op = .wr .pwr_mgmt_2 v ∧ 0 ≤ e.ret) ∧
      (e1 ≠ 0 → e1 < 0) := by
  obtain ⟨h1, h2, h3, h4⟩ := switch_engine_frame K env s en mask
  exact ⟨_, _, Prod.ext rfl h1, h2, h3, h4⟩

theorem gyro_enable_eq (K : Hdr) (env : Env) (s : mpu6050_sensor) (on_ : Bool) :
    mpu6050_gyro_enable K env s on_ =
      engine_enable K env K.BIT_PWR_GYRO_STBY_MASK (fun c v => { c with gyro_enable := v })
        (fun c => c.accel_enable) s on_ := rfl

theorem accel_enable_eq (K : Hdr) (env : Env) (s : mpu6050_sensor) (on_ : Bool) :
    mpu6050_accel_enable K env s on_ =
      engine_enable K env K.BIT_PWR_ACCEL_STBY_MASK (fun c v => { c with accel_enable := v })
        (fun c => c.gyro_enable) s on_ := rfl

theorem engine_enable_follows_standby (K : Hdr) (env : Env) (mask : Nat)
    (set_flag : mpu_chip_config → Nat → mpu_chip_config) (other : mpu_chip_config → Nat)
    (s : mpu6050_sensor) (on_ : Bool) :
    flag_follows_standby s (engine_enable K env mask set_flag other s on_) := by
  unfold engine_enable
  by_cases ha : s.cfg.is_asleep = 0
  swap
  · simp [flag_follows_standby, new_events, ha]
  by_cases hr : env.ret s.log (.rd .pwr_mgmt_1) < 0
  · simp [flag_follows_standby, new_events, ha, hr, i2c_smbus_read_byte_data, hw, standby_access]
  obtain ⟨e1, evs, heq, hfail, hsucc, hneg⟩ :=
    switch_engine_shape K env (hw env s (.rd .pwr_mgmt_1)).2 on_ mask
  by_cases he : e1 = 0
  · subst he
    obtain ⟨x, hx, v, hv, hv0⟩ := hsucc rfl
    have hnf : ∀ a ∈ evs, ¬ a.ret < 0 := fun a ha hlt => by
      have := hfail a ha hlt
      omega
    cases on_ <;>
      simp only [i2c_smbus_read_byte_data, heq, ha, ne_eq, not_true_eq_false, if_false,
        Bool.false_eq_true, if_true] <;>
      simp only [hw, hr, if_false, i2c_smbus_write_byte_data, flag_follows_standby, new_events,
        List.append_assoc, drop_log_append] <;>
      split_ifs <;>
      simp only [drop_log_append] <;>
      (refine ⟨fun a ha hst hlt => ?_, fun _ => ⟨x, by simp [hx], v, hv, hv0⟩⟩
       have hne : a ∉ evs := fun h => hnf a h hlt
       simp only [List.mem_append, List.mem_singleton, List.mem_cons, List.not_mem_nil, or_false,
         hne, false_or] at ha
       rcases ha with rfl | rfl <;> simp [standby_access] at hst)
  · cases on_ <;>
      simp only [i2c_smbus_read_byte_data, heq, ha, ne_eq, not_true_eq_false, if_false,
        Bool.false_eq_true, if_true] <;>
      simp only [hw, hr, he, if_false, not_false_eq_true, if_true, flag_follows_standby,
        new_events, List.append_assoc, drop_log_append] <;>
      (refine ⟨fun a ha hst hlt2 => ⟨?_, trivial⟩, fun h => absurd rfl h⟩
       simp only [List.mem_append, List.mem_singleton] at ha
       rcases ha with rfl | ha
       · simp [standby_access] at hst
       · exact hfail a ha hlt2)

/-! ### The reset poll -/

theorem poll_events_ops (env : Env) (n : Nat) (log : List Ev) :
    (poll_events env n log).map Ev.op = List.replicate n (.rd .pwr_mgmt_1) := by
  induction n generalizing log with
  | zero => rfl
  | succ n ih => simp [poll_events, ih, List.replicate_succ]

theorem poll_ret_succ (env : Env) (j : Nat) (log : List Ev) :
    poll_ret env (j + 1) log =
      poll_ret env j (log ++ [⟨.rd .pwr_mgmt_1, env.ret log (.rd .pwr_mgmt_1)⟩]) := by
  simp [poll_ret, poll_events]

theorem reset_poll_done (K : Hdr) (env : Env) (k : Nat) :
    ∀ (fuel : Nat) (s : mpu6050_sensor), k < fuel →
      (∀ j < k, poll_busy K env j s.log) → poll_done K env k s.log →
      reset_poll K env fuel s =
        some (poll_ret env k s.log, { s with log := s.log ++ poll_events env (k + 1) s.log }) := by
  induction k with
  | zero =>
    intro fuel s hf _ hd
    obtain ⟨f, rfl⟩ : ∃ f, fuel = f + 1 := ⟨fuel - 1, by omega⟩
    simp only [poll_done, poll_ret, poll_events, List.append_nil] at hd
    rcases hd with hd | hd
    · simp [reset_poll, i2c_smbus_read_byte_data, hw, hd, poll_ret, poll_events]
    · by_cases hneg : env.ret s.log (.rd .pwr_mgmt_1) < 0
      · simp [reset_poll, i2c_smbus_read_byte_data, hw, hneg, poll_ret, poll_events]
      · simp [reset_poll, i2c_smbus_read_byte_data, hw, hneg, hd, poll_ret, poll_events]
  | succ k ih =>
    intro fuel s hf hb hd
    obtain ⟨f, rfl⟩ : ∃ f, fuel = f + 1 := ⟨fuel - 1, by omega⟩
    have h0 := hb 0 (by omega)
    simp only [poll_busy, poll_ret, poll_events, List.append_nil] at h0
    have hnot : ¬ env.ret s.log (.rd .pwr_mgmt_1) < 0 := not_lt.mpr h0.1
    have hrec := ih f (i2c_smbus_read_byte_data env s .pwr_mgmt_1).2 (by omega)
      (fun j hj => by
        have := hb (j + 1) (by omega)
        simpa [poll_busy, poll_ret_succ, i2c_smbus_read_byte_data, hw] using this)
      (by simpa [poll_done, poll_ret_succ, i2c_smbus_read_byte_data, hw] using hd)
    rw [reset_poll]
    simp only [i2c_smbus_read_byte_data, hw, hnot, if_false, h0.2, ne_eq, not_false_eq_true,
      if_true] at hrec ⊢
    rw [hrec]
    simp [poll_ret_succ, poll_events]

theorem reset_poll_stuck (K : Hdr) (env : Env) :
    ∀ (fuel : Nat) (s : mpu6050_sensor), (∀ j, poll_busy K env j s.log) →
      reset_poll K env fuel s = none := by
  intro fuel
  induction fuel with
  | zero => intro s _; rfl
  | succ f ih =>
    intro s hb
    have h0 := hb 0
    simp only [poll_busy, poll_ret, poll_events, List.append_nil] at h0
    have hnot : ¬ env.ret s.log (.rd .pwr_mgmt_1) < 0 := not_lt.mpr h0.1
    have hrec := ih (i2c_smbus_read_byte_data env s .pwr_mgmt_1).2 (fun j => by
      have := hb (j + 1)
      simpa [poll_busy, poll_ret_succ, i2c_smbus_read_byte_data, hw] using this)
    rw [reset_poll]
    simp only [i2c_smbus_read_byte_data, hw, hnot, if_false, h0.2, ne_eq, not_false_eq_true,
      if_true] at hrec ⊢
    exact hrec

theorem init_config_defaults_ok (K : Hdr) (env : Env) (s : mpu6050_sensor) (hok : bus_ok env) :
    ∃ evs, init_config_defaults K env s =
        (0, { s with
          cfg := { fsr := K.MPU_FSR_2000DPS, lpf := K.MPU_DLPF_42HZ,
                   fifo_rate := K.INIT_FIFO_RATE, accel_fs := K.ACCEL_FS_08G, gyro_enable := 0,
                   accel_enable := 0, gyro_fifo_enable := 0, accel_fifo_enable := 0, enable := 0,
                   is_asleep := 0, lpa_freq := 0 }
          log := s.log ++ evs }) ∧
      evs.map Ev.op =
        [.wr .gyro_config ((K.MPU_FSR_2000DPS <<< K.GYRO_CONFIG_FSR_SHIFT) % 256),
         .wr .lpf (K.MPU_DLPF_42HZ % 256),
         .wr .sample_rate_div (sample_rate_divider K % 256),
         .wr .accel_config ((K.ACCEL_FS_08G <<< K.ACCL_CONFIG_FSR_SHIFT) % 256)] := by
  have hwr : ∀ log r v, ¬ env.ret log (.wr r v) < 0 := fun log r v => not_lt.mpr (hok.2 log r v)
  simp only [init_config_defaults, i2c_smbus_write_byte_data, hw, hwr, if_false,
    List.append_assoc]
  exact ⟨_, rfl, rfl⟩

theorem status_reads_append (a b : List Ev) :
    status_reads (a ++ b) = status_reads a + status_reads b := by
  simp [status_reads, List.filter_append]

theorem status_reads_poll_events (env : Env) (n : Nat) (log : List Ev) :
    status_reads (poll_events env n log) = n := by
  induction n generalizing log with
  | zero => rfl
  | succ n ih =>
    have h := ih (log ++ [⟨.rd .pwr_mgmt_1, env.ret log (.rd .pwr_mgmt_1)⟩])
    simp only [status_reads] at h
    simp [status_reads, poll_events, List.filter_cons, h]

theorem init_config_defaults_log (K : Hdr) (env : Env) (s : mpu6050_sensor) :
    (init_config_defaults K env s).2.log =
      s.log ++ new_events s (init_config_defaults K env s).2 := by
  unfold init_config_defaults
  simp only [i2c_smbus_write_byte_data, hw, List.append_assoc, new_events]
  split_ifs <;> simp

theorem init_config_defaults_reads (K : Hdr) (env : Env) (s : mpu6050_sensor) :
    status_reads (new_events s (init_config_defaults K env s).2) = 0 := by
  unfold init_config_defaults
  simp only [i2c_smbus_write_byte_data, hw, List.append_assoc, new_events]
  split_ifs <;> simp [status_reads]

theorem init_config_stuck (K : Hdr) (env : Env) (s : mpu6050_sensor)
    (hs : s.cfg.is_asleep = 0)
    (hw0 : 0 ≤ env.ret s.log (.wr .pwr_mgmt_1 (K.BIT_H_RESET % 256)))
    (hb : ∀ j, poll_busy K env j (reset_log K env s)) (fuel : Nat) :
    mpu6050_init_config K env fuel s = none := by
  have h := reset_poll_stuck K env fuel
    (i2c_smbus_write_byte_data env s .pwr_mgmt_1 K.BIT_H_RESET).2 hb
  have hw1 : ¬ (i2c_smbus_write_byte_data env s .pwr_mgmt_1 K.BIT_H_RESET).1 < 0 :=
    not_lt.mpr hw0
  unfold mpu6050_init_config
  simp only [hs, ne_eq, not_true_eq_false, if_false, hw1, h]

theorem env_stuck_busy (j : Nat) (log : List Ev) : poll_busy mpu6050_h env_stuck j log := by
  simp [poll_busy, poll_ret, env_stuck, mpu6050_h]

theorem env_reset_until_ok (n : Nat) : bus_ok (env_reset_until n) := by
  constructor
  · intro log r
    cases r <;> simp [env_reset_until]
    split <;> decide
  · intro log r v
    simp [env_reset_until]

/-! ### Power sequencing -/

/-- C2: power-on with `power_enabled == false`.  If the enable of rail `r`
(vdd, vlogic or vi2c) fails with code `e`, the operations of the call are the
enables of the rails before `r`, the failed enable, and the disables of the
rails before `r` in reverse order; the call returns `e`, never touches the
enable line and leaves `power_enabled` false.  When `r` is vlogic and the
roll-back disable of vdd takes effect, vdd is off afterwards. -/
theorem power_on_failure_rolls_back (env : Env) (s : mpu6050_sensor) (r : Rail) (e : Int)
    (hp : s.power_enabled = false)
    (hfail : (⟨.regulator_enable r, e⟩ : Ev) ∈ new_events s (mpu6050_power_ctl env s true).2)
    (he : e ≠ 0) :
    (mpu6050_power_ctl env s true).1 = e ∧
    (new_events s (mpu6050_power_ctl env s true).2).map Ev.op =
      (rails_before r).map Op.regulator_enable ++ [Op.regulator_enable r] ++
        (rails_before r).reverse.map Op.regulator_disable ∧
    (∀ ev ∈ new_events s (mpu6050_power_ctl env s true).2, ∀ v, ev.op ≠ .gpio_set_value v) ∧
    (mpu6050_power_ctl env s true).2.power_enabled = false ∧
    (r = .vlogic →
      (∀ ev ∈ new_events s (mpu6050_power_ctl env s true).2,
        ev.op = .regulator_disable .vdd → ev.ret = 0) →
      ∀ init, rail_on .vdd init (new_events s (mpu6050_power_ctl env s true).2) = false) := by
  revert hfail
  simp only [mpu6050_power_ctl, regulator_enable, regulator_disable, hw, hw_void, new_events, hp]
  by_cases h1 : env.ret s.log (.regulator_enable .vdd) = 0
  · by_cases h2 : env.ret (s.log ++ [⟨.regulator_enable .vdd, 0⟩]) (.regulator_enable .vlogic) = 0
    · by_cases h3 : env.ret (s.log ++ [⟨.regulator_enable .vdd, 0⟩,
          ⟨.regulator_enable .vlogic, 0⟩]) (.regulator_enable .vi2c) = 0
      · cases hg : s.enable_gpio_valid <;> cases r <;>
          simp [h1, h2, h3, rails_before, rail_on, he, Ne.symm he]
      · cases r <;> simp [h1, h2, h3, rails_before, rail_on, he, Ne.symm he]
        exact fun h => h.symm
    · cases r <;> simp [h1, h2, rails_before, rail_on, he, Ne.symm he]
      exact fun h => h.symm
  · cases r <;> simp [h1, rails_before, rail_on, he, Ne.symm he]
    exact fun h => h.symm

/-- Witness for C2: the enable of vlogic fails with -5 on a powered-down
sensor. -/
theorem power_on_failure_rolls_back_witness :
    (mpu6050_power_ctl (env_fail (.regulator_enable .vlogic)) sensor0 true).1 = -5 ∧
    (new_events sensor0
        (mpu6050_power_ctl (env_fail (.regulator_enable .vlogic)) sensor0 true).2).map Ev.op =
      [.regulator_enable .vdd, .regulator_enable .vlogic, .regulator_disable .vdd] ∧
    (mpu6050_power_ctl (env_fail (.regulator_enable .vlogic)) sensor0 true).2.power_enabled
      = false ∧
    rail_on .vdd false (new_events sensor0
        (mpu6050_power_ctl (env_fail (.regulator_enable .vlogic)) sensor0 true).2) = false := by
  have h := power_on_failure_rolls_back (env_fail (.regulator_enable .vlogic)) sensor0
    .vlogic (-5) rfl (by decide) (by decide)
  exact ⟨h.1, h.2.1, h.2.2.2.1, h.2.2.2.2 rfl (by decide) false⟩

/-- C3: `mpu6050_power_ctl` called with the state that `power_enabled`
already has performs no hardware operation, changes nothing and returns 0. -/
theorem power_ctl_idempotent (env : Env) (s : mpu6050_sensor) (on_ : Bool)
    (h : s.power_enabled = on_) : mpu6050_power_ctl env s on_ = (0, s) := by
  cases on_ <;> simp [mpu6050_power_ctl, h]

/-- Witness for C3: power-on of a sensor that is already powered. -/
theorem power_ctl_idempotent_witness :
    mpu6050_power_ctl env_ok { sensor0 with power_enabled := true } true
      = (0, { sensor0 with power_enabled := true }) :=
  power_ctl_idempotent env_ok { sensor0 with power_enabled := true } true rfl

/-- C4: power-off in which the disable of vlogic fails with -5 and the
compensating enable of vdd succeeds.  The call re-enables vdd and then
returns 0: the result of the compensating enable replaces the error, and the
caller sees a success although `power_enabled` is still true. -/
theorem power_off_vlogic_failure_returns_zero :
    (mpu6050_power_ctl (env_fail (.regulator_disable .vlogic))
        { sensor0 with power_enabled := true } false).1 = 0 ∧
    (mpu6050_power_ctl (env_fail (.regulator_disable .vlogic))
        { sensor0 with power_enabled := true } false).2.log =
      [⟨.gpio_set_value 0, 0⟩, ⟨.regulator_disable .vdd, 0⟩,
       ⟨.regulator_disable .vlogic, -5⟩, ⟨.regulator_enable .vdd, 0⟩] ∧
    (mpu6050_power_ctl (env_fail (.regulator_disable .vlogic))
        { sensor0 with power_enabled := true } false).2.power_enabled = true := by
  decide

/-- C5: power-off in which the disable of vi2c fails with -5.  The
compensation enables vi2c and vdd; vlogic, which the call has switched off,
is never enabled again.  When the enable of vi2c fails as well, the call
returns `-EIO` without trying vdd. -/
theorem power_off_vi2c_failure_skips_vlogic :
    (mpu6050_power_ctl (env_fail (.regulator_disable .vi2c))
        { sensor0 with power_enabled := true } false).2.log =
      [⟨.gpio_set_value 0, 0⟩, ⟨.regulator_disable .vdd, 0⟩,
       ⟨.regulator_disable .vlogic, 0⟩, ⟨.regulator_disable .vi2c, -5⟩,
       ⟨.regulator_enable .vi2c, 0⟩, ⟨.regulator_enable .vdd, 0⟩] ∧
    rail_on .vlogic true (mpu6050_power_ctl (env_fail (.regulator_disable .vi2c))
        { sensor0 with power_enabled := true } false).2.log = false ∧
    (mpu6050_power_ctl ⟨fun _ op => if op = .regulator_disable .vi2c ∨
          op = .regulator_enable .vi2c then -5 else 0, fun _ _ => []⟩
        { sensor0 with power_enabled := true } false) =
      (- EIO, { sensor0 with power_enabled := true, log :=
        [⟨.gpio_set_value 0, 0⟩, ⟨.regulator_disable .vdd, 0⟩,
         ⟨.regulator_disable .vlogic, 0⟩, ⟨.regulator_disable .vi2c, -5⟩,
         ⟨.regulator_enable .vi2c, -5⟩] }) := by
  decide

/-- C6: when the cached configuration says the device is asleep,
`mpu6050_gyro_enable` and `mpu6050_accel_enable` return `-EINVAL` and leave
the whole sensor state as it was; the log is part of the state, so no bus
read or write is issued. -/
theorem enable_when_asleep_fails (K : Hdr) (env : Env) (s : mpu6050_sensor) (on_ : Bool)
    (h : s.cfg.is_asleep ≠ 0) :
    mpu6050_gyro_enable K env s on_ = (- EINVAL, s) ∧
    mpu6050_accel_enable K env s on_ = (- EINVAL, s) := by
  simp [mpu6050_gyro_enable, mpu6050_accel_enable, h]

/-- Witness for C6: enabling either engine on a sensor whose configuration
is marked asleep. -/
theorem enable_when_asleep_fails_witness :
    mpu6050_gyro_enable mpu6050_h env_ok
        { sensor0 with cfg := { sensor0.cfg with is_asleep := 1 } } true
      = (-22, { sensor0 with cfg := { sensor0.cfg with is_asleep := 1 } }) ∧
    mpu6050_accel_enable mpu6050_h env_ok
        { sensor0 with cfg := { sensor0.cfg with is_asleep := 1 } } true
      = (-22, { sensor0 with cfg := { sensor0.cfg with is_asleep := 1 } }) :=
  enable_when_asleep_fails mpu6050_h env_ok
    { sensor0 with cfg := { sensor0.cfg with is_asleep := 1 } } true (by decide)

/-! ### Engine control -/

/-- C7: the shared sleep-bit rule, for a device that is not asleep on a bus
where every access succeeds.  Enabling either engine ends with a write of
power-mgmt-1 with the sleep bit clear and sets `cfg.enable` to 1.  Disabling
an engine ends with a write of power-mgmt-1 with the sleep bit set, and sets
`cfg.enable` to 0, exactly when the enable flag of the other engine is 0;
otherwise `cfg.enable` is untouched and no write of the call turns the sleep
bit on. -/
theorem shared_sleep_bit_rule (K : Hdr) (env : Env) (s : mpu6050_sensor)
    (hs : s.cfg.is_asleep = 0) (hok : bus_ok env)
    (hS : K.BIT_SLEEP < 256) (hI : K.MPU_CLK_INTERNAL &&& K.BIT_SLEEP = 0) :
    sleep_rule_on K s (mpu6050_gyro_enable K env s true) ∧
    sleep_rule_on K s (mpu6050_accel_enable K env s true) ∧
    sleep_rule_off K s s.cfg.accel_enable (mpu6050_gyro_enable K env s false) ∧
    sleep_rule_off K s s.cfg.gyro_enable (mpu6050_accel_enable K env s false) := by
  have hrd : ∀ log r, ¬ env.ret log (.rd r) < 0 := fun log r => not_lt.mpr (hok.1 log r)
  have hwr : ∀ log r v, ¬ env.ret log (.wr r v) < 0 := fun log r v => not_lt.mpr (hok.2 log r v)
  refine ⟨?_, ?_, ?_, ?_⟩
  · simp [sleep_rule_on, mpu6050_gyro_enable, mpu6050_switch_engine, i2c_smbus_read_byte_data,
      i2c_smbus_write_byte_data, hw, new_events, hs, hrd, hwr, clear_bits_and, clear_bits_mod,
      set_bits_mod]
  · by_cases hg : K.BIT_PWR_GYRO_STBY_MASK = K.BIT_PWR_ACCEL_STBY_MASK <;>
    simp [sleep_rule_on, mpu6050_accel_enable, mpu6050_switch_engine, i2c_smbus_read_byte_data,
      i2c_smbus_write_byte_data, hw, new_events, hs, hrd, hwr, clear_bits_and, clear_bits_mod,
      set_bits_mod, hg]
  · by_cases ho : s.cfg.accel_enable = 0 <;>
    simp [sleep_rule_off, mpu6050_gyro_enable, mpu6050_switch_engine, i2c_smbus_read_byte_data,
      i2c_smbus_write_byte_data, hw, new_events, hs, hrd, hwr, clear_bits_and, clear_bits_mod,
      set_bits_mod, set_bits_and, hS, ho]
    intro h
    right
    intro hx
    exact h (set_clear_carries _ _ _ _ (by rw [u8_mod]; exact hx) hI)
  · by_cases ho : s.cfg.gyro_enable = 0 <;>
    by_cases hg : K.BIT_PWR_GYRO_STBY_MASK = K.BIT_PWR_ACCEL_STBY_MASK <;>
    simp [sleep_rule_off, mpu6050_accel_enable, mpu6050_switch_engine, i2c_smbus_read_byte_data,
      i2c_smbus_write_byte_data, hw, new_events, hs, hrd, hwr, clear_bits_and, clear_bits_mod,
      set_bits_mod, set_bits_and, hS, ho, hg]
    intro h
    right
    intro hx
    exact h (set_clear_carries _ _ _ _ (by rw [u8_mod]; exact hx) hI)

/-- Witness for C7: both engines off, every register reads 0. -/
theorem shared_sleep_bit_rule_witness :
    sleep_rule_on mpu6050_h sensor0 (mpu6050_gyro_enable mpu6050_h env_ok sensor0 true) ∧
    sleep_rule_on mpu6050_h sensor0 (mpu6050_accel_enable mpu6050_h env_ok sensor0 true) ∧
    sleep_rule_off mpu6050_h sensor0 0 (mpu6050_gyro_enable mpu6050_h env_ok sensor0 false) ∧
    sleep_rule_off mpu6050_h sensor0 0 (mpu6050_accel_enable mpu6050_h env_ok sensor0 false) :=
  shared_sleep_bit_rule mpu6050_h env_ok sensor0 rfl
    ⟨fun _ _ => le_refl _, fun _ _ _ => le_refl _⟩ (by decide) (by decide)

/-- C8: for either engine and either direction, a failed read or write of
the standby bits (power-mgmt-2) makes `mpu6050_gyro_enable` /
`mpu6050_accel_enable` return that error with the cached configuration
(engine flag and `cfg.enable` included) unchanged; and the cached
configuration changes only in a call that contains a successful write of
power-mgmt-2. -/
theorem engine_flag_follows_standby_write (K : Hdr) (env : Env) (s : mpu6050_sensor)
    (on_ : Bool) :
    flag_follows_standby s (mpu6050_gyro_enable K env s on_) ∧
    flag_follows_standby s (mpu6050_accel_enable K env s on_) := by
  rw [gyro_enable_eq, accel_enable_eq]
  exact ⟨engine_enable_follows_standby K env _ _ _ s on_,
    engine_enable_follows_standby K env _ _ _ s on_⟩

/-- Witness for C8: enabling the gyroscope on a device whose write of
power-mgmt-2 fails with -5. -/
theorem engine_flag_follows_standby_write_witness :
    (mpu6050_gyro_enable mpu6050_h (env_fail (.wr .pwr_mgmt_2 0)) sensor0 true).1 = -5 ∧
    (mpu6050_gyro_enable mpu6050_h (env_fail (.wr .pwr_mgmt_2 0)) sensor0 true).2.cfg
      = sensor0.cfg :=
  (engine_flag_follows_standby_write mpu6050_h (env_fail (.wr .pwr_mgmt_2 0)) sensor0 true).1.1
    ⟨.wr .pwr_mgmt_2 0, -5⟩ (by decide) (by decide) (by decide)

/-! ### Default configuration -/

/-- C9: a successful `mpu6050_init_config`.  On a device that is not asleep,
with every bus access succeeding and the reset bit reading set `k` times and
then clear, `mpu6050_init_config` returns 0 for every fuel above `k`; the
cached configuration is then exactly 2000 dps, the 42 Hz filter,
`INIT_FIFO_RATE` and 8g with every flag and the wake frequency zero, and the
bus trace is the reset write, `k + 1` status reads, and the writes of
gyro-config, filter, sample-rate divider and accel-config with the default
values. -/
theorem init_config_writes_defaults (K : Hdr) (env : Env) (s : mpu6050_sensor) (k fuel : Nat)
    (hfuel : k < fuel) (hs : s.cfg.is_asleep = 0) (hok : bus_ok env)
    (hbusy : ∀ j < k, (poll_ret env j (reset_log K env s)).toNat &&& K.BIT_H_RESET ≠ 0)
    (hclear : (poll_ret env k (reset_log K env s)).toNat &&& K.BIT_H_RESET = 0) :
    ∃ t, mpu6050_init_config K env fuel s = some (0, t) ∧
      t.cfg =
        { fsr := K.MPU_FSR_2000DPS, lpf := K.MPU_DLPF_42HZ, fifo_rate := K.INIT_FIFO_RATE,
          accel_fs := K.ACCEL_FS_08G, gyro_enable := 0, accel_enable := 0,
          gyro_fifo_enable := 0, accel_fifo_enable := 0, enable := 0, is_asleep := 0,
          lpa_freq := 0 } ∧
      (new_events s t).map Ev.op =
        [.wr .pwr_mgmt_1 (K.BIT_H_RESET % 256)] ++ List.replicate (k + 1) (.rd .pwr_mgmt_1) ++
        [.wr .gyro_config ((K.MPU_FSR_2000DPS <<< K.GYRO_CONFIG_FSR_SHIFT) % 256),
         .wr .lpf (K.MPU_DLPF_42HZ % 256),
         .wr .sample_rate_div (sample_rate_divider K % 256),
         .wr .accel_config ((K.ACCEL_FS_08G <<< K.ACCL_CONFIG_FSR_SHIFT) % 256)] := by
  have hrd : ∀ log r, ¬ env.ret log (.rd r) < 0 := fun log r => not_lt.mpr (hok.1 log r)
  have hwr : ∀ log r v, ¬ env.ret log (.wr r v) < 0 := fun log r v => not_lt.mpr (hok.2 log r v)
  have hpoll := reset_poll_done K env k fuel
    (i2c_smbus_write_byte_data env s .pwr_mgmt_1 K.BIT_H_RESET).2 hfuel
    (fun j hj => ⟨hok.1 _ _, hbusy j hj⟩) (Or.inr hclear)
  have hp0 : ¬ poll_ret env k
      (i2c_smbus_write_byte_data env s .pwr_mgmt_1 K.BIT_H_RESET).2.log < 0 :=
    hrd _ _
  unfold mpu6050_init_config
  simp only [hs, ne_eq, not_true_eq_false, if_false, hpoll, hp0]
  obtain ⟨evs, hd, hops⟩ := init_config_defaults_ok K env
    { (i2c_smbus_write_byte_data env s .pwr_mgmt_1 K.BIT_H_RESET).2 with
      log := (i2c_smbus_write_byte_data env s .pwr_mgmt_1 K.BIT_H_RESET).2.log ++
        poll_events env (k + 1) (i2c_smbus_write_byte_data env s .pwr_mgmt_1 K.BIT_H_RESET).2.log }
    hok
  simp only [i2c_smbus_write_byte_data, hw, hwr, if_false] at hd ⊢
  rw [hd]
  refine ⟨_, rfl, rfl, ?_⟩
  simp [new_events, poll_events_ops, hops]

/-- Witness for C9: the reset bit reads set twice and then clear. -/
theorem init_config_writes_defaults_witness :
    ∃ t, mpu6050_init_config mpu6050_h (env_reset_until 3) 5 sensor0 = some (0, t) ∧
      t.cfg = { fsr := 3, lpf := 3, fifo_rate := 200, accel_fs := 2, gyro_enable := 0,
                accel_enable := 0, gyro_fifo_enable := 0, accel_fifo_enable := 0, enable := 0,
                is_asleep := 0, lpa_freq := 0 } ∧
      (new_events sensor0 t).map Ev.op =
        [.wr .pwr_mgmt_1 0x80, .rd .pwr_mgmt_1, .rd .pwr_mgmt_1, .rd .pwr_mgmt_1,
         .wr .gyro_config 0x18, .wr .lpf 3, .wr .sample_rate_div 4, .wr .accel_config 0x10] :=
  init_config_writes_defaults mpu6050_h (env_reset_until 3) sensor0 2 5 (by decide) rfl
    (env_reset_until_ok 3)
    (by decide) (by decide)

/-- C10, as the code has it: the reset poll has no retry budget.  On a
device that is not asleep and accepts the reset write, if the first `k`
status reads succeed with the reset bit set and the next one fails or shows it
clear, `mpu6050_init_config` returns for every fuel above `k` after exactly
`k + 1` status reads (with the code of the failed read, if it failed); if
every status read succeeds with the reset bit set, the call does not return
for any fuel. -/
theorem reset_poll_has_no_budget (K : Hdr) (env : Env) (s : mpu6050_sensor)
    (hs : s.cfg.is_asleep = 0)
    (hw0 : 0 ≤ env.ret s.log (.wr .pwr_mgmt_1 (K.BIT_H_RESET % 256))) :
    (∀ k fuel, k < fuel → (∀ j < k, poll_busy K env j (reset_log K env s)) →
      poll_done K env k (reset_log K env s) →
      ∃ r t, mpu6050_init_config K env fuel s = some (r, t) ∧
        status_reads (new_events s t) = k + 1 ∧
        (poll_ret env k (reset_log K env s) < 0 → r = poll_ret env k (reset_log K env s))) ∧
    ((∀ j, poll_busy K env j (reset_log K env s)) →
      ∀ fuel, mpu6050_init_config K env fuel s = none) := by
  refine ⟨fun k fuel hfuel hb hd => ?_, fun hb fuel => init_config_stuck K env s hs hw0 hb fuel⟩
  have hpoll := reset_poll_done K env k fuel
    (i2c_smbus_write_byte_data env s .pwr_mgmt_1 K.BIT_H_RESET).2 hfuel hb hd
  have hw1 : ¬ (i2c_smbus_write_byte_data env s .pwr_mgmt_1 K.BIT_H_RESET).1 < 0 :=
    not_lt.mpr hw0
  unfold mpu6050_init_config
  simp only [hs, ne_eq, not_true_eq_false, if_false, hw1, hpoll]
  by_cases hlt : poll_ret env k (reset_log K env s) < 0
  · have hlt2 : poll_ret env k
        (i2c_smbus_write_byte_data env s .pwr_mgmt_1 K.BIT_H_RESET).2.log < 0 := hlt
    simp only [hlt2, if_true]
    refine ⟨_, _, rfl, ?_, fun _ => rfl⟩
    simp only [new_events, i2c_smbus_write_byte_data, hw, List.append_assoc, drop_log_append,
      status_reads_append, status_reads_poll_events]
    simp [status_reads]
  · have hlt2 : ¬ poll_ret env k
        (i2c_smbus_write_byte_data env s .pwr_mgmt_1 K.BIT_H_RESET).2.log < 0 := hlt
    simp only [hlt2, if_false]
    refine ⟨(init_config_defaults K env _).1, (init_config_defaults K env _).2, rfl, ?_,
      fun h => absurd h hlt⟩
    rw [new_events, init_config_defaults_log]
    simp only [i2c_smbus_write_byte_data, hw, List.append_assoc, drop_log_append,
      status_reads_append, status_reads_poll_events, init_config_defaults_reads]
    simp [status_reads]

/-- Witness for C10: the reset bit reads set twice and then clear, so the
call returns after three status reads. -/
theorem reset_poll_has_no_budget_witness :
    ∃ r t, mpu6050_init_config mpu6050_h (env_reset_until 3) 5 sensor0 = some (r, t) ∧
      status_reads (new_events sensor0 t) = 3 := by
  obtain ⟨r, t, h1, h2, _⟩ := (reset_poll_has_no_budget mpu6050_h (env_reset_until 3) sensor0
    rfl (by decide)).1 2 5 (by decide) (by decide) (by decide)
  exact ⟨r, t, h1, h2⟩

/-- Counterexample for C10: no number `N` bounds the status reads of
`mpu6050_init_config` over all devices, because on a device whose reset bit
never clears the call does not return at all. -/
theorem reset_poll_budget_counterexample :
    ¬ ∃ N : Nat, ∀ (env : Env) (s : mpu6050_sensor), s.cfg.is_asleep = 0 →
      ∃ fuel r t, mpu6050_init_config mpu6050_h env fuel s = some (r, t) ∧
        status_reads (new_events s t) ≤ N := by
  rintro ⟨N, h⟩
  obtain ⟨fuel, r, t, hrun, _⟩ := h env_stuck sensor0 rfl
  rw [init_config_stuck mpu6050_h env_stuck sensor0 rfl (by decide)
    (fun j => env_stuck_busy j _) fuel] at hrun
  exact Option.noConfusion hrun

/-! ### Frame lemmas

Each control function leaves the sample record, the poll intervals, the
acquisition mode and the orientation alone, and appends to the log only
operations of the kinds listed in `covers_ctl` (and, for the two
`set_enable` functions, a scheduling with the current poll interval). -/

theorem steps_refl (P : Op → Prop) (s : mpu6050_sensor) : steps P s s :=
  ⟨rfl, rfl, rfl, rfl, rfl, rfl, [], by simp, by simp⟩

theorem steps_trans {P : Op → Prop} {s t u : mpu6050_sensor} (h1 : steps P s t)
    (h2 : steps P t u) : steps P s u := by
  obtain ⟨a1, a2, a3, a4, a5, a6, e1, l1, p1⟩ := h1
  obtain ⟨b1, b2, b3, b4, b5, b6, e2, l2, p2⟩ := h2
  refine ⟨b1.trans a1, b2.trans a2, b3.trans a3, b4.trans a4, b5.trans a5, b6.trans a6,
    e1 ++ e2, by rw [l2, l1, List.append_assoc], ?_⟩
  intro e he
  rcases List.mem_append.mp he with h | h
  · exact p1 e h
  · exact p2 e h

theorem steps_hw {P : Op → Prop} {s x : mpu6050_sensor} (env : Env) (op : Op)
    (h : steps P s x) (hp : P op) : steps P s (hw env x op).2 := by
  refine steps_trans h ⟨rfl, rfl, rfl, rfl, rfl, rfl, [⟨op, env.ret x.log op⟩], rfl, ?_⟩
  intro e he
  rw [List.mem_singleton.mp he]
  exact hp

theorem steps_hw_void {P : Op → Prop} {s x : mpu6050_sensor} (op : Op)
    (h : steps P s x) (hp : P op) : steps P s (hw_void x op) := by
  refine steps_trans h ⟨rfl, rfl, rfl, rfl, rfl, rfl, [⟨op, 0⟩], rfl, ?_⟩
  intro e he
  rw [List.mem_singleton.mp he]
  exact hp

theorem steps_cfg {P : Op → Prop} {s x : mpu6050_sensor} (c : mpu_chip_config)
    (h : steps P s x) : steps P s { x with cfg := c } :=
  steps_trans h ⟨rfl, rfl, rfl, rfl, rfl, rfl, [], by simp, by simp⟩

theorem steps_power {P : Op → Prop} {s x : mpu6050_sensor} (b : Bool)
    (h : steps P s x) : steps P s { x with power_enabled := b } :=
  steps_trans h ⟨rfl, rfl, rfl, rfl, rfl, rfl, [], by simp, by simp⟩

theorem steps_new_events {P : Op → Prop} {s t : mpu6050_sensor} (h : steps P s t) :
    t.log = s.log ++ new_events s t ∧ ∀ e ∈ new_events s t, P e.op := by
  obtain ⟨_, _, _, _, _, _, evs, hl, hp⟩ := h
  have : new_events s t = evs := by simp [new_events, hl]
  rw [this]
  exact ⟨hl, hp⟩

theorem steps_ite2 {P : Op → Prop} {s : mpu6050_sensor} {c : Prop} [Decidable c]
    {a b : Int × mpu6050_sensor} (ha : steps P s a.2) (hb : steps P s b.2) :
    steps P s (if c then a else b).2 := by
  split_ifs <;> assumption

theorem steps_ite {P : Op → Prop} {s : mpu6050_sensor} {c : Prop} [Decidable c]
    {a b : mpu6050_sensor} (ha : steps P s a) (hb : steps P s b) :
    steps P s (if c then a else b) := by
  split_ifs <;> assumption

theorem steps_switch_engine {P : Op → Prop} {s x : mpu6050_sensor} (K : Hdr) (env : Env)
    (en : Bool) (mask : Nat) (hc : covers_ctl P) (h : steps P s x) :
    steps P s (mpu6050_switch_engine K env x en mask).2 := by
  unfold mpu6050_switch_engine
  simp only [i2c_smbus_read_byte_data, i2c_smbus_write_byte_data]
  repeat' first
    | exact h
    | exact hc.1 _
    | exact hc.2.1 _ _
    | apply steps_hw
    | apply steps_ite2

theorem steps_pair {P : Op → Prop} {s b : mpu6050_sensor} {a : Int} (h : steps P s b) :
    steps P s (a, b).2 := h

theorem steps_engine_enable {P : Op → Prop} {s x : mpu6050_sensor} (K : Hdr) (env : Env)
    (mask : Nat) (set_flag : mpu_chip_config → Nat → mpu_chip_config)
    (other : mpu_chip_config → Nat) (on_ : Bool) (hc : covers_ctl P) (h : steps P s x) :
    steps P s (engine_enable K env mask set_flag other x on_).2 := by
  have h1 : steps P s (i2c_smbus_read_byte_data env x .pwr_mgmt_1).2 := steps_hw env _ h (hc.1 _)
  have h2 : ∀ b, steps P s (mpu6050_switch_engine K env
      (i2c_smbus_read_byte_data env x .pwr_mgmt_1).2 b mask).2 :=
    fun b => steps_switch_engine K env b mask hc h1
  unfold engine_enable
  apply steps_ite2
  · exact h
  apply steps_ite2
  · exact h1
  cases on_
  · simp only [Bool.false_eq_true, if_false]
    apply steps_ite2
    · exact h2 _
    apply steps_ite2
    · apply steps_ite2
      · exact steps_hw env _ (steps_cfg _ (h2 _)) (hc.2.1 _ _)
      · exact steps_cfg _ (steps_hw env _ (steps_cfg _ (h2 _)) (hc.2.1 _ _))
    · exact steps_cfg _ (h2 _)
  · simp only [if_true]
    apply steps_ite2
    · exact h2 _
    apply steps_ite2
    · exact steps_hw env _ (steps_cfg _ (h2 _)) (hc.2.1 _ _)
    · exact steps_cfg _ (steps_hw env _ (steps_cfg _ (h2 _)) (hc.2.1 _ _))

theorem steps_set_lpa_freq {P : Op → Prop} {s x : mpu6050_sensor} (K : Hdr) (env : Env)
    (f : Nat) (hc : covers_ctl P) (h : steps P s x) :
    steps P s (mpu6050_set_lpa_freq K env x f).2 := by
  have h1 : steps P s (i2c_smbus_read_byte_data env x .pwr_mgmt_2).2 := steps_hw env _ h (hc.1 _)
  unfold mpu6050_set_lpa_freq
  apply steps_ite2
  · apply steps_ite2
    · exact h1
    apply steps_ite2
    · exact steps_hw env _ h1 (hc.2.1 _ _)
    · exact steps_cfg _ (steps_hw env _ h1 (hc.2.1 _ _))
  · exact steps_cfg _ h

theorem steps_restore_tail {P : Op → Prop} {s x : mpu6050_sensor} (K : Hdr) (env : Env)
    (hc : covers_ctl P) (h : steps P s x) :
    steps P s (restore_context_tail K env x).2 := by
  have h1 : steps P s (i2c_smbus_read_byte_data env x .fifo_en).2 := steps_hw env _ h (hc.1 _)
  have ha : ∀ v, steps P s (if (i2c_smbus_read_byte_data env x .fifo_en).2.cfg.accel_fifo_enable ≠ 0
      then i2c_smbus_write_byte_data env (i2c_smbus_read_byte_data env x .fifo_en).2 .fifo_en v
      else (0, (i2c_smbus_read_byte_data env x .fifo_en).2)).2 := fun v =>
    steps_ite2 (steps_hw env _ h1 (hc.2.1 _ _)) h1
  unfold restore_context_tail
  apply steps_ite2
  · exact h1
  apply steps_ite2
  · exact ha _
  have hg : ∀ (a : Int × mpu6050_sensor) (v : Nat), steps P s a.2 →
      steps P s (if a.2.cfg.gyro_fifo_enable ≠ 0
        then i2c_smbus_write_byte_data env a.2 .fifo_en v else (0, a.2)).2 := fun a v h0 =>
    steps_ite2 (steps_hw env _ h0 (hc.2.1 _ _)) h0
  apply steps_ite2
  · exact hg _ _ (ha _)
  apply steps_ite2
  · exact steps_set_lpa_freq K env _ hc (hg _ _ (ha _))
  · exact steps_hw env _ (steps_set_lpa_freq K env _ hc (hg _ _ (ha _))) (hc.2.1 _ _)

theorem restore_context_eq (K : Hdr) (env : Env) (s : mpu6050_sensor) :
    mpu6050_restore_context K env s =
      (if (i2c_smbus_write_byte_data env s .gyro_config
          (s.cfg.fsr <<< K.GYRO_CONFIG_FSR_SHIFT)).1 < 0 then
        i2c_smbus_write_byte_data env s .gyro_config (s.cfg.fsr <<< K.GYRO_CONFIG_FSR_SHIFT)
      else if (i2c_smbus_write_byte_data env (i2c_smbus_write_byte_data env s .gyro_config
          (s.cfg.fsr <<< K.GYRO_CONFIG_FSR_SHIFT)).2 .lpf s.cfg.lpf).1 < 0 then
        i2c_smbus_write_byte_data env (i2c_smbus_write_byte_data env s .gyro_config
          (s.cfg.fsr <<< K.GYRO_CONFIG_FSR_SHIFT)).2 .lpf s.cfg.lpf
      else if (i2c_smbus_write_byte_data env (i2c_smbus_write_byte_data env
          (i2c_smbus_write_byte_data env s .gyro_config
            (s.cfg.fsr <<< K.GYRO_CONFIG_FSR_SHIFT)).2 .lpf s.cfg.lpf).2 .accel_config
          (K.ACCEL_FS_08G <<< K.ACCL_CONFIG_FSR_SHIFT)).1 < 0 then
        i2c_smbus_write_byte_data env (i2c_smbus_write_byte_data env
          (i2c_smbus_write_byte_data env s .gyro_config
            (s.cfg.fsr <<< K.GYRO_CONFIG_FSR_SHIFT)).2 .lpf s.cfg.lpf).2 .accel_config
          (K.ACCEL_FS_08G <<< K.ACCL_CONFIG_FSR_SHIFT)
      else restore_context_tail K env (i2c_smbus_write_byte_data env
          (i2c_smbus_write_byte_data env
            (i2c_smbus_write_byte_data env s .gyro_config
              (s.cfg.fsr <<< K.GYRO_CONFIG_FSR_SHIFT)).2 .lpf s.cfg.lpf).2 .accel_config
          (K.ACCEL_FS_08G <<< K.ACCL_CONFIG_FSR_SHIFT)).2) := rfl

theorem steps_restore_context {P : Op → Prop} {s x : mpu6050_sensor} (K : Hdr) (env : Env)
    (hc : covers_ctl P) (h : steps P s x) :
    steps P s (mpu6050_restore_context K env x).2 := by
  rw [restore_context_eq]
  have h1 := steps_hw env (.wr .gyro_config ((x.cfg.fsr <<< K.GYRO_CONFIG_FSR_SHIFT) % 256)) h
    (hc.2.1 _ _)
  have h2 := steps_hw env (.wr .lpf (x.cfg.lpf % 256)) h1 (hc.2.1 _ _)
  have h3 := steps_hw env (.wr .accel_config ((K.ACCEL_FS_08G <<< K.ACCL_CONFIG_FSR_SHIFT) % 256))
    h2 (hc.2.1 _ _)
  apply steps_ite2
  · exact h1
  apply steps_ite2
  · exact h2
  apply steps_ite2
  · exact h3
  · exact steps_restore_tail K env hc h3

theorem steps_power_ctl {P : Op → Prop} {s x : mpu6050_sensor} (env : Env) (on_ : Bool)
    (hc : covers_ctl P) (h : steps P s x) :
    steps P s (mpu6050_power_ctl env x on_).2 := by
  have he : ∀ {y : mpu6050_sensor} (r : Rail), steps P s y →
      steps P s (regulator_enable env y r).2 := fun r hy => steps_hw env _ hy (hc.2.2.1 r)
  have hd : ∀ {y : mpu6050_sensor} (r : Rail), steps P s y →
      steps P s (regulator_disable env y r).2 := fun r hy => steps_hw env _ hy (hc.2.2.2.1 r)
  have hg : ∀ {y : mpu6050_sensor} (v : Nat), steps P s y →
      steps P s (if y.enable_gpio_valid then hw_void y (.gpio_set_value v) else y) :=
    fun v hy => steps_ite (steps_hw_void _ hy (hc.2.2.2.2.1 v)) hy
  unfold mpu6050_power_ctl
  apply steps_ite2
  · apply steps_ite2
    · exact he _ h
    apply steps_ite2
    · exact hd _ (he _ (he _ h))
    apply steps_ite2
    · exact hd _ (hd _ (he _ (he _ (he _ h))))
    · exact steps_power _ (hg _ (he _ (he _ (he _ h))))
  apply steps_ite2
  · apply steps_ite2
    · exact hd _ (hg _ h)
    apply steps_ite2
    · exact he _ (hd _ (hd _ (hg _ h)))
    apply steps_ite2
    · apply steps_ite2
      · exact he _ (hd _ (hd _ (hd _ (hg _ h))))
      apply steps_ite2
      · exact he _ (he _ (hd _ (hd _ (hd _ (hg _ h)))))
      · exact steps_power _ (he _ (he _ (hd _ (hd _ (hd _ (hg _ h))))))
    · exact steps_power _ (hd _ (hd _ (hd _ (hg _ h))))
  · exact h

theorem steps_set_enable_prep {P : Op → Prop} {s x : mpu6050_sensor} (K : Hdr) (env : Env)
    (hc : covers_ctl P) (h : steps P s x) :
    steps P s (if x.cfg.enable = 0 then
      (if (mpu6050_power_ctl env x true).1 < 0 then mpu6050_power_ctl env x true
        else mpu6050_restore_context K env (mpu6050_power_ctl env x true).2)
      else (0, x)).2 :=
  steps_ite2 (steps_ite2 (steps_power_ctl env _ hc h)
    (steps_restore_context K env hc (steps_power_ctl env _ hc h))) h

theorem steps_gyro_set_enable {P : Op → Prop} {s x : mpu6050_sensor} (K : Hdr) (env : Env)
    (b : Bool) (hc : covers_ctl P)
    (hs : P (.schedule_delayed_work .gyro_poll_work s.gyro_poll_ms)) (h : steps P s x) :
    steps P s (mpu6050_gyro_set_enable K env x b).2 := by
  have hp := steps_set_enable_prep K env hc h
  have hg : ∀ {y : mpu6050_sensor} (b : Bool), steps P s y →
      steps P s (mpu6050_gyro_enable K env y b).2 := fun b hy => by
    rw [gyro_enable_eq]; exact steps_engine_enable K env _ _ _ b hc hy
  have hsch : ∀ {y : mpu6050_sensor}, steps P s y →
      steps P s (hw_void y (.schedule_delayed_work .gyro_poll_work y.gyro_poll_ms)) :=
    fun hy => steps_hw_void _ hy (by rw [hy.2.1]; exact hs)
  unfold mpu6050_gyro_set_enable
  apply steps_ite2
  · apply steps_ite2
    · exact hp
    apply steps_ite2
    · exact hg _ hp
    apply steps_ite2
    · exact hsch (hg _ hp)
    · exact steps_hw_void _ (hg _ hp) hc.2.2.2.2.2.2.1
  · apply steps_ite2
    · exact hg _ h
    apply steps_ite2
    · exact steps_hw_void _ (hg _ h) (hc.2.2.2.2.2.1 _)
    · exact steps_hw_void _ (hg _ h) hc.2.2.2.2.2.2.2

theorem steps_accel_set_enable {P : Op → Prop} {s x : mpu6050_sensor} (K : Hdr) (env : Env)
    (b : Bool) (hc : covers_ctl P)
    (hs : P (.schedule_delayed_work .accel_poll_work s.accel_poll_ms)) (h : steps P s x) :
    steps P s (mpu6050_accel_set_enable K env x b).2 := by
  have hp := steps_set_enable_prep K env hc h
  have hg : ∀ {y : mpu6050_sensor} (b : Bool), steps P s y →
      steps P s (mpu6050_accel_enable K env y b).2 := fun b hy => by
    rw [accel_enable_eq]; exact steps_engine_enable K env _ _ _ b hc hy
  have hsch : ∀ {y : mpu6050_sensor}, steps P s y →
      steps P s (hw_void y (.schedule_delayed_work .accel_poll_work y.accel_poll_ms)) :=
    fun hy => steps_hw_void _ hy (by rw [hy.2.2.1]; exact hs)
  have h0 : steps P s (if x.use_poll then hw_void x (.cancel_delayed_work_sync .accel_poll_work)
      else hw_void x .disable_irq) :=
    steps_ite (steps_hw_void _ h (hc.2.2.2.2.2.1 _)) (steps_hw_void _ h hc.2.2.2.2.2.2.2)
  unfold mpu6050_accel_set_enable
  apply steps_ite2
  · apply steps_ite2
    · exact hp
    apply steps_ite2
    · exact hg _ hp
    apply steps_ite2
    · exact hsch (hg _ hp)
    · exact steps_hw_void _ (hg _ hp) hc.2.2.2.2.2.2.1
  · apply steps_ite2
    · exact hg _ h0
    · exact hg _ h0

/-! ### Restoring the configuration (C11) -/

theorem covers_ctl_true : covers_ctl (fun _ => True) :=
  ⟨fun _ => trivial, fun _ _ => trivial, fun _ => trivial, fun _ => trivial, fun _ => trivial,
    fun _ => trivial, trivial, trivial⟩

/-- The state `sensor_probed` is the one that the probe sequence produces from
`sensor0` on a device where every operation succeeds: power on,
`mpu6050_init_config`, power off (the log apart). -/
theorem sensor_probed_from_init_config :
    ∃ t, mpu6050_init_config mpu6050_h env_ok 1 (mpu6050_power_ctl env_ok sensor0 true).2 =
        some (0, t) ∧
      { (mpu6050_power_ctl env_ok t false).2 with log := [] } = sensor_probed :=
  ⟨_, rfl, by decide⟩

/-! ### The range settings are never changed

After `mpu6050_init_config` no function of the driver assigns `cfg.fsr`,
`cfg.lpf` or `cfg.accel_fs`: every entry point keeps the three values. -/

theorem kept_refl (s : mpu6050_sensor) : ranges_kept s s := ⟨rfl, rfl, rfl⟩

theorem kept_trans {s t u : mpu6050_sensor} (h1 : ranges_kept s t) (h2 : ranges_kept t u) :
    ranges_kept s u :=
  ⟨h2.1.trans h1.1, h2.2.1.trans h1.2.1, h2.2.2.trans h1.2.2⟩

theorem kept_hw {s x : mpu6050_sensor} (env : Env) (op : Op) (h : ranges_kept s x) :
    ranges_kept s (hw env x op).2 := h

theorem kept_hw_void {s x : mpu6050_sensor} (op : Op) (h : ranges_kept s x) :
    ranges_kept s (hw_void x op) := h

theorem kept_power {s x : mpu6050_sensor} (b : Bool) (h : ranges_kept s x) :
    ranges_kept s { x with power_enabled := b } := h

theorem kept_axis {s x : mpu6050_sensor} (a : axis_data) (h : ranges_kept s x) :
    ranges_kept s { x with axis := a } := h

theorem kept_cfg {s x : mpu6050_sensor} (c : mpu_chip_config) (h : ranges_kept s x)
    (hc : c.fsr = x.cfg.fsr ∧ c.lpf = x.cfg.lpf ∧ c.accel_fs = x.cfg.accel_fs) :
    ranges_kept s { x with cfg := c } :=
  ⟨hc.1.trans h.1, hc.2.1.trans h.2.1, hc.2.2.trans h.2.2⟩

theorem kept_ite2 {s : mpu6050_sensor} {c : Prop} [Decidable c]
    {a b : Int × mpu6050_sensor} (ha : ranges_kept s a.2) (hb : ranges_kept s b.2) :
    ranges_kept s (if c then a else b).2 := by
  split_ifs <;> assumption

theorem kept_ite {s : mpu6050_sensor} {c : Prop} [Decidable c]
    {a b : mpu6050_sensor} (ha : ranges_kept s a) (hb : ranges_kept s b) :
    ranges_kept s (if c then a else b) := by
  split_ifs <;> assumption

theorem kept_switch_engine {s x : mpu6050_sensor} (K : Hdr) (env : Env)
    (en : Bool) (mask : Nat) (h : ranges_kept s x) :
    ranges_kept s (mpu6050_switch_engine K env x en mask).2 := by
  rw [(switch_engine_frame K env x en mask).1]
  exact h

theorem kept_set_power_mode {s x : mpu6050_sensor} (K : Hdr) (env : Env)
    (b : Bool) (h : ranges_kept s x) :
    ranges_kept s (mpu6050_set_power_mode K env x b).2 := by
  unfold mpu6050_set_power_mode
  apply kept_ite2
  · exact h
  · exact h

theorem kept_engine_enable {s x : mpu6050_sensor} (K : Hdr) (env : Env)
    (mask : Nat) (set_flag : mpu_chip_config → Nat → mpu_chip_config)
    (other : mpu_chip_config → Nat) (on_ : Bool)
    (hf : ∀ c v, (set_flag c v).fsr = c.fsr ∧ (set_flag c v).lpf = c.lpf ∧
      (set_flag c v).accel_fs = c.accel_fs)
    (h : ranges_kept s x) :
    ranges_kept s (engine_enable K env mask set_flag other x on_).2 := by
  have h1 : ranges_kept s (i2c_smbus_read_byte_data env x .pwr_mgmt_1).2 := h
  have h2 : ∀ b, ranges_kept s (mpu6050_switch_engine K env
      (i2c_smbus_read_byte_data env x .pwr_mgmt_1).2 b mask).2 :=
    fun b => kept_switch_engine K env b mask h1
  have h3 : ∀ b v, ranges_kept s
      { (mpu6050_switch_engine K env (i2c_smbus_read_byte_data env x .pwr_mgmt_1).2 b mask).2
        with cfg := set_flag (mpu6050_switch_engine K env
          (i2c_smbus_read_byte_data env x .pwr_mgmt_1).2 b mask).2.cfg v } :=
    fun b v => kept_cfg _ (h2 b) (hf _ _)
  unfold engine_enable
  apply kept_ite2
  · exact h
  apply kept_ite2
  · exact h1
  cases on_
  · simp only [Bool.false_eq_true, if_false]
    apply kept_ite2
    · exact h2 _
    apply kept_ite2
    · apply kept_ite2
      · exact h3 _ _
      · exact h3 _ _
    · exact h3 _ _
  · simp only [if_true]
    apply kept_ite2
    · exact h2 _
    apply kept_ite2
    · exact h3 _ _
    · exact h3 _ _

theorem kept_gyro_enable {s x : mpu6050_sensor} (K : Hdr) (env : Env) (b : Bool)
    (h : ranges_kept s x) : ranges_kept s (mpu6050_gyro_enable K env x b).2 := by
  rw [gyro_enable_eq]
  exact kept_engine_enable K env _ _ _ b (fun _ _ => ⟨rfl, rfl, rfl⟩) h

theorem kept_accel_enable {s x : mpu6050_sensor} (K : Hdr) (env : Env) (b : Bool)
    (h : ranges_kept s x) : ranges_kept s (mpu6050_accel_enable K env x b).2 := by
  rw [accel_enable_eq]
  exact kept_engine_enable K env _ _ _ b (fun _ _ => ⟨rfl, rfl, rfl⟩) h

theorem kept_set_lpa_freq {s x : mpu6050_sensor} (K : Hdr) (env : Env)
    (f : Nat) (h : ranges_kept s x) :
    ranges_kept s (mpu6050_set_lpa_freq K env x f).2 := by
  unfold mpu6050_set_lpa_freq
  apply kept_ite2
  · apply kept_ite2
    · exact h
    apply kept_ite2
    · exact h
    · exact h
  · exact h

theorem kept_restore_tail {s x : mpu6050_sensor} (K : Hdr) (env : Env)
    (h : ranges_kept s x) :
    ranges_kept s (restore_context_tail K env x).2 := by
  have h1 : ranges_kept s (i2c_smbus_read_byte_data env x .fifo_en).2 := h
  have ha : ∀ v, ranges_kept s
      (if (i2c_smbus_read_byte_data env x .fifo_en).2.cfg.accel_fifo_enable ≠ 0
      then i2c_smbus_write_byte_data env (i2c_smbus_read_byte_data env x .fifo_en).2 .fifo_en v
      else (0, (i2c_smbus_read_byte_data env x .fifo_en).2)).2 := fun v =>
    kept_ite2 h1 h1
  unfold restore_context_tail
  apply kept_ite2
  · exact h1
  apply kept_ite2
  · exact ha _
  have hg : ∀ (a : Int × mpu6050_sensor) (v : Nat), ranges_kept s a.2 →
      ranges_kept s (if a.2.cfg.gyro_fifo_enable ≠ 0
        then i2c_smbus_write_byte_data env a.2 .fifo_en v else (0, a.2)).2 := fun a v h0 =>
    kept_ite2 (kept_hw env _ h0) h0
  apply kept_ite2
  · exact hg _ _ (ha _)
  apply kept_ite2
  · exact kept_set_lpa_freq K env _ (hg _ _ (ha _))
  · exact kept_hw env _ (kept_set_lpa_freq K env _ (hg _ _ (ha _)))

theorem kept_restore_context {s x : mpu6050_sensor} (K : Hdr) (env : Env)
    (h : ranges_kept s x) :
    ranges_kept s (mpu6050_restore_context K env x).2 := by
  rw [restore_context_eq]
  have h3 : ranges_kept s (i2c_smbus_write_byte_data env (i2c_smbus_write_byte_data env
      (i2c_smbus_write_byte_data env x .gyro_config
        (x.cfg.fsr <<< K.GYRO_CONFIG_FSR_SHIFT)).2 .lpf x.cfg.lpf).2 .accel_config
      (K.ACCEL_FS_08G <<< K.ACCL_CONFIG_FSR_SHIFT)).2 := h
  apply kept_ite2
  · exact h
  apply kept_ite2
  · exact h
  apply kept_ite2
  · exact h
  · exact kept_restore_tail K env h3

theorem kept_power_ctl {s x : mpu6050_sensor} (env : Env) (on_ : Bool)
    (h : ranges_kept s x) :
    ranges_kept s (mpu6050_power_ctl env x on_).2 := by
  have he : ∀ {y : mpu6050_sensor} (r : Rail), ranges_kept s y →
      ranges_kept s (regulator_enable env y r).2 := fun _ hy => hy
  have hd : ∀ {y : mpu6050_sensor} (r : Rail), ranges_kept s y →
      ranges_kept s (regulator_disable env y r).2 := fun _ hy => hy
  have hg : ∀ {y : mpu6050_sensor} (v : Nat), ranges_kept s y →
      ranges_kept s (if y.enable_gpio_valid then hw_void y (.gpio_set_value v) else y) :=
    fun v hy => kept_ite (kept_hw_void _ hy) hy
  unfold mpu6050_power_ctl
  apply kept_ite2
  · apply kept_ite2
    · exact he _ h
    apply kept_ite2
    · exact hd _ (he _ (he _ h))
    apply kept_ite2
    · exact hd _ (hd _ (he _ (he _ (he _ h))))
    · exact kept_power _ (hg _ (he _ (he _ (he _ h))))
  apply kept_ite2
  · apply kept_ite2
    · exact hd _ (hg _ h)
    apply kept_ite2
    · exact he _ (hd _ (hd _ (hg _ h)))
    apply kept_ite2
    · apply kept_ite2
      · exact he _ (hd _ (hd _ (hd _ (hg _ h))))
      apply kept_ite2
      · exact he _ (he _ (hd _ (hd _ (hd _ (hg _ h)))))
      · exact kept_power _ (he _ (he _ (hd _ (hd _ (hd _ (hg _ h))))))
    · exact kept_power _ (hd _ (hd _ (hd _ (hg _ h))))
  · exact h

theorem kept_set_enable_prep {s x : mpu6050_sensor} (K : Hdr) (env : Env)
    (h : ranges_kept s x) :
    ranges_kept s (if x.cfg.enable = 0 then
      (if (mpu6050_power_ctl env x true).1 < 0 then mpu6050_power_ctl env x true
        else mpu6050_restore_context K env (mpu6050_power_ctl env x true).2)
      else (0, x)).2 :=
  kept_ite2 (kept_ite2 (kept_power_ctl env _ h)
    (kept_restore_context K env (kept_power_ctl env _ h))) h

theorem kept_gyro_set_enable {s x : mpu6050_sensor} (K : Hdr) (env : Env)
    (b : Bool) (h : ranges_kept s x) :
    ranges_kept s (mpu6050_gyro_set_enable K env x b).2 := by
  have hp := kept_set_enable_prep K env h
  have hg : ∀ {y : mpu6050_sensor} (b : Bool), ranges_kept s y →
      ranges_kept s (mpu6050_gyro_enable K env y b).2 := fun b hy => kept_gyro_enable K env b hy
  unfold mpu6050_gyro_set_enable
  apply kept_ite2
  · apply kept_ite2
    · exact hp
    apply kept_ite2
    · exact hg _ hp
    apply kept_ite2
    · exact kept_hw_void _ (hg _ hp)
    · exact kept_hw_void _ (hg _ hp)
  · apply kept_ite2
    · exact hg _ h
    apply kept_ite2
    · exact kept_hw_void _ (hg _ h)
    · exact kept_hw_void _ (hg _ h)

theorem kept_accel_set_enable {s x : mpu6050_sensor} (K : Hdr) (env : Env)
    (b : Bool) (h : ranges_kept s x) :
    ranges_kept s (mpu6050_accel_set_enable K env x b).2 := by
  have hp := kept_set_enable_prep K env h
  have hg : ∀ {y : mpu6050_sensor} (b : Bool), ranges_kept s y →
      ranges_kept s (mpu6050_accel_enable K env y b).2 := fun b hy => kept_accel_enable K env b hy
  have h0 : ranges_kept s (if x.use_poll then
      hw_void x (.cancel_delayed_work_sync .accel_poll_work)
      else hw_void x .disable_irq) :=
    kept_ite (kept_hw_void _ h) (kept_hw_void _ h)
  unfold mpu6050_accel_set_enable
  apply kept_ite2
  · apply kept_ite2
    · exact hp
    apply kept_ite2
    · exact hg _ hp
    apply kept_ite2
    · exact kept_hw_void _ (hg _ hp)
    · exact kept_hw_void _ (hg _ hp)
  · apply kept_ite2
    · exact hg _ h0
    · exact hg _ h0

theorem kept_gyro_set_poll_delay (s : mpu6050_sensor) (d : Nat) :
    ranges_kept s (mpu6050_gyro_set_poll_delay s d).2 := by
  unfold mpu6050_gyro_set_poll_delay
  apply kept_ite2
  · exact kept_refl s
  · exact kept_refl s

theorem kept_accel_set_poll_delay (K : Hdr) (env : Env) (s : mpu6050_sensor) (d : Nat) :
    ranges_kept s (mpu6050_accel_set_poll_delay K env s d).2 := by
  have h1 : ∀ d2 : Nat, ranges_kept s (if s.accel_poll_ms ≠ d2 then
      (if (i2c_smbus_write_byte_data env s .sample_rate_div (sample_rate_divider K)).1 = 0 then
        { (i2c_smbus_write_byte_data env s .sample_rate_div (sample_rate_divider K)).2 with
          accel_poll_ms := d2 }
       else (i2c_smbus_write_byte_data env s .sample_rate_div (sample_rate_divider K)).2)
      else s) := fun d2 =>
    kept_ite (kept_ite (kept_refl s) (kept_refl s)) (kept_refl s)
  unfold mpu6050_accel_set_poll_delay
  apply kept_ite2
  · exact kept_hw_void _ (kept_hw_void _ (h1 _))
  · exact h1 _

theorem kept_gyro_work_fn (env : Env) (s : mpu6050_sensor) :
    ranges_kept s (mpu6050_gyro_work_fn env s) := by
  cases hp : s.use_poll <;>
    simp [ranges_kept, mpu6050_gyro_work_fn, mpu6050_read_gyro_data, hw, hw_void, hp]

theorem kept_accel_work_fn (env : Env) (s : mpu6050_sensor) :
    ranges_kept s (mpu6050_accel_work_fn env s) := by
  cases hp : s.use_poll <;>
    simp [ranges_kept, mpu6050_accel_work_fn, mpu6050_read_accel_data, hw, hw_void, hp]

theorem kept_resume_power {s x : mpu6050_sensor} (K : Hdr) (env : Env)
    (h : ranges_kept s x) :
    ranges_kept s (if x.cfg.enable ≠ 0 then
        (mpu6050_set_power_mode K env (mpu6050_restore_context K env x).2 true).2
      else (mpu6050_set_power_mode K env x false).2) :=
  kept_ite (kept_set_power_mode K env _ (kept_restore_context K env h))
    (kept_set_power_mode K env _ h)

theorem kept_resume_gyro {s x : mpu6050_sensor} (K : Hdr) (env : Env)
    (h : ranges_kept s x) :
    ranges_kept s
      (if x.cfg.gyro_enable ≠ 0 then mpu6050_gyro_enable K env x true else (0, x)).2 :=
  kept_ite2 (kept_gyro_enable K env _ h) h

theorem kept_resume_accel {s x : mpu6050_sensor} (K : Hdr) (env : Env)
    (h : ranges_kept s x) :
    ranges_kept s
      (if x.cfg.accel_enable ≠ 0 then mpu6050_accel_enable K env x true else (0, x)).2 :=
  kept_ite2 (kept_accel_enable K env _ h) h

theorem kept_sched {s x : mpu6050_sensor} (c : Prop) [Decidable c] (op : Op)
    (h : ranges_kept s x) : ranges_kept s (if c then hw_void x op else x) :=
  kept_ite (kept_hw_void _ h) h

theorem kept_delay_resume_work_fn (K : Hdr) (env : Env) (s : mpu6050_sensor) :
    ranges_kept s (mpu6050_delay_resume_work_fn K env s) := by
  have h1 := kept_restore_context K env (kept_refl s)
  have h2 := kept_resume_power K env h1
  have h3 := kept_resume_gyro K env h2
  unfold mpu6050_delay_resume_work_fn
  apply kept_ite
  · exact h1
  apply kept_ite
  · exact kept_restore_context K env h1
  apply kept_ite
  · exact h3
  apply kept_ite
  · apply kept_resume_accel K env
    apply kept_sched
    exact h3
  apply kept_sched
  apply kept_resume_accel K env
  apply kept_sched
  exact h3

theorem kept_action (K : Hdr) (env : Env) (s : mpu6050_sensor) (a : Action) :
    ranges_kept s (a.run K env s) := by
  cases a with
  | gyro_set_poll_delay d => exact kept_gyro_set_poll_delay s d
  | accel_set_poll_delay d => exact kept_accel_set_poll_delay K env s d
  | gyro_set_enable b => exact kept_gyro_set_enable K env b (kept_refl s)
  | accel_set_enable b => exact kept_accel_set_enable K env b (kept_refl s)
  | gyro_work_fn => exact kept_gyro_work_fn env s
  | accel_work_fn => exact kept_accel_work_fn env s
  | delay_resume_work_fn => exact kept_delay_resume_work_fn K env s

/-- Every sequence of entry points keeps the three range settings. -/
theorem kept_run_actions (K : Hdr) (env : Env) (acts : List Action) (s : mpu6050_sensor) :
    ranges_kept s (run_actions K env s acts) := by
  induction acts generalizing s with
  | nil => exact kept_refl s
  | cons a as ih => exact kept_trans (kept_action K env s a) (ih (a.run K env s))

theorem kept_suspend (K : Hdr) (env : Env) (s : mpu6050_sensor) :
    ranges_kept s (mpu6050_suspend K env s).2 := by
  unfold mpu6050_suspend
  refine kept_power_ctl env _ (kept_set_power_mode K env _ ?_)
  apply kept_ite
  · exact kept_refl s
  have hg : ranges_kept s (if s.cfg.gyro_enable ≠ 0 then
      hw_void s (.cancel_delayed_work_sync .gyro_poll_work) else s) :=
    kept_ite (kept_refl s) (kept_refl s)
  apply kept_ite
  · exact kept_hw_void _ hg
  · exact hg

theorem kept_resume (env : Env) (s : mpu6050_sensor) :
    ranges_kept s (mpu6050_resume env s).2 := by
  unfold mpu6050_resume
  apply kept_ite2
  · refine kept_power _ (kept_hw_void _ ?_)
    have h1 : ranges_kept s (if (regulator_enable env (regulator_enable env s .vdd).2
        .vlogic).1 ≠ 0 then
        (regulator_disable env (regulator_enable env (regulator_enable env s .vdd).2
          .vlogic).2 .vdd).2
        else (regulator_enable env (regulator_enable env s .vdd).2 .vlogic).2) :=
      kept_ite (kept_refl s) (kept_refl s)
    have h2 : ∀ {y : mpu6050_sensor}, ranges_kept s y →
        ranges_kept s (if (regulator_enable env y .vi2c).1 ≠ 0 then
          (regulator_disable env (regulator_disable env (regulator_enable env y .vi2c).2
            .vlogic).2 .vdd).2
          else (regulator_enable env y .vi2c).2) :=
      fun hy => kept_ite hy hy
    have h3 : ∀ {y : mpu6050_sensor}, ranges_kept s y →
        ranges_kept s (if y.enable_gpio_valid then hw_void y (.gpio_set_value 1) else y) :=
      fun hy => kept_ite hy hy
    exact h3 (h2 h1)
  · exact kept_refl s

theorem kept_read_gyro_data (env : Env) (s : mpu6050_sensor) :
    ranges_kept s (mpu6050_read_gyro_data env s) := by
  simp [ranges_kept, mpu6050_read_gyro_data, hw]

theorem kept_read_accel_data (env : Env) (s : mpu6050_sensor) :
    ranges_kept s (mpu6050_read_accel_data env s) := by
  simp [ranges_kept, mpu6050_read_accel_data, hw]

theorem kept_gyro_calibration_loop (env : Env) (n : Nat) (s : mpu6050_sensor)
    (acc : Int × Int × Int) : ranges_kept s (gyro_calibration_loop env n s acc).1 := by
  induction n generalizing s acc with
  | zero => exact kept_refl s
  | succ n ih =>
    simp only [gyro_calibration_loop]
    exact kept_trans (kept_axis _ (kept_read_gyro_data env s)) (ih _ _)

theorem kept_accel_calibration_loop (env : Env) (n : Nat) (s : mpu6050_sensor)
    (acc : Int × Int × Int) : ranges_kept s (accel_calibration_loop env n s acc).1 := by
  induction n generalizing s acc with
  | zero => exact kept_refl s
  | succ n ih =>
    simp only [accel_calibration_loop]
    exact kept_trans (kept_axis _ (kept_read_accel_data env s)) (ih _ _)

theorem kept_gyro_calibration (K : Hdr) (env : Env) (s : mpu6050_sensor) :
    ranges_kept s (gyro_calibration_xyz K env s).2 := by
  have h1 := kept_gyro_set_enable K env true (kept_refl s)
  have h2 := kept_trans h1 (kept_gyro_calibration_loop env CALIBRATION_TEST_COUNT
    (mpu6050_gyro_set_enable K env s true).2 (0, 0, 0))
  unfold gyro_calibration_xyz
  apply kept_ite2
  · exact kept_gyro_set_enable K env false (kept_axis _ h2)
  · exact kept_axis _ h2

theorem kept_self_calibration (K : Hdr) (env : Env) (s : mpu6050_sensor) :
    ranges_kept s (mpu6050_self_calibration_xyz K env s).2 := by
  have h1 := kept_accel_set_enable K env true (kept_refl s)
  have h2 := kept_trans h1 (kept_accel_calibration_loop env CALIBRATION_TEST_COUNT
    (mpu6050_accel_set_enable K env s true).2 (0, 0, 0))
  unfold mpu6050_self_calibration_xyz
  refine kept_axis _ ?_
  apply kept_ite
  · exact kept_accel_set_enable K env false h2
  · exact h2

theorem init_config_defaults_accel_fs (K : Hdr) (env : Env) (s : mpu6050_sensor)
    (h : 0 ≤ (init_config_defaults K env s).1) :
    (init_config_defaults K env s).2.cfg.accel_fs = K.ACCEL_FS_08G := by
  unfold init_config_defaults at h ⊢
  simp only [i2c_smbus_write_byte_data, hw] at h ⊢
  split_ifs at h ⊢ <;> first | omega | rfl

/-- A call of `mpu6050_init_config` that succeeds leaves
`cfg.accel_fs = ACCEL_FS_08G`, whatever the device and the earlier state. -/
theorem init_config_accel_fs (K : Hdr) (env : Env) (fuel : Nat) (s t : mpu6050_sensor)
    (r : Int) (hr : 0 ≤ r) (h : mpu6050_init_config K env fuel s = some (r, t)) :
    t.cfg.accel_fs = K.ACCEL_FS_08G := by
  unfold mpu6050_init_config at h
  by_cases h1 : s.cfg.is_asleep ≠ 0
  · rw [if_pos h1] at h
    simp only [Option.some.injEq, Prod.mk.injEq] at h
    have := h.1
    simp [EINVAL] at this
    omega
  rw [if_neg h1] at h
  by_cases h2 : (i2c_smbus_write_byte_data env s .pwr_mgmt_1 K.BIT_H_RESET).1 < 0
  · simp only [h2, if_true, Option.some.injEq] at h
    rw [h] at h2
    simp at h2
    omega
  simp only [h2, if_false] at h
  cases hp : reset_poll K env fuel (i2c_smbus_write_byte_data env s .pwr_mgmt_1
      K.BIT_H_RESET).2 with
  | none => rw [hp] at h; simp at h
  | some p =>
    rw [hp] at h
    simp only at h
    by_cases h3 : p.1 < 0
    · simp only [h3, if_true, Option.some.injEq] at h
      rw [h] at h3
      simp at h3
      omega
    · simp only [h3, if_false, Option.some.injEq] at h
      have h4 := init_config_defaults_accel_fs K env p.2 (by rw [h]; exact hr)
      rw [h] at h4
      exact h4

theorem tail_steps_set_lpa_freq {P : Op → Prop} {s x : mpu6050_sensor} (K : Hdr) (env : Env)
    (f : Nat) (hr : P (.rd .pwr_mgmt_2)) (hw2 : ∀ v, P (.wr .pwr_mgmt_2 v)) (h : steps P s x) :
    steps P s (mpu6050_set_lpa_freq K env x f).2 := by
  have h1 : steps P s (i2c_smbus_read_byte_data env x .pwr_mgmt_2).2 :=
    steps_hw env _ h hr
  unfold mpu6050_set_lpa_freq
  apply steps_ite2
  · apply steps_ite2
    · exact h1
    apply steps_ite2
    · exact steps_hw env _ h1 (hw2 _)
    · exact steps_cfg _ (steps_hw env _ h1 (hw2 _))
  · exact steps_cfg _ h

theorem tail_steps_restore {P : Op → Prop} {s x : mpu6050_sensor} (K : Hdr) (env : Env)
    (hf : P (.rd .fifo_en)) (hwf : ∀ v, P (.wr .fifo_en v)) (hr : P (.rd .pwr_mgmt_2))
    (hw2 : ∀ v, P (.wr .pwr_mgmt_2 v)) (hd : ∀ v, P (.wr .sample_rate_div v))
    (h : steps P s x) :
    steps P s (restore_context_tail K env x).2 := by
  have h1 : steps P s (i2c_smbus_read_byte_data env x .fifo_en).2 :=
    steps_hw env _ h hf
  have ha : ∀ v, steps P s (if (i2c_smbus_read_byte_data env x .fifo_en).2.cfg.accel_fifo_enable ≠ 0
      then i2c_smbus_write_byte_data env (i2c_smbus_read_byte_data env x .fifo_en).2 .fifo_en v
      else (0, (i2c_smbus_read_byte_data env x .fifo_en).2)).2 := fun v =>
    steps_ite2 (steps_hw env _ h1 (hwf _)) h1
  unfold restore_context_tail
  apply steps_ite2
  · exact h1
  apply steps_ite2
  · exact ha _
  have hg : ∀ (a : Int × mpu6050_sensor) (v : Nat), steps P s a.2 →
      steps P s (if a.2.cfg.gyro_fifo_enable ≠ 0
        then i2c_smbus_write_byte_data env a.2 .fifo_en v else (0, a.2)).2 := fun a v h0 =>
    steps_ite2 (steps_hw env _ h0 (hwf _)) h0
  apply steps_ite2
  · exact hg _ _ (ha _)
  apply steps_ite2
  · exact tail_steps_set_lpa_freq K env _ hr hw2 (hg _ _ (ha _))
  · exact steps_hw env _ (tail_steps_set_lpa_freq K env _ hr hw2 (hg _ _ (ha _))) (hd _)

/-- A call of `mpu6050_restore_context` that does not fail consists of three
successful writes, of gyro-config with `cfg.fsr << shift`, of the filter
register with `cfg.lpf` and of accel-config with the 8g code
`ACCEL_FS_08G << shift`, followed by accesses to the FIFO-enable register, to
power-mgmt-2 and to the sample-rate divider only. -/
theorem restore_context_split (K : Hdr) (env : Env) (s : mpu6050_sensor)
    (h : 0 ≤ (mpu6050_restore_context K env s).1) :
    ∃ (r1 r2 r3 : Int) (evs : List Ev), 0 ≤ r1 ∧ 0 ≤ r2 ∧ 0 ≤ r3 ∧
      new_events s (mpu6050_restore_context K env s).2 =
        [⟨.wr .gyro_config ((s.cfg.fsr <<< K.GYRO_CONFIG_FSR_SHIFT) % 256), r1⟩,
         ⟨.wr .lpf (s.cfg.lpf % 256), r2⟩,
         ⟨.wr .accel_config ((K.ACCEL_FS_08G <<< K.ACCL_CONFIG_FSR_SHIFT) % 256), r3⟩] ++ evs ∧
      ∀ e ∈ evs, ∀ v, e.op ≠ .wr .gyro_config v ∧ e.op ≠ .wr .lpf v ∧
        e.op ≠ .wr .accel_config v := by
  rw [restore_context_eq] at h ⊢
  by_cases h1 : (i2c_smbus_write_byte_data env s .gyro_config
      (s.cfg.fsr <<< K.GYRO_CONFIG_FSR_SHIFT)).1 < 0
  · rw [if_pos h1] at h; omega
  rw [if_neg h1] at h ⊢
  by_cases h2 : (i2c_smbus_write_byte_data env (i2c_smbus_write_byte_data env s .gyro_config
      (s.cfg.fsr <<< K.GYRO_CONFIG_FSR_SHIFT)).2 .lpf s.cfg.lpf).1 < 0
  · rw [if_pos h2] at h; omega
  rw [if_neg h2] at h ⊢
  by_cases h3 : (i2c_smbus_write_byte_data env (i2c_smbus_write_byte_data env
      (i2c_smbus_write_byte_data env s .gyro_config
        (s.cfg.fsr <<< K.GYRO_CONFIG_FSR_SHIFT)).2 .lpf s.cfg.lpf).2 .accel_config
      (K.ACCEL_FS_08G <<< K.ACCL_CONFIG_FSR_SHIFT)).1 < 0
  · rw [if_pos h3] at h; omega
  rw [if_neg h3] at h ⊢
  obtain ⟨hl, hP⟩ := steps_new_events
    (tail_steps_restore K env
      (P := fun op => ∀ v, op ≠ .wr .gyro_config v ∧ op ≠ .wr .lpf v ∧ op ≠ .wr .accel_config v)
      (fun _ => by simp) (fun _ _ => by simp) (fun _ => by simp) (fun _ _ => by simp)
      (fun _ _ => by simp)
      (steps_refl _
      (i2c_smbus_write_byte_data env (i2c_smbus_write_byte_data env
        (i2c_smbus_write_byte_data env s .gyro_config
          (s.cfg.fsr <<< K.GYRO_CONFIG_FSR_SHIFT)).2 .lpf s.cfg.lpf).2 .accel_config
        (K.ACCEL_FS_08G <<< K.ACCL_CONFIG_FSR_SHIFT)).2))
  generalize new_events _ (restore_context_tail K env _).2 = evs at hl hP
  refine ⟨_, _, _, evs, not_lt.mp h1, not_lt.mp h2, not_lt.mp h3, ?_, hP⟩
  unfold new_events
  rw [hl]
  simp [i2c_smbus_write_byte_data, hw]

/-- C11: for every cached configuration that the driver can hold, that is,
with `cfg.accel_fs = ACCEL_FS_08G` (the value that `mpu6050_init_config`
caches and that no function of the driver changes, see
`init_config_accel_fs` and `kept_run_actions`) and with any `cfg.fsr` and
`cfg.lpf`, a call of `mpu6050_restore_context` that does not fail re-applies
the cached values: its first three operations are successful writes of
gyro-config with `cfg.fsr << shift`, of the filter register with `cfg.lpf` and
of accel-config with `cfg.accel_fs << shift`; no later operation of the call
writes one of these three registers; and the three cached values are after the
call what they were before. -/
theorem restore_context_reapplies_cached (K : Hdr) (env : Env) (s : mpu6050_sensor)
    (hfs : s.cfg.accel_fs = K.ACCEL_FS_08G)
    (h : 0 ≤ (mpu6050_restore_context K env s).1) :
    ((new_events s (mpu6050_restore_context K env s).2).map Ev.op).take 3 =
      [.wr .gyro_config ((s.cfg.fsr <<< K.GYRO_CONFIG_FSR_SHIFT) % 256),
       .wr .lpf (s.cfg.lpf % 256),
       .wr .accel_config ((s.cfg.accel_fs <<< K.ACCL_CONFIG_FSR_SHIFT) % 256)] ∧
    (∀ e ∈ (new_events s (mpu6050_restore_context K env s).2).take 3, 0 ≤ e.ret) ∧
    (∀ e ∈ (new_events s (mpu6050_restore_context K env s).2).drop 3, ∀ v,
      e.op ≠ .wr .gyro_config v ∧ e.op ≠ .wr .lpf v ∧ e.op ≠ .wr .accel_config v) ∧
    ranges_kept s (mpu6050_restore_context K env s).2 := by
  obtain ⟨r1, r2, r3, evs, p1, p2, p3, hn, hP⟩ := restore_context_split K env s h
  rw [hn, hfs]
  refine ⟨by simp, ?_, ?_, kept_restore_context K env (kept_refl s)⟩
  · intro e he
    simp only [List.cons_append, List.nil_append, List.take_succ_cons, List.take_zero,
      List.mem_cons, List.mem_singleton, List.not_mem_nil, or_false] at he
    rcases he with rfl | rfl | rfl <;> assumption
  · intro e he
    simp only [List.cons_append, List.nil_append, List.drop_succ_cons, List.drop_zero] at he
    exact hP e he

/-- Witness for C11: the sensor as the probe leaves it, every access
succeeding: the writes are 0x18 (2000 dps), 3 (42 Hz) and 0x10 (8g). -/
theorem restore_context_reapplies_cached_witness :
    sensor_probed.cfg.accel_fs = mpu6050_h.ACCEL_FS_08G ∧
    0 ≤ (mpu6050_restore_context mpu6050_h env_ok sensor_probed).1 ∧
    ((new_events sensor_probed
        (mpu6050_restore_context mpu6050_h env_ok sensor_probed).2).map Ev.op).take 3 =
      [.wr .gyro_config 0x18, .wr .lpf 3, .wr .accel_config 0x10] :=
  ⟨rfl, by decide,
    (restore_context_reapplies_cached mpu6050_h env_ok sensor_probed rfl (by decide)).1⟩

/-! ### Chip identification (C12) -/

theorem set_power_mode_ok (K : Hdr) (env : Env) (s : mpu6050_sensor) (b : Bool)
    (hrd : ∀ log, 0 ≤ env.ret log (.rd .pwr_mgmt_1))
    (hwr : ∀ log v, env.ret log (.wr .pwr_mgmt_1 v) = 0) :
    ∃ v x, mpu6050_set_power_mode K env s b =
      (0, { s with log := s.log ++ [⟨.rd .pwr_mgmt_1, x⟩, ⟨.wr .pwr_mgmt_1 v, 0⟩] }) := by
  have h1 : ¬ env.ret s.log (.rd .pwr_mgmt_1) < 0 := not_lt.mpr (hrd _)
  simp only [mpu6050_set_power_mode, i2c_smbus_read_byte_data, i2c_smbus_write_byte_data, hw, h1,
    if_false, hwr, List.append_assoc]
  exact ⟨_, _, rfl⟩

/-- C12: with the reads of power-mgmt-1 not failing and its writes returning
0 (the sleep/wake toggle succeeds), `mpu_check_chip_type` resolves "mpu6050"
to INV_MPU6050 and "mpu6500" to INV_MPU6500 without reading the identity
register; for "mpu6xxx" its last access is the read of the identity register,
and the result is INV_MPU6500 if the byte is MPU6500_ID, INV_MPU6050 if it is
MPU6050_ID, and the return value is -ENODEV for any other byte; any other
name returns -EPERM with no access at all. -/
theorem chip_type_resolution (K : Hdr) (env : Env) (s : mpu6050_sensor)
    (hrd : ∀ log, 0 ≤ env.ret log (.rd .pwr_mgmt_1))
    (hwr : ∀ log v, env.ret log (.wr .pwr_mgmt_1 v) = 0) :
    ((mpu_check_chip_type K env s "mpu6050").1 = 0 ∧
      (mpu_check_chip_type K env s "mpu6050").2.chip_type = .INV_MPU6050 ∧
      ∀ e ∈ new_events s (mpu_check_chip_type K env s "mpu6050").2, e.op ≠ .rd .whoami) ∧
    ((mpu_check_chip_type K env s "mpu6500").1 = 0 ∧
      (mpu_check_chip_type K env s "mpu6500").2.chip_type = .INV_MPU6500 ∧
      ∀ e ∈ new_events s (mpu_check_chip_type K env s "mpu6500").2, e.op ≠ .rd .whoami) ∧
    (∃ id, (new_events s (mpu_check_chip_type K env s "mpu6xxx").2).getLast? =
        some ⟨.rd .whoami, id⟩ ∧
      (id = (K.MPU6500_ID : Int) →
        (mpu_check_chip_type K env s "mpu6xxx").1 = 0 ∧
        (mpu_check_chip_type K env s "mpu6xxx").2.chip_type = .INV_MPU6500) ∧
      (id ≠ (K.MPU6500_ID : Int) → id = (K.MPU6050_ID : Int) →
        (mpu_check_chip_type K env s "mpu6xxx").1 = 0 ∧
        (mpu_check_chip_type K env s "mpu6xxx").2.chip_type = .INV_MPU6050) ∧
      (0 ≤ id → id ≠ (K.MPU6500_ID : Int) → id ≠ (K.MPU6050_ID : Int) →
        (mpu_check_chip_type K env s "mpu6xxx").1 = - ENODEV)) ∧
    (∀ name : String, name ≠ "mpu6050" → name ≠ "mpu6500" → name ≠ "mpu6xxx" →
      mpu_check_chip_type K env s name = (- EPERM, s)) := by
  refine ⟨?_, ?_, ?_, ?_⟩
  · obtain ⟨v1, x1, h1⟩ := set_power_mode_ok K env { s with chip_type := .INV_MPU6050 } false
      hrd hwr
    obtain ⟨v2, x2, h2⟩ := set_power_mode_ok K env
      { s with chip_type := .INV_MPU6050, log := s.log ++ [⟨.rd .pwr_mgmt_1, x1⟩, ⟨.wr .pwr_mgmt_1 v1, 0⟩] }
      true hrd hwr
    simp [mpu_check_chip_type, h1, h2, new_events]
  · obtain ⟨v1, x1, h1⟩ := set_power_mode_ok K env { s with chip_type := .INV_MPU6500 } false
      hrd hwr
    obtain ⟨v2, x2, h2⟩ := set_power_mode_ok K env
      { s with chip_type := .INV_MPU6500, log := s.log ++ [⟨.rd .pwr_mgmt_1, x1⟩, ⟨.wr .pwr_mgmt_1 v1, 0⟩] }
      true hrd hwr
    simp [mpu_check_chip_type, h1, h2, new_events]
  · obtain ⟨v1, x1, h1⟩ := set_power_mode_ok K env { s with chip_type := .INV_MPU6050 } false
      hrd hwr
    obtain ⟨v2, x2, h2⟩ := set_power_mode_ok K env
      { s with chip_type := .INV_MPU6050, log := s.log ++ [⟨.rd .pwr_mgmt_1, x1⟩, ⟨.wr .pwr_mgmt_1 v1, 0⟩] }
      true hrd hwr
    simp [mpu_check_chip_type, h1, h2, i2c_smbus_read_byte_data, hw, new_events]
    generalize env.ret _ (.rd .whoami) = id
    refine ⟨id, ?_, ?_, ?_, ?_⟩
    · split_ifs <;> simp
    · intro h65
      have hneg : ¬ id < 0 := by omega
      simp only [if_neg hneg, if_pos h65]
      exact ⟨trivial, trivial⟩
    · intro h65 h60
      have hneg : ¬ id < 0 := by omega
      simp only [if_neg hneg, if_neg h65, if_pos h60]
      exact ⟨trivial, trivial⟩
    · intro h0 h65 h60
      have hneg : ¬ id < 0 := by omega
      simp only [if_neg hneg, if_neg h65, if_neg h60]
  · intro name h1 h2 h3
    simp [mpu_check_chip_type, h1, h2, h3]

/-- Witness for C12: a device whose identity register reads 0x70. -/
theorem chip_type_resolution_witness :
    (mpu_check_chip_type mpu6050_h (env_whoami 0x70) sensor0 "mpu6050").2.chip_type
      = .INV_MPU6050 ∧
    (mpu_check_chip_type mpu6050_h (env_whoami 0x70) sensor0 "mpu6xxx").2.chip_type
      = .INV_MPU6500 ∧
    mpu_check_chip_type mpu6050_h (env_whoami 0x70) sensor0 "bma250" = (- EPERM, sensor0) := by
  have h := chip_type_resolution mpu6050_h (env_whoami 0x70) sensor0
    (fun _ => le_refl _) (fun _ _ => rfl)
  obtain ⟨id, hlast, h65, -, -⟩ := h.2.2.1
  have hid : (new_events sensor0
      (mpu_check_chip_type mpu6050_h (env_whoami 0x70) sensor0 "mpu6xxx").2).getLast? =
      some ⟨.rd .whoami, 0x70⟩ := by decide
  rw [hid] at hlast
  have hid2 : id = 0x70 := by
    injection hlast with h1
    injection h1 with _ h2
    exact h2.symm
  exact ⟨h.1.2.1, (h65 hid2).2, h.2.2.2 "bma250" (by decide) (by decide) (by decide)⟩

/-! ### Acquisition (C13, C14, C15) -/

theorem shiftRight_two (x : Int) : x >>> (2 : Nat) = x / 4 := by
  rw [Int.shiftRight_eq_div_pow]
  norm_num

theorem shiftRight_zero (x : Int) : x >>> (0 : Nat) = x := by
  rw [Int.shiftRight_eq_div_pow]
  simp

theorem remap_accel_off_x (d : axis_data) (place : Int) :
    (mpu6050_remap_accel_data d place).off_x = d.off_x := by
  unfold mpu6050_remap_accel_data
  split_ifs <;> rfl

theorem remap_accel_off_y (d : axis_data) (place : Int) :
    (mpu6050_remap_accel_data d place).off_y = d.off_y := by
  unfold mpu6050_remap_accel_data
  split_ifs <;> rfl

theorem remap_accel_off_z (d : axis_data) (place : Int) :
    (mpu6050_remap_accel_data d place).off_z = d.off_z := by
  unfold mpu6050_remap_accel_data
  split_ifs <;> rfl

theorem remap_gyro_off_rx (d : axis_data) (place : Int) :
    (mpu6050_remap_gyro_data d place).off_rx = d.off_rx := by
  unfold mpu6050_remap_gyro_data
  split_ifs <;> rfl

theorem remap_gyro_off_ry (d : axis_data) (place : Int) :
    (mpu6050_remap_gyro_data d place).off_ry = d.off_ry := by
  unfold mpu6050_remap_gyro_data
  split_ifs <;> rfl

theorem remap_gyro_off_rz (d : axis_data) (place : Int) :
    (mpu6050_remap_gyro_data d place).off_rz = d.off_rz := by
  unfold mpu6050_remap_gyro_data
  split_ifs <;> rfl

/-- C13: for every device, state and orientation, one run of the polled
accelerometer callback reports for X, Y and Z the value `(r + off) / 4` (floor
division, the arithmetic shift by 2), and one run of the polled gyroscope
callback reports for RY and RZ the value `r + off`, where `r` is the axis value
after the remap and the sum is an integer sum without wraparound. -/
theorem polled_path_scaling (env : Env) (s : mpu6050_sensor) :
    reported .accel_dev .ABS_X (new_events s (mpu6050_accel_work_fn env s)) =
      [((mpu6050_remap_accel_data (mpu6050_read_accel_data env s).axis s.place).x
          + s.axis.off_x) / 4] ∧
    reported .accel_dev .ABS_Y (new_events s (mpu6050_accel_work_fn env s)) =
      [((mpu6050_remap_accel_data (mpu6050_read_accel_data env s).axis s.place).y
          + s.axis.off_y) / 4] ∧
    reported .accel_dev .ABS_Z (new_events s (mpu6050_accel_work_fn env s)) =
      [((mpu6050_remap_accel_data (mpu6050_read_accel_data env s).axis s.place).z
          + s.axis.off_z) / 4] ∧
    reported .gyro_dev .ABS_RY (new_events s (mpu6050_gyro_work_fn env s)) =
      [(mpu6050_remap_gyro_data (mpu6050_read_gyro_data env s).axis s.place).ry
          + s.axis.off_ry] ∧
    reported .gyro_dev .ABS_RZ (new_events s (mpu6050_gyro_work_fn env s)) =
      [(mpu6050_remap_gyro_data (mpu6050_read_gyro_data env s).axis s.place).rz
          + s.axis.off_rz] := by
  refine ⟨?_, ?_, ?_, ?_, ?_⟩ <;>
    cases hp : s.use_poll <;>
    simp [mpu6050_accel_work_fn, mpu6050_gyro_work_fn, mpu6050_read_accel_data,
      mpu6050_read_gyro_data, hw, hw_void, new_events, reported, hp, shiftRight_two,
      shiftRight_zero, MPU6050_ACCEL_SCALE_SHIFT_8G, MPU6050_GYRO_SCALE_SHIFT_FS0,
      remap_accel_off_x, remap_accel_off_y, remap_accel_off_z, remap_gyro_off_rx,
      remap_gyro_off_ry, remap_gyro_off_rz]

/-- C14: the polled gyroscope callback stores `-(rx + off_rx)` back into the
16-bit field `axis.rx` and then reports `axis.rx + off_rx`: the reported RX
value is `-(rx + off_rx) + off_rx`, in which the offset cancels.  With rx = 10
and off_rx = 3 the report is -10, not -13. -/
theorem gyro_rx_offset_cancels :
    reported .gyro_dev .ABS_RX
        (new_events { sensor0 with axis := { sensor0.axis with off_rx := 3 } }
          (mpu6050_gyro_work_fn (env_raw [0, 10, 0, 0, 0, 0])
            { sensor0 with axis := { sensor0.axis with off_rx := 3 } })) = [-10] ∧
    ∀ (env : Env) (s : mpu6050_sensor),
      reported .gyro_dev .ABS_RX (new_events s (mpu6050_gyro_work_fn env s)) =
        [s16 (-((mpu6050_remap_gyro_data (mpu6050_read_gyro_data env s).axis s.place).rx
            + s.axis.off_rx)) + s.axis.off_rx] := by
  constructor
  · decide
  · intro env s
    cases hp : s.use_poll <;>
    simp [mpu6050_gyro_work_fn, mpu6050_read_gyro_data, hw, hw_void, new_events, reported, hp,
      shiftRight_zero, MPU6050_GYRO_SCALE_SHIFT_FS0, remap_gyro_off_rx]

/-- C15: the six values reported by `mpu6050_interrupt_thread` are the
big-endian signed 16-bit words of the two block reads, and the operations of
the call are the same for any orientation and any content of the sample and
offset record. -/
theorem interrupt_path_is_raw (env : Env) (s : mpu6050_sensor) :
    (reported .accel_dev .ABS_X (new_events s (mpu6050_interrupt_thread env s)) =
        [be16 ((env.raw s.log .raw_accel).getD 0 0) ((env.raw s.log .raw_accel).getD 1 0)] ∧
     reported .accel_dev .ABS_Y (new_events s (mpu6050_interrupt_thread env s)) =
        [be16 ((env.raw s.log .raw_accel).getD 2 0) ((env.raw s.log .raw_accel).getD 3 0)] ∧
     reported .accel_dev .ABS_Z (new_events s (mpu6050_interrupt_thread env s)) =
        [be16 ((env.raw s.log .raw_accel).getD 4 0) ((env.raw s.log .raw_accel).getD 5 0)] ∧
     reported .gyro_dev .ABS_RX (new_events s (mpu6050_interrupt_thread env s)) =
        [be16 ((env.raw (mpu6050_read_accel_data env s).log .raw_gyro).getD 0 0)
              ((env.raw (mpu6050_read_accel_data env s).log .raw_gyro).getD 1 0)] ∧
     reported .gyro_dev .ABS_RY (new_events s (mpu6050_interrupt_thread env s)) =
        [be16 ((env.raw (mpu6050_read_accel_data env s).log .raw_gyro).getD 2 0)
              ((env.raw (mpu6050_read_accel_data env s).log .raw_gyro).getD 3 0)] ∧
     reported .gyro_dev .ABS_RZ (new_events s (mpu6050_interrupt_thread env s)) =
        [be16 ((env.raw (mpu6050_read_accel_data env s).log .raw_gyro).getD 4 0)
              ((env.raw (mpu6050_read_accel_data env s).log .raw_gyro).getD 5 0)]) ∧
    ∀ (place : Int) (axis : axis_data),
      new_events { s with place := place, axis := axis }
          (mpu6050_interrupt_thread env { s with place := place, axis := axis }) =
        new_events s (mpu6050_interrupt_thread env s) := by
  simp [mpu6050_interrupt_thread, mpu6050_read_accel_data, mpu6050_read_gyro_data, hw, hw_void,
    new_events, reported]

/-! ### Calibration (C16, C17, C18) -/

theorem covers_ctl_not_blk : covers_ctl not_blk := by
  refine ⟨?_, ?_, ?_, ?_, ?_, ?_, ?_, ?_⟩ <;> intros <;> intro r n h <;> cases h

theorem blk_count_append (r : Reg) (a b : List Ev) :
    blk_count r (a ++ b) = blk_count r a + blk_count r b := by
  simp [blk_count]

theorem blk_count_not_blk (r : Reg) (evs : List Ev) (h : ∀ e ∈ evs, not_blk e.op) :
    blk_count r evs = 0 := by
  unfold blk_count
  rw [List.countP_eq_zero]
  intro e he
  have := h e he
  unfold is_blk
  split
  · rename_i r2 n heq
    exact absurd heq (this r2 n)
  · simp

theorem delivers_steps {env : Env} {s t : mpu6050_sensor} {r : Reg} {f : Nat → List Nat}
    (h : steps not_blk s t) (hd : delivers env s r f) : delivers env t r f := by
  obtain ⟨_, _, _, _, _, _, evs0, hl, hp⟩ := h
  intro evs
  rw [hl, List.append_assoc, hd, blk_count_append, blk_count_not_blk r evs0 hp, Nat.zero_add]

theorem remap_gyro_fields (d : axis_data) (place : Int) :
    (mpu6050_remap_gyro_data d place).rx =
      (mpu6050_remap_gyro_data ⟨0, 0, 0, 0, 0, 0, d.rx, d.ry, d.rz, 0, 0, 0⟩ place).rx ∧
    (mpu6050_remap_gyro_data d place).ry =
      (mpu6050_remap_gyro_data ⟨0, 0, 0, 0, 0, 0, d.rx, d.ry, d.rz, 0, 0, 0⟩ place).ry ∧
    (mpu6050_remap_gyro_data d place).rz =
      (mpu6050_remap_gyro_data ⟨0, 0, 0, 0, 0, 0, d.rx, d.ry, d.rz, 0, 0, 0⟩ place).rz := by
  unfold mpu6050_remap_gyro_data
  split_ifs <;> exact ⟨rfl, rfl, rfl⟩

theorem read_gyro_sample (env : Env) (s : mpu6050_sensor) (f : Nat → List Nat)
    (hd : delivers env s .raw_gyro f) :
    (mpu6050_remap_gyro_data (mpu6050_read_gyro_data env s).axis s.place).rx =
      (gyro_sample (f 0) s.place).rx ∧
    (mpu6050_remap_gyro_data (mpu6050_read_gyro_data env s).axis s.place).ry =
      (gyro_sample (f 0) s.place).ry ∧
    (mpu6050_remap_gyro_data (mpu6050_read_gyro_data env s).axis s.place).rz =
      (gyro_sample (f 0) s.place).rz := by
  have h0 : env.raw s.log .raw_gyro = f 0 := by
    have := hd []
    simpa [blk_count] using this
  obtain ⟨a, b, c⟩ := remap_gyro_fields (mpu6050_read_gyro_data env s).axis s.place
  rw [a, b, c]
  simp [mpu6050_read_gyro_data, hw, h0, gyro_sample]

theorem delivers_blk {env : Env} {s t : mpu6050_sensor} {r : Reg} {f : Nat → List Nat}
    (n : Nat) (x : Int) (hl : t.log = s.log ++ [⟨.blk r n, x⟩]) (hd : delivers env s r f) :
    delivers env t r (fun i => f (i + 1)) := by
  intro evs
  rw [hl, List.append_assoc, hd, blk_count_append]
  simp [blk_count, is_blk, Nat.add_comm]

theorem sum_range_succ_shift (g : Nat → Int) (n : Nat) :
    ((List.range (n + 1)).map g).sum = g 0 + ((List.range n).map (fun i => g (i + 1))).sum := by
  rw [List.range_succ_eq_map]
  simp [List.map_map, Function.comp_def]

theorem gyro_loop_sums (env : Env) : ∀ (n : Nat) (s : mpu6050_sensor) (acc : Int × Int × Int)
    (f : Nat → List Nat), delivers env s .raw_gyro f →
    (gyro_calibration_loop env n s acc).2 =
      (acc.1 + ((List.range n).map (fun i => (gyro_sample (f i) s.place).rx)).sum,
       acc.2.1 + ((List.range n).map (fun i => (gyro_sample (f i) s.place).ry)).sum,
       acc.2.2 + ((List.range n).map (fun i => (gyro_sample (f i) s.place).rz)).sum) := by
  intro n
  induction n with
  | zero =>
    intro s acc f _
    simp [gyro_calibration_loop]
  | succ n ih =>
    intro s acc f hd
    obtain ⟨hx, hy, hz⟩ := read_gyro_sample env s f hd
    have hplace : (mpu6050_read_gyro_data env s).place = s.place := by
      simp [mpu6050_read_gyro_data, hw]
    have hd2 : delivers env { mpu6050_read_gyro_data env s with
        axis := mpu6050_remap_gyro_data (mpu6050_read_gyro_data env s).axis
          (mpu6050_read_gyro_data env s).place } .raw_gyro (fun i => f (i + 1)) :=
      delivers_blk MPU6050_RAW_GYRO_DATA_LEN
        (env.ret s.log (.blk .raw_gyro MPU6050_RAW_GYRO_DATA_LEN))
        (by simp [mpu6050_read_gyro_data, hw]) hd
    simp only [gyro_calibration_loop]
    rw [ih _ _ _ hd2]
    simp only [hplace, hx, hy, hz, sum_range_succ_shift
      (fun i => (gyro_sample (f i) s.place).rx) n, sum_range_succ_shift
      (fun i => (gyro_sample (f i) s.place).ry) n, sum_range_succ_shift
      (fun i => (gyro_sample (f i) s.place).rz) n, add_assoc]

theorem s16_range (x : Int) : -32768 ≤ s16 x ∧ s16 x ≤ 32767 := by
  unfold s16
  omega

theorem s16_id (x : Int) (h1 : -32768 ≤ x) (h2 : x ≤ 32767) : s16 x = x := by
  unfold s16
  omega

theorem be16_range (hi lo : Nat) : -32768 ≤ be16 hi lo ∧ be16 hi lo ≤ 32767 :=
  s16_range _

theorem gyro_sample_range (b : List Nat) (place : Int) :
    (-32768 ≤ (gyro_sample b place).rx ∧ (gyro_sample b place).rx ≤ 32767) ∧
    (-32768 ≤ (gyro_sample b place).ry ∧ (gyro_sample b place).ry ≤ 32767) ∧
    (-32768 ≤ (gyro_sample b place).rz ∧ (gyro_sample b place).rz ≤ 32767) := by
  unfold gyro_sample mpu6050_remap_gyro_data
  split_ifs
  · exact ⟨be16_range _ _, be16_range _ _, be16_range _ _⟩
  · exact ⟨s16_range _, s16_range _, s16_range _⟩

theorem sum_range_bounds (g : Nat → Int) (lo hi : Int) (h : ∀ i, lo ≤ g i ∧ g i ≤ hi) :
    ∀ n : Nat, lo * n ≤ ((List.range n).map g).sum ∧ ((List.range n).map g).sum ≤ hi * n := by
  intro n
  induction n with
  | zero => simp
  | succ n ih =>
    rw [List.range_succ, List.map_append, List.sum_append]
    simp only [List.map_cons, List.map_nil, List.sum_cons, List.sum_nil, add_zero]
    have := h n
    push_cast
    constructor <;> nlinarith [ih.1, ih.2, this.1, this.2]

theorem tdiv10_range (x : Int) (h1 : -327680 ≤ x) (h2 : x ≤ 327670) :
    -32768 ≤ Int.tdiv x 10 ∧ Int.tdiv x 10 ≤ 32767 := by
  rcases le_or_lt 0 x with h | h
  · rw [Int.tdiv_eq_ediv h (by norm_num)]
    omega
  · have hx : x = -(-x) := by omega
    rw [hx, Int.neg_tdiv, Int.tdiv_eq_ediv (by omega) (by norm_num)]
    omega

theorem mean10_range (g : Nat → Int) (h : ∀ i, -32768 ≤ g i ∧ g i ≤ 32767) :
    -32768 ≤ mean10 g ∧ mean10 g ≤ 32767 := by
  have := sum_range_bounds g _ _ h CALIBRATION_TEST_COUNT
  unfold mean10 sum10
  apply tdiv10_range
  · have := this.1
    simp only [CALIBRATION_TEST_COUNT] at this ⊢
    norm_num at this
    exact this
  · have := this.2
    simp only [CALIBRATION_TEST_COUNT] at this ⊢
    norm_num at this
    exact this

theorem gyro_calibration_axis (K : Hdr) (env : Env) (s : mpu6050_sensor) (f : Nat → List Nat)
    (hd : delivers env s .raw_gyro f) :
    (gyro_calibration_xyz K env s).2.axis.off_rx =
      s16 (-(mean10 fun i => (gyro_sample (f i) s.place).rx)) ∧
    (gyro_calibration_xyz K env s).2.axis.off_ry =
      s16 (-(mean10 fun i => (gyro_sample (f i) s.place).ry)) ∧
    (gyro_calibration_xyz K env s).2.axis.off_rz =
      s16 (-(mean10 fun i => (gyro_sample (f i) s.place).rz)) := by
  have h1 : steps not_blk s (mpu6050_gyro_set_enable K env s true).2 :=
    steps_gyro_set_enable K env true covers_ctl_not_blk (by intro r n h; cases h)
      (steps_refl _ _)
  have hd1 := delivers_steps h1 hd
  have hl := gyro_loop_sums env CALIBRATION_TEST_COUNT _ (0, 0, 0) f hd1
  rw [h1.2.2.2.2.1] at hl
  unfold gyro_calibration_xyz
  simp only []
  by_cases hp : s.cfg.enable = 0
  · rw [if_pos hp]
    simp only []
    rw [(steps_gyro_set_enable K env false covers_ctl_true trivial
      (steps_refl (fun _ => True) _)).1]
    simp only [hl]
    simp only [mean10, sum10, CALIBRATION_TEST_COUNT]
    simp
  · rw [if_neg hp]
    simp only [hl]
    simp only [mean10, sum10, CALIBRATION_TEST_COUNT]
    simp

theorem remap_accel_fields (d : axis_data) (place : Int) :
    (mpu6050_remap_accel_data d place).x =
      (mpu6050_remap_accel_data ⟨d.x, d.y, d.z, 0, 0, 0, 0, 0, 0, 0, 0, 0⟩ place).x ∧
    (mpu6050_remap_accel_data d place).y =
      (mpu6050_remap_accel_data ⟨d.x, d.y, d.z, 0, 0, 0, 0, 0, 0, 0, 0, 0⟩ place).y ∧
    (mpu6050_remap_accel_data d place).z =
      (mpu6050_remap_accel_data ⟨d.x, d.y, d.z, 0, 0, 0, 0, 0, 0, 0, 0, 0⟩ place).z := by
  unfold mpu6050_remap_accel_data
  split_ifs <;> exact ⟨rfl, rfl, rfl⟩

theorem read_accel_sample (env : Env) (s : mpu6050_sensor) (f : Nat → List Nat)
    (hd : delivers env s .raw_accel f) :
    (mpu6050_remap_accel_data (mpu6050_read_accel_data env s).axis s.place).x =
      (accel_sample (f 0) s.place).x ∧
    (mpu6050_remap_accel_data (mpu6050_read_accel_data env s).axis s.place).y =
      (accel_sample (f 0) s.place).y ∧
    (mpu6050_remap_accel_data (mpu6050_read_accel_data env s).axis s.place).z =
      (accel_sample (f 0) s.place).z := by
  have h0 : env.raw s.log .raw_accel = f 0 := by
    have := hd []
    simpa [blk_count] using this
  obtain ⟨a, b, c⟩ := remap_accel_fields (mpu6050_read_accel_data env s).axis s.place
  rw [a, b, c]
  simp [mpu6050_read_accel_data, hw, h0, accel_sample]

theorem accel_loop_sums (env : Env) : ∀ (n : Nat) (s : mpu6050_sensor) (acc : Int × Int × Int)
    (f : Nat → List Nat), delivers env s .raw_accel f →
    (accel_calibration_loop env n s acc).2 =
      (acc.1 + ((List.range n).map (fun i => Int.tdiv (accel_sample (f i) s.place).x 10)).sum,
       acc.2.1 + ((List.range n).map (fun i => Int.tdiv (accel_sample (f i) s.place).y 10)).sum,
       acc.2.2 + ((List.range n).map (fun i => Int.tdiv (accel_sample (f i) s.place).z 10)).sum) := by
  intro n
  induction n with
  | zero =>
    intro s acc f _
    simp [accel_calibration_loop]
  | succ n ih =>
    intro s acc f hd
    obtain ⟨hx, hy, hz⟩ := read_accel_sample env s f hd
    have hplace : (mpu6050_read_accel_data env s).place = s.place := by
      simp [mpu6050_read_accel_data, hw]
    have hd2 : delivers env { mpu6050_read_accel_data env s with
        axis := mpu6050_remap_accel_data (mpu6050_read_accel_data env s).axis
          (mpu6050_read_accel_data env s).place } .raw_accel (fun i => f (i + 1)) :=
      delivers_blk MPU6050_RAW_ACCEL_DATA_LEN
        (env.ret s.log (.blk .raw_accel MPU6050_RAW_ACCEL_DATA_LEN))
        (by simp [mpu6050_read_accel_data, hw]) hd
    simp only [accel_calibration_loop]
    rw [ih _ _ _ hd2]
    simp only [hplace, hx, hy, hz, CALIBRATION_TEST_COUNT, Nat.cast_ofNat, sum_range_succ_shift
      (fun i => Int.tdiv (accel_sample (f i) s.place).x 10) n, sum_range_succ_shift
      (fun i => Int.tdiv (accel_sample (f i) s.place).y 10) n, sum_range_succ_shift
      (fun i => Int.tdiv (accel_sample (f i) s.place).z 10) n, add_assoc]

theorem accel_sample_range (b : List Nat) (place : Int) :
    (-32768 ≤ (accel_sample b place).x ∧ (accel_sample b place).x ≤ 32767) ∧
    (-32768 ≤ (accel_sample b place).y ∧ (accel_sample b place).y ≤ 32767) ∧
    (-32768 ≤ (accel_sample b place).z ∧ (accel_sample b place).z ≤ 32767) := by
  unfold accel_sample mpu6050_remap_accel_data
  split_ifs
  · exact ⟨be16_range _ _, be16_range _ _, be16_range _ _⟩
  · exact ⟨s16_range _, s16_range _, s16_range _⟩

theorem tenth_range (x : Int) (h1 : -32768 ≤ x) (h2 : x ≤ 32767) :
    -3276 ≤ Int.tdiv x 10 ∧ Int.tdiv x 10 ≤ 3276 := by
  rcases le_or_lt 0 x with h | h
  · rw [Int.tdiv_eq_ediv h (by norm_num)]
    omega
  · have hx : x = -(-x) := by omega
    rw [hx, Int.neg_tdiv, Int.tdiv_eq_ediv (by omega) (by norm_num)]
    omega

theorem sum10_tenth_range (g : Nat → Int) (h : ∀ i, -32768 ≤ g i ∧ g i ≤ 32767) :
    -32760 ≤ sum10 (fun i => Int.tdiv (g i) 10) ∧ sum10 (fun i => Int.tdiv (g i) 10) ≤ 32760 := by
  have := sum_range_bounds (fun i => Int.tdiv (g i) 10) _ _
    (fun i => tenth_range (g i) (h i).1 (h i).2) CALIBRATION_TEST_COUNT
  unfold sum10
  simp only [CALIBRATION_TEST_COUNT] at this ⊢
  norm_num at this
  exact this

theorem accel_calibration_axis (K : Hdr) (env : Env) (s : mpu6050_sensor) (f : Nat → List Nat)
    (hd : delivers env s .raw_accel f) :
    (mpu6050_self_calibration_xyz K env s).2.axis.off_x =
      s16 (0 - sum10 fun i => Int.tdiv (accel_sample (f i) s.place).x 10) ∧
    (mpu6050_self_calibration_xyz K env s).2.axis.off_y =
      s16 (0 - sum10 fun i => Int.tdiv (accel_sample (f i) s.place).y 10) ∧
    (mpu6050_self_calibration_xyz K env s).2.axis.off_z =
      s16 (MPU6050_ACCEL_UNIT_08G - sum10 fun i => Int.tdiv (accel_sample (f i) s.place).z 10) := by
  have h1 : steps not_blk s (mpu6050_accel_set_enable K env s true).2 :=
    steps_accel_set_enable K env true covers_ctl_not_blk (by intro r n h; cases h)
      (steps_refl _ _)
  have hd1 := delivers_steps h1 hd
  have hl := accel_loop_sums env CALIBRATION_TEST_COUNT _ (0, 0, 0) f hd1
  rw [h1.2.2.2.2.1] at hl
  unfold mpu6050_self_calibration_xyz
  simp only [hl]
  simp only [sum10, CALIBRATION_TEST_COUNT]
  simp

/-- C16 (amended): when the block reads of the gyroscope registers deliver
the byte strings `f 0`, `f 1`, ..., each offset after `gyro_calibration_xyz` is
the negated truncated mean of the ten remapped samples of its axis, stored
into a 16-bit field: it equals the negated mean unless the mean is -32768 (all
ten remapped samples are -32768), in which case the negation wraps.  The
offsets depend on the samples and the orientation only: any two runs, from
any states with the same orientation and on the same samples, give the same
offsets. -/
theorem gyro_calibration_offsets (K : Hdr) (env : Env) (s : mpu6050_sensor)
    (f : Nat → List Nat) (hd : delivers env s .raw_gyro f) :
    ((gyro_calibration_xyz K env s).2.axis.off_rx =
        s16 (-(mean10 fun i => (gyro_sample (f i) s.place).rx)) ∧
     (gyro_calibration_xyz K env s).2.axis.off_ry =
        s16 (-(mean10 fun i => (gyro_sample (f i) s.place).ry)) ∧
     (gyro_calibration_xyz K env s).2.axis.off_rz =
        s16 (-(mean10 fun i => (gyro_sample (f i) s.place).rz))) ∧
    ((mean10 fun i => (gyro_sample (f i) s.place).rx) ≠ -32768 →
      (gyro_calibration_xyz K env s).2.axis.off_rx =
        -(mean10 fun i => (gyro_sample (f i) s.place).rx)) ∧
    ((mean10 fun i => (gyro_sample (f i) s.place).ry) ≠ -32768 →
      (gyro_calibration_xyz K env s).2.axis.off_ry =
        -(mean10 fun i => (gyro_sample (f i) s.place).ry)) ∧
    ((mean10 fun i => (gyro_sample (f i) s.place).rz) ≠ -32768 →
      (gyro_calibration_xyz K env s).2.axis.off_rz =
        -(mean10 fun i => (gyro_sample (f i) s.place).rz)) ∧
    (∀ (K2 : Hdr) (env2 : Env) (s2 : mpu6050_sensor), s2.place = s.place →
      delivers env2 s2 .raw_gyro f →
      (gyro_calibration_xyz K2 env2 s2).2.axis.off_rx =
        (gyro_calibration_xyz K env s).2.axis.off_rx ∧
      (gyro_calibration_xyz K2 env2 s2).2.axis.off_ry =
        (gyro_calibration_xyz K env s).2.axis.off_ry ∧
      (gyro_calibration_xyz K2 env2 s2).2.axis.off_rz =
        (gyro_calibration_xyz K env s).2.axis.off_rz) := by
  obtain ⟨hx, hy, hz⟩ := gyro_calibration_axis K env s f hd
  have rx := mean10_range (fun i => (gyro_sample (f i) s.place).rx)
    (fun i => (gyro_sample_range (f i) s.place).1)
  have ry := mean10_range (fun i => (gyro_sample (f i) s.place).ry)
    (fun i => (gyro_sample_range (f i) s.place).2.1)
  have rz := mean10_range (fun i => (gyro_sample (f i) s.place).rz)
    (fun i => (gyro_sample_range (f i) s.place).2.2)
  refine ⟨⟨hx, hy, hz⟩, ?_, ?_, ?_, ?_⟩
  · intro h
    rw [hx]
    exact s16_id _ (by omega) (by omega)
  · intro h
    rw [hy]
    exact s16_id _ (by omega) (by omega)
  · intro h
    rw [hz]
    exact s16_id _ (by omega) (by omega)
  · intro K2 env2 s2 hp hd2
    obtain ⟨hx2, hy2, hz2⟩ := gyro_calibration_axis K2 env2 s2 f hd2
    rw [hx, hy, hz, hx2, hy2, hz2, hp]
    exact ⟨rfl, rfl, rfl⟩

/-- Witness for C16: every access succeeds, the `i`-th gyroscope sample is
(i, 10, -10). -/
theorem gyro_calibration_offsets_witness :
    delivers (env_samples fun i => [0, i, 0, 10, 255, 246]) sensor0 .raw_gyro
      (fun i => [0, i, 0, 10, 255, 246]) ∧
    (gyro_calibration_xyz mpu6050_h (env_samples fun i => [0, i, 0, 10, 255, 246])
      sensor0).2.axis.off_rx =
        s16 (-(mean10 fun i => (gyro_sample [0, i, 0, 10, 255, 246] sensor0.place).rx)) :=
  ⟨fun _ => rfl,
   (gyro_calibration_offsets mpu6050_h (env_samples fun i => [0, i, 0, 10, 255, 246]) sensor0
      (fun i => [0, i, 0, 10, 255, 246]) (fun _ => rfl)).1.1⟩

/-- Counterexample for C16: ten samples whose three words are all 0x8000
(-32768).  The truncated mean of each axis is -32768, its negation is 32768,
and the offset stored by `gyro_calibration_xyz` is -32768. -/
theorem gyro_calibration_wrap_counterexample :
    mean10 (fun _ => (gyro_sample [128, 0, 128, 0, 128, 0] sensor0.place).rx) = -32768 ∧
    (gyro_calibration_xyz mpu6050_h (env_samples fun _ => [128, 0, 128, 0, 128, 0])
      sensor0).2.axis.off_rx = -32768 := by
  decide

/-- C17 (amended): when the block reads of the accelerometer registers
deliver the byte strings `f 0`, `f 1`, ..., `mpu6050_self_calibration_xyz`
leaves off_x = -S_x, off_y = -S_y and off_z = 4096 - S_z truncated to 16 bits,
where S_a is the sum over the ten remapped samples of axis a of the sample
divided by 10 with truncation (each sample is divided before it is added);
off_z equals 4096 - S_z whenever S_z is at least -28671. -/
theorem accel_calibration_offsets (K : Hdr) (env : Env) (s : mpu6050_sensor)
    (f : Nat → List Nat) (hd : delivers env s .raw_accel f) :
    (mpu6050_self_calibration_xyz K env s).2.axis.off_x =
      -(sum10 fun i => Int.tdiv (accel_sample (f i) s.place).x 10) ∧
    (mpu6050_self_calibration_xyz K env s).2.axis.off_y =
      -(sum10 fun i => Int.tdiv (accel_sample (f i) s.place).y 10) ∧
    (mpu6050_self_calibration_xyz K env s).2.axis.off_z =
      s16 (4096 - sum10 fun i => Int.tdiv (accel_sample (f i) s.place).z 10) ∧
    (-28671 ≤ (sum10 fun i => Int.tdiv (accel_sample (f i) s.place).z 10) →
      (mpu6050_self_calibration_xyz K env s).2.axis.off_z =
        4096 - sum10 fun i => Int.tdiv (accel_sample (f i) s.place).z 10) := by
  obtain ⟨hx, hy, hz⟩ := accel_calibration_axis K env s f hd
  have rx := sum10_tenth_range (fun i => (accel_sample (f i) s.place).x)
    (fun i => (accel_sample_range (f i) s.place).1)
  have ry := sum10_tenth_range (fun i => (accel_sample (f i) s.place).y)
    (fun i => (accel_sample_range (f i) s.place).2.1)
  have rz := sum10_tenth_range (fun i => (accel_sample (f i) s.place).z)
    (fun i => (accel_sample_range (f i) s.place).2.2)
  beta_reduce at rx ry rz
  refine ⟨?_, ?_, hz, ?_⟩
  · rw [hx, s16_id _ (by omega) (by omega)]
    omega
  · rw [hy, s16_id _ (by omega) (by omega)]
    omega
  · intro h
    rw [hz]
    exact s16_id _ (by unfold MPU6050_ACCEL_UNIT_08G; omega)
      (by unfold MPU6050_ACCEL_UNIT_08G; omega)

/-- Witness for C17: every access succeeds, the `i`-th accelerometer sample
is (i, 10, 4096). -/
theorem accel_calibration_offsets_witness :
    delivers (env_samples fun i => [0, i, 0, 10, 16, 0]) sensor0 .raw_accel
      (fun i => [0, i, 0, 10, 16, 0]) ∧
    (mpu6050_self_calibration_xyz mpu6050_h (env_samples fun i => [0, i, 0, 10, 16, 0])
      sensor0).2.axis.off_y =
        -(sum10 fun i => Int.tdiv (accel_sample [0, i, 0, 10, 16, 0] sensor0.place).y 10) :=
  ⟨fun _ => rfl,
   (accel_calibration_offsets mpu6050_h (env_samples fun i => [0, i, 0, 10, 16, 0]) sensor0
      (fun i => [0, i, 0, 10, 16, 0]) (fun _ => rfl)).2.1⟩

/-- Counterexample for C17: ten samples (5, 5, 5).  The truncated mean of
each axis is 5, so the claimed offsets are -5, -5 and 4091; the code adds
5 / 10 = 0 ten times and stores 0, 0 and 4096. -/
theorem accel_calibration_tenths_counterexample :
    mean10 (fun _ => (accel_sample [0, 5, 0, 5, 0, 5] sensor0.place).x) = 5 ∧
    mean10 (fun _ => (accel_sample [0, 5, 0, 5, 0, 5] sensor0.place).z) = 5 ∧
    (mpu6050_self_calibration_xyz mpu6050_h (env_samples fun _ => [0, 5, 0, 5, 0, 5])
      sensor0).2.axis.off_x = 0 ∧
    (mpu6050_self_calibration_xyz mpu6050_h (env_samples fun _ => [0, 5, 0, 5, 0, 5])
      sensor0).2.axis.off_z = 4096 := by
  decide

/-- C18: the calibration functions save the device-wide flag `cfg.enable`,
not the flag of their engine.  From the state reached by enabling the
accelerometer alone (every access succeeding), `gyro_calibration_xyz` returns
0 and leaves `cfg.gyro_enable` at 1 although it was 0 before the call; the
same holds for `mpu6050_self_calibration_xyz` and `cfg.accel_enable` from the
state reached by enabling the gyroscope alone. -/
theorem calibration_leaves_engine_enabled :
    ((mpu6050_accel_set_enable mpu6050_h env_ok sensor0 true).2.cfg.gyro_enable = 0 ∧
     (mpu6050_accel_set_enable mpu6050_h env_ok sensor0 true).2.cfg.accel_enable = 1 ∧
     (gyro_calibration_xyz mpu6050_h env_ok
        (mpu6050_accel_set_enable mpu6050_h env_ok sensor0 true).2).1 = 0 ∧
     (gyro_calibration_xyz mpu6050_h env_ok
        (mpu6050_accel_set_enable mpu6050_h env_ok sensor0 true).2).2.cfg.gyro_enable = 1) ∧
    ((mpu6050_gyro_set_enable mpu6050_h env_ok sensor0 true).2.cfg.accel_enable = 0 ∧
     (mpu6050_gyro_set_enable mpu6050_h env_ok sensor0 true).2.cfg.gyro_enable = 1 ∧
     (mpu6050_self_calibration_xyz mpu6050_h env_ok
        (mpu6050_gyro_set_enable mpu6050_h env_ok sensor0 true).2).1 = 0 ∧
     (mpu6050_self_calibration_xyz mpu6050_h env_ok
        (mpu6050_gyro_set_enable mpu6050_h env_ok sensor0 true).2).2.cfg.accel_enable = 1) := by
  decide

/-! ### Poll interval (C19) -/

theorem clamp_eq (d : Nat) :
    (if (if d < 1 then 1 else d) > 5000 then 5000 else (if d < 1 then 1 else d)) =
      min (max d 1) 5000 := by
  split_ifs <;> omega

theorem gyro_set_poll_delay_eq (s : mpu6050_sensor) (d : Nat) :
    (mpu6050_gyro_set_poll_delay s d).1 = 0 ∧
    (mpu6050_gyro_set_poll_delay s d).2.gyro_poll_ms = min (max d 1) 5000 ∧
    (mpu6050_gyro_set_poll_delay s d).2.accel_poll_ms = s.accel_poll_ms := by
  unfold mpu6050_gyro_set_poll_delay
  simp only [MPU6050_GYRO_MIN_POLL_INTERVAL_MS, MPU6050_GYRO_MAX_POLL_INTERVAL_MS, hw_void,
    clamp_eq]
  cases s.use_poll <;> simp

theorem accel_set_poll_delay_eq (K : Hdr) (env : Env) (s : mpu6050_sensor) (d : Nat) :
    (mpu6050_accel_set_poll_delay K env s d).1 = 0 ∧
    (mpu6050_accel_set_poll_delay K env s d).2.gyro_poll_ms = s.gyro_poll_ms ∧
    ((mpu6050_accel_set_poll_delay K env s d).2.accel_poll_ms = min (max d 1) 5000 ∨
     ((mpu6050_accel_set_poll_delay K env s d).2.accel_poll_ms = s.accel_poll_ms ∧
      ∃ e ∈ new_events s (mpu6050_accel_set_poll_delay K env s d).2,
        ∃ v, e.op = .wr .sample_rate_div v ∧ e.ret ≠ 0)) := by
  unfold mpu6050_accel_set_poll_delay
  simp only [MPU6050_ACCEL_MIN_POLL_INTERVAL_MS, MPU6050_ACCEL_MAX_POLL_INTERVAL_MS, hw_void,
    i2c_smbus_write_byte_data, hw, new_events, clamp_eq]
  generalize min (max d 1) 5000 = c
  by_cases h1 : s.accel_poll_ms = c <;>
    by_cases h2 : env.ret s.log (.wr .sample_rate_div (sample_rate_divider K % 256)) = 0 <;>
    cases hp : s.use_poll <;> simp [h1, h2, hp]

/-- C19: for every requested delay `d`, `mpu6050_gyro_set_poll_delay`
returns 0 and stores `gyro_poll_ms = min (max d 1) 5000`;
`mpu6050_accel_set_poll_delay` stores `accel_poll_ms = min (max d 1) 5000`
when every write of the sample-rate divider in the call returns 0; the
defaults (200 ms) are within [1, 5000], and both functions keep both cached
intervals within [1, 5000]. -/
theorem poll_delay_clamped (K : Hdr) (env : Env) (s : mpu6050_sensor) (d : Nat) :
    ((mpu6050_gyro_set_poll_delay s d).1 = 0 ∧
      (mpu6050_gyro_set_poll_delay s d).2.gyro_poll_ms = min (max d 1) 5000) ∧
    ((∀ e ∈ new_events s (mpu6050_accel_set_poll_delay K env s d).2,
        ∀ v, e.op = .wr .sample_rate_div v → e.ret = 0) →
      (mpu6050_accel_set_poll_delay K env s d).2.accel_poll_ms = min (max d 1) 5000) ∧
    (1 ≤ MPU6050_GYRO_DEFAULT_POLL_INTERVAL_MS ∧ MPU6050_GYRO_DEFAULT_POLL_INTERVAL_MS ≤ 5000 ∧
      1 ≤ MPU6050_ACCEL_DEFAULT_POLL_INTERVAL_MS ∧
      MPU6050_ACCEL_DEFAULT_POLL_INTERVAL_MS ≤ 5000) ∧
    ((1 ≤ s.gyro_poll_ms ∧ s.gyro_poll_ms ≤ 5000 ∧ 1 ≤ s.accel_poll_ms ∧ s.accel_poll_ms ≤ 5000) →
      (1 ≤ (mpu6050_gyro_set_poll_delay s d).2.gyro_poll_ms ∧
       (mpu6050_gyro_set_poll_delay s d).2.gyro_poll_ms ≤ 5000 ∧
       1 ≤ (mpu6050_gyro_set_poll_delay s d).2.accel_poll_ms ∧
       (mpu6050_gyro_set_poll_delay s d).2.accel_poll_ms ≤ 5000) ∧
      (1 ≤ (mpu6050_accel_set_poll_delay K env s d).2.gyro_poll_ms ∧
       (mpu6050_accel_set_poll_delay K env s d).2.gyro_poll_ms ≤ 5000 ∧
       1 ≤ (mpu6050_accel_set_poll_delay K env s d).2.accel_poll_ms ∧
       (mpu6050_accel_set_poll_delay K env s d).2.accel_poll_ms ≤ 5000)) := by
  obtain ⟨g1, g2, g3⟩ := gyro_set_poll_delay_eq s d
  obtain ⟨_, a2, a3⟩ := accel_set_poll_delay_eq K env s d
  refine ⟨⟨g1, g2⟩, ?_, by decide, ?_⟩
  · intro hok
    rcases a3 with h | ⟨_, e, he, v, hv, hne⟩
    · exact h
    · exact absurd (hok e he v hv) hne
  · intro h
    rw [g2, g3, a2]
    refine ⟨⟨?_, ?_, h.2.2.1, h.2.2.2⟩, h.1, h.2.1, ?_, ?_⟩
    · omega
    · omega
    · rcases a3 with h3 | ⟨h3, _⟩ <;> rw [h3] <;> omega
    · rcases a3 with h3 | ⟨h3, _⟩ <;> rw [h3] <;> omega

/-- Witness for C19: a request of 9999 ms on the sensor `sensor0`, whose
intervals are the defaults, with every access succeeding. -/
theorem poll_delay_clamped_witness :
    (∀ e ∈ new_events sensor0 (mpu6050_accel_set_poll_delay mpu6050_h env_ok sensor0 9999).2,
      ∀ v, e.op = .wr .sample_rate_div v → e.ret = 0) ∧
    (1 ≤ sensor0.gyro_poll_ms ∧ sensor0.gyro_poll_ms ≤ 5000 ∧ 1 ≤ sensor0.accel_poll_ms ∧
      sensor0.accel_poll_ms ≤ 5000) ∧
    (mpu6050_accel_set_poll_delay mpu6050_h env_ok sensor0 9999).2.accel_poll_ms = 5000 ∧
    (mpu6050_gyro_set_poll_delay sensor0 9999).2.gyro_poll_ms = 5000 ∧
    (mpu6050_gyro_set_poll_delay sensor0 9999).2.accel_poll_ms ≤ 5000 := by
  have hok : ∀ e ∈ new_events sensor0
      (mpu6050_accel_set_poll_delay mpu6050_h env_ok sensor0 9999).2,
      ∀ v, e.op = .wr .sample_rate_div v → e.ret = 0 := by
    have h0 : ∀ e ∈ new_events sensor0
        (mpu6050_accel_set_poll_delay mpu6050_h env_ok sensor0 9999).2, e.ret = 0 := by decide
    exact fun e he _ _ => h0 e he
  have hr : 1 ≤ sensor0.gyro_poll_ms ∧ sensor0.gyro_poll_ms ≤ 5000 ∧ 1 ≤ sensor0.accel_poll_ms ∧
      sensor0.accel_poll_ms ≤ 5000 := by decide
  have h := poll_delay_clamped mpu6050_h env_ok sensor0 9999
  exact ⟨hok, hr, h.2.1 hok, h.1.2, (h.2.2.2 hr).1.2.2.2⟩

/-! ### Timer periods (C20) -/

theorem pm_op_bus {op : Op} (h : pm_op op = true) : bus_op op = true := by
  cases op <;> simp_all [pm_op, bus_op]

theorem steps_ite_cond {P : Op → Prop} {s : mpu6050_sensor} {c : Prop} [Decidable c]
    {a b : mpu6050_sensor} (ha : c → steps P s a) (hb : ¬ c → steps P s b) :
    steps P s (if c then a else b) := by
  split_ifs with h
  · exact ha h
  · exact hb h

theorem pm_steps_switch_engine {P : Op → Prop} {s x : mpu6050_sensor} (K : Hdr) (env : Env)
    (en : Bool) (mask : Nat) (hp : ∀ op, pm_op op = true → P op) (h : steps P s x) :
    steps P s (mpu6050_switch_engine K env x en mask).2 := by
  have h0 : steps P s (if (K.BIT_PWR_GYRO_STBY_MASK == mask) = true then
      i2c_smbus_read_byte_data env x .pwr_mgmt_1 else (0, x)).2 :=
    steps_ite2 (steps_hw env _ h (hp _ rfl)) h
  have hwr : ∀ {y : mpu6050_sensor} (r : Reg) (v : Nat), pm_op (.rd r) = true →
      steps P s y → steps P s (i2c_smbus_write_byte_data env y r v).2 := by
    intro y r v hr hy
    refine steps_hw env _ hy (hp _ ?_)
    cases r <;> simp_all [pm_op]
  unfold mpu6050_switch_engine
  apply steps_ite2
  · exact h0
  have h1 : ∀ v, steps P s (if ((K.BIT_PWR_GYRO_STBY_MASK == mask) && !en) = true then
      i2c_smbus_write_byte_data env (if (K.BIT_PWR_GYRO_STBY_MASK == mask) = true then
        i2c_smbus_read_byte_data env x .pwr_mgmt_1 else (0, x)).2 .pwr_mgmt_1 v
      else (0, (if (K.BIT_PWR_GYRO_STBY_MASK == mask) = true then
        i2c_smbus_read_byte_data env x .pwr_mgmt_1 else (0, x)).2)).2 :=
    fun v => steps_ite2 (hwr _ _ rfl h0) h0
  apply steps_ite2
  · exact h1 _
  have h2 := fun v => steps_hw env (.rd .pwr_mgmt_2) (h1 v) (hp _ rfl)
  apply steps_ite2
  · exact h2 _
  have h3 := fun v w => hwr .pwr_mgmt_2 w rfl (h2 v)
  apply steps_ite2
  · exact h3 _ _
  apply steps_ite2
  · apply steps_ite2
    · exact hwr _ _ rfl (h3 _ _)
    · exact h3 _ _
  · apply steps_pair
    apply steps_ite2
    · exact hwr _ _ rfl (h3 _ _)
    · exact h3 _ _

theorem pm_steps_set_power_mode {P : Op → Prop} {s x : mpu6050_sensor} (K : Hdr) (env : Env)
    (b : Bool) (hp : ∀ op, pm_op op = true → P op) (h : steps P s x) :
    steps P s (mpu6050_set_power_mode K env x b).2 := by
  have h1 : steps P s (i2c_smbus_read_byte_data env x .pwr_mgmt_1).2 :=
    steps_hw env _ h (hp _ rfl)
  unfold mpu6050_set_power_mode
  apply steps_ite2
  · exact h1
  · exact steps_hw env _ h1 (hp _ rfl)

theorem pm_steps_engine_enable {P : Op → Prop} {s x : mpu6050_sensor} (K : Hdr) (env : Env)
    (mask : Nat) (set_flag : mpu_chip_config → Nat → mpu_chip_config)
    (other : mpu_chip_config → Nat) (on_ : Bool) (hp : ∀ op, pm_op op = true → P op)
    (h : steps P s x) :
    steps P s (engine_enable K env mask set_flag other x on_).2 := by
  have h1 : steps P s (i2c_smbus_read_byte_data env x .pwr_mgmt_1).2 :=
    steps_hw env _ h (hp _ rfl)
  have h2 : ∀ b, steps P s (mpu6050_switch_engine K env
      (i2c_smbus_read_byte_data env x .pwr_mgmt_1).2 b mask).2 :=
    fun b => pm_steps_switch_engine K env b mask hp h1
  unfold engine_enable
  apply steps_ite2
  · exact h
  apply steps_ite2
  · exact h1
  cases on_
  · simp only [Bool.false_eq_true, if_false]
    apply steps_ite2
    · exact h2 _
    apply steps_ite2
    · apply steps_ite2
      · exact steps_hw env _ (steps_cfg _ (h2 _)) (hp _ rfl)
      · exact steps_cfg _ (steps_hw env _ (steps_cfg _ (h2 _)) (hp _ rfl))
    · exact steps_cfg _ (h2 _)
  · simp only [if_true]
    apply steps_ite2
    · exact h2 _
    apply steps_ite2
    · exact steps_hw env _ (steps_cfg _ (h2 _)) (hp _ rfl)
    · exact steps_cfg _ (steps_hw env _ (steps_cfg _ (h2 _)) (hp _ rfl))

theorem pm_steps_gyro_enable {P : Op → Prop} {s x : mpu6050_sensor} (K : Hdr) (env : Env)
    (on_ : Bool) (hp : ∀ op, pm_op op = true → P op) (h : steps P s x) :
    steps P s (mpu6050_gyro_enable K env x on_).2 := by
  rw [gyro_enable_eq]
  exact pm_steps_engine_enable K env _ _ _ on_ hp h

theorem pm_steps_accel_enable {P : Op → Prop} {s x : mpu6050_sensor} (K : Hdr) (env : Env)
    (on_ : Bool) (hp : ∀ op, pm_op op = true → P op) (h : steps P s x) :
    steps P s (mpu6050_accel_enable K env x on_).2 := by
  rw [accel_enable_eq]
  exact pm_steps_engine_enable K env _ _ _ on_ hp h

theorem restore_steps_set_lpa_freq {P : Op → Prop} {s x : mpu6050_sensor} (K : Hdr) (env : Env)
    (f : Nat) (hp : ∀ op, restore_op op = true → P op) (h : steps P s x) :
    steps P s (mpu6050_set_lpa_freq K env x f).2 := by
  have h1 : steps P s (i2c_smbus_read_byte_data env x .pwr_mgmt_2).2 :=
    steps_hw env _ h (hp _ rfl)
  unfold mpu6050_set_lpa_freq
  apply steps_ite2
  · apply steps_ite2
    · exact h1
    apply steps_ite2
    · exact steps_hw env _ h1 (hp _ rfl)
    · exact steps_cfg _ (steps_hw env _ h1 (hp _ rfl))
  · exact steps_cfg _ h

theorem restore_steps_tail {P : Op → Prop} {s x : mpu6050_sensor} (K : Hdr) (env : Env)
    (hp : ∀ op, restore_op op = true → P op) (h : steps P s x) :
    steps P s (restore_context_tail K env x).2 := by
  have h1 : steps P s (i2c_smbus_read_byte_data env x .fifo_en).2 :=
    steps_hw env _ h (hp _ rfl)
  have ha : ∀ v, steps P s (if (i2c_smbus_read_byte_data env x .fifo_en).2.cfg.accel_fifo_enable ≠ 0
      then i2c_smbus_write_byte_data env (i2c_smbus_read_byte_data env x .fifo_en).2 .fifo_en v
      else (0, (i2c_smbus_read_byte_data env x .fifo_en).2)).2 := fun v =>
    steps_ite2 (steps_hw env _ h1 (hp _ rfl)) h1
  unfold restore_context_tail
  apply steps_ite2
  · exact h1
  apply steps_ite2
  · exact ha _
  have hg : ∀ (a : Int × mpu6050_sensor) (v : Nat), steps P s a.2 →
      steps P s (if a.2.cfg.gyro_fifo_enable ≠ 0
        then i2c_smbus_write_byte_data env a.2 .fifo_en v else (0, a.2)).2 := fun a v h0 =>
    steps_ite2 (steps_hw env _ h0 (hp _ rfl)) h0
  apply steps_ite2
  · exact hg _ _ (ha _)
  apply steps_ite2
  · exact restore_steps_set_lpa_freq K env _ hp (hg _ _ (ha _))
  · exact steps_hw env _ (restore_steps_set_lpa_freq K env _ hp (hg _ _ (ha _))) (hp _ rfl)

theorem restore_steps_context {P : Op → Prop} {s x : mpu6050_sensor} (K : Hdr) (env : Env)
    (hp : ∀ op, restore_op op = true → P op) (h : steps P s x) :
    steps P s (mpu6050_restore_context K env x).2 := by
  rw [restore_context_eq]
  have h1 := steps_hw env (.wr .gyro_config ((x.cfg.fsr <<< K.GYRO_CONFIG_FSR_SHIFT) % 256)) h
    (hp _ rfl)
  have h2 := steps_hw env (.wr .lpf (x.cfg.lpf % 256)) h1 (hp _ rfl)
  have h3 := steps_hw env (.wr .accel_config ((K.ACCEL_FS_08G <<< K.ACCL_CONFIG_FSR_SHIFT) % 256))
    h2 (hp _ rfl)
  apply steps_ite2
  · exact h1
  apply steps_ite2
  · exact h2
  apply steps_ite2
  · exact h3
  · exact restore_steps_tail K env hp h3

theorem rail_steps_power_ctl {P : Op → Prop} {s x : mpu6050_sensor} (env : Env) (on_ : Bool)
    (hp : ∀ op, rail_op op = true → P op) (h : steps P s x) :
    steps P s (mpu6050_power_ctl env x on_).2 := by
  have he : ∀ {y : mpu6050_sensor} (r : Rail), steps P s y →
      steps P s (regulator_enable env y r).2 := fun r hy => steps_hw env _ hy (hp _ rfl)
  have hd : ∀ {y : mpu6050_sensor} (r : Rail), steps P s y →
      steps P s (regulator_disable env y r).2 := fun r hy => steps_hw env _ hy (hp _ rfl)
  have hg : ∀ {y : mpu6050_sensor} (v : Nat), steps P s y →
      steps P s (if y.enable_gpio_valid then hw_void y (.gpio_set_value v) else y) :=
    fun v hy => steps_ite (steps_hw_void _ hy (hp _ rfl)) hy
  unfold mpu6050_power_ctl
  apply steps_ite2
  · apply steps_ite2
    · exact he _ h
    apply steps_ite2
    · exact hd _ (he _ (he _ h))
    apply steps_ite2
    · exact hd _ (hd _ (he _ (he _ (he _ h))))
    · exact steps_power _ (hg _ (he _ (he _ (he _ h))))
  apply steps_ite2
  · apply steps_ite2
    · exact hd _ (hg _ h)
    apply steps_ite2
    · exact he _ (hd _ (hd _ (hg _ h)))
    apply steps_ite2
    · apply steps_ite2
      · exact he _ (hd _ (hd _ (hd _ (hg _ h))))
      apply steps_ite2
      · exact he _ (he _ (hd _ (hd _ (hd _ (hg _ h)))))
      · exact steps_power _ (he _ (he _ (hd _ (hd _ (hd _ (hg _ h))))))
    · exact steps_power _ (hd _ (hd _ (hd _ (hg _ h))))
  · exact h

theorem restore_op_bus {op : Op} (h : restore_op op = true) : bus_op op = true := by
  cases op <;> simp_all [restore_op, bus_op]

theorem rail_op_bus {op : Op} (h : rail_op op = true) : bus_op op = true := by
  cases op <;> simp_all [rail_op, bus_op]

theorem steps_ite2_cond {P : Op → Prop} {s : mpu6050_sensor} {c : Prop} [Decidable c]
    {a b : Int × mpu6050_sensor} (ha : c → steps P s a.2) (hb : ¬ c → steps P s b.2) :
    steps P s (if c then a else b).2 := by
  split_ifs with h
  · exact ha h
  · exact hb h

theorem bus_steps_set_enable_prep {P : Op → Prop} {s x : mpu6050_sensor} (K : Hdr) (env : Env)
    (hb : ∀ op, bus_op op = true → P op) (h : steps P s x) :
    steps P s (if x.cfg.enable = 0 then
      (if (mpu6050_power_ctl env x true).1 < 0 then mpu6050_power_ctl env x true
        else mpu6050_restore_context K env (mpu6050_power_ctl env x true).2)
      else (0, x)).2 :=
  steps_ite2 (steps_ite2 (rail_steps_power_ctl env _ (fun _ ho => hb _ (rail_op_bus ho)) h)
    (restore_steps_context K env (fun _ ho => hb _ (restore_op_bus ho))
      (rail_steps_power_ctl env _ (fun _ ho => hb _ (rail_op_bus ho)) h))) h

theorem steps_arm_gyro {P : Op → Prop} {s x : mpu6050_sensor} (r : Int)
    (hs : s.use_poll = true → P (.schedule_delayed_work .gyro_poll_work s.gyro_poll_ms))
    (hi : s.use_poll = false → P .enable_irq) (h : steps P s x) :
    steps P s (if x.use_poll = true then
        (r, hw_void x (.schedule_delayed_work .gyro_poll_work x.gyro_poll_ms))
      else (r, hw_void x .enable_irq)).2 := by
  have hu : x.use_poll = s.use_poll := h.2.2.2.1
  apply steps_ite2_cond
  · intro hc
    exact steps_hw_void _ h (by rw [h.2.1]; exact hs (by rw [← hu]; exact hc))
  · intro hc
    exact steps_hw_void _ h (hi (by rw [← hu]; simpa using hc))

theorem steps_arm_accel {P : Op → Prop} {s x : mpu6050_sensor} (r : Int)
    (hs : s.use_poll = true → P (.schedule_delayed_work .accel_poll_work s.accel_poll_ms))
    (hi : s.use_poll = false → P .enable_irq) (h : steps P s x) :
    steps P s (if x.use_poll = true then
        (r, hw_void x (.schedule_delayed_work .accel_poll_work x.accel_poll_ms))
      else (r, hw_void x .enable_irq)).2 := by
  have hu : x.use_poll = s.use_poll := h.2.2.2.1
  apply steps_ite2_cond
  · intro hc
    exact steps_hw_void _ h (by rw [h.2.2.1]; exact hs (by rw [← hu]; exact hc))
  · intro hc
    exact steps_hw_void _ h (hi (by rw [← hu]; simpa using hc))

theorem mode_steps_gyro_set_enable {P : Op → Prop} {s x : mpu6050_sensor} (K : Hdr) (env : Env)
    (b : Bool) (hb : ∀ op, bus_op op = true → P op)
    (hs : s.use_poll = true → P (.schedule_delayed_work .gyro_poll_work s.gyro_poll_ms))
    (hi : s.use_poll = false → P .enable_irq)
    (hc : ∀ w, P (.cancel_delayed_work_sync w)) (hd : P .disable_irq) (h : steps P s x) :
    steps P s (mpu6050_gyro_set_enable K env x b).2 := by
  have hp := bus_steps_set_enable_prep K env hb h
  have hg : ∀ {y : mpu6050_sensor} (b : Bool), steps P s y →
      steps P s (mpu6050_gyro_enable K env y b).2 := fun b hy =>
    pm_steps_gyro_enable K env b (fun _ ho => hb _ (pm_op_bus ho)) hy
  unfold mpu6050_gyro_set_enable
  apply steps_ite2
  · apply steps_ite2
    · exact hp
    apply steps_ite2
    · exact hg _ hp
    · exact steps_arm_gyro _ hs hi (hg _ hp)
  · apply steps_ite2
    · exact hg _ h
    apply steps_ite2
    · exact steps_hw_void _ (hg _ h) (hc _)
    · exact steps_hw_void _ (hg _ h) hd

theorem mode_steps_accel_set_enable {P : Op → Prop} {s x : mpu6050_sensor} (K : Hdr) (env : Env)
    (b : Bool) (hb : ∀ op, bus_op op = true → P op)
    (hs : s.use_poll = true → P (.schedule_delayed_work .accel_poll_work s.accel_poll_ms))
    (hi : s.use_poll = false → P .enable_irq)
    (hc : ∀ w, P (.cancel_delayed_work_sync w)) (hd : P .disable_irq) (h : steps P s x) :
    steps P s (mpu6050_accel_set_enable K env x b).2 := by
  have hp := bus_steps_set_enable_prep K env hb h
  have hg : ∀ {y : mpu6050_sensor} (b : Bool), steps P s y →
      steps P s (mpu6050_accel_enable K env y b).2 := fun b hy =>
    pm_steps_accel_enable K env b (fun _ ho => hb _ (pm_op_bus ho)) hy
  have h0 : steps P s (if x.use_poll then hw_void x (.cancel_delayed_work_sync .accel_poll_work)
      else hw_void x .disable_irq) :=
    steps_ite (steps_hw_void _ h (hc _)) (steps_hw_void _ h hd)
  unfold mpu6050_accel_set_enable
  apply steps_ite2
  · apply steps_ite2
    · exact hp
    apply steps_ite2
    · exact hg _ hp
    · exact steps_arm_accel _ hs hi (hg _ hp)
  · apply steps_ite2
    · exact hg _ h0
    · exact hg _ h0

theorem steps_resched_gyro {P : Op → Prop} {s x : mpu6050_sensor} (c : Prop) [Decidable c]
    (hs : s.use_poll = true → P (.schedule_delayed_work .gyro_poll_work s.gyro_poll_ms))
    (h : steps P s x) :
    steps P s (if c ∧ x.use_poll = true then
        hw_void x (.schedule_delayed_work .gyro_poll_work x.gyro_poll_ms)
      else x) := by
  have hu : x.use_poll = s.use_poll := h.2.2.2.1
  apply steps_ite_cond
  · intro hc
    exact steps_hw_void _ h (by rw [h.2.1]; exact hs (by rw [← hu]; exact hc.2))
  · intro _
    exact h

theorem steps_resched_accel {P : Op → Prop} {s x : mpu6050_sensor} (c : Prop) [Decidable c]
    (hs : s.use_poll = true → P (.schedule_delayed_work .accel_poll_work s.accel_poll_ms))
    (h : steps P s x) :
    steps P s (if c ∧ x.use_poll = true then
        hw_void x (.schedule_delayed_work .accel_poll_work x.accel_poll_ms)
      else x) := by
  have hu : x.use_poll = s.use_poll := h.2.2.2.1
  apply steps_ite_cond
  · intro hc
    exact steps_hw_void _ h (by rw [h.2.2.1]; exact hs (by rw [← hu]; exact hc.2))
  · intro _
    exact h

theorem mode_steps_delay_resume_work_fn {P : Op → Prop} {s x : mpu6050_sensor} (K : Hdr)
    (env : Env) (hb : ∀ op, bus_op op = true → P op)
    (hg : s.use_poll = true → P (.schedule_delayed_work .gyro_poll_work s.gyro_poll_ms))
    (ha : s.use_poll = true → P (.schedule_delayed_work .accel_poll_work s.accel_poll_ms))
    (h : steps P s x) :
    steps P s (mpu6050_delay_resume_work_fn K env x) := by
  have hre : ∀ {y : mpu6050_sensor}, steps P s y →
      steps P s (mpu6050_restore_context K env y).2 := fun hy =>
    restore_steps_context K env (fun _ ho => hb _ (restore_op_bus ho)) hy
  have hpm : ∀ {y : mpu6050_sensor} (b : Bool), steps P s y →
      steps P s (mpu6050_set_power_mode K env y b).2 := fun b hy =>
    pm_steps_set_power_mode K env b (fun _ ho => hb _ (pm_op_bus ho)) hy
  have h1 := hre h
  have h2 : steps P s (if (mpu6050_restore_context K env x).2.cfg.enable ≠ 0 then
        (mpu6050_set_power_mode K env (mpu6050_restore_context K env
          (mpu6050_restore_context K env x).2).2 true).2
      else (mpu6050_set_power_mode K env (mpu6050_restore_context K env x).2 false).2) :=
    steps_ite (hpm _ (hre h1)) (hpm _ h1)
  have h3 : steps P s (if (if (mpu6050_restore_context K env x).2.cfg.enable ≠ 0 then
        (mpu6050_set_power_mode K env (mpu6050_restore_context K env
          (mpu6050_restore_context K env x).2).2 true).2
      else (mpu6050_set_power_mode K env (mpu6050_restore_context K env x).2
        false).2).cfg.gyro_enable ≠ 0 then mpu6050_gyro_enable K env _ true else (0, _)).2 :=
    steps_ite2 (pm_steps_gyro_enable K env _ (fun _ ho => hb _ (pm_op_bus ho)) h2) h2
  have hacc : ∀ {y : mpu6050_sensor}, steps P s y →
      steps P s (if y.cfg.accel_enable ≠ 0 then mpu6050_accel_enable K env y true
        else (0, y)).2 := fun hy =>
    steps_ite2 (pm_steps_accel_enable K env _ (fun _ ho => hb _ (pm_op_bus ho)) hy) hy
  unfold mpu6050_delay_resume_work_fn
  apply steps_ite
  · exact h1
  apply steps_ite
  · exact hre h1
  apply steps_ite
  · exact h3
  apply steps_ite
  · apply hacc
    apply steps_resched_gyro _ hg
    exact h3
  apply steps_resched_accel _ ha
  apply hacc
  apply steps_resched_gyro _ hg
  exact h3

/-! ### Suspend and resume (C21) -/

theorem suspend_eq (K : Hdr) (env : Env) (s : mpu6050_sensor) :
    mpu6050_suspend K env s =
      mpu6050_power_ctl env (mpu6050_set_power_mode K env
        (if (!s.use_poll) = true then hw_void s .disable_irq
         else if (if s.cfg.gyro_enable ≠ 0 then
              hw_void s (.cancel_delayed_work_sync .gyro_poll_work) else s).cfg.accel_enable ≠ 0
           then hw_void (if s.cfg.gyro_enable ≠ 0 then
              hw_void s (.cancel_delayed_work_sync .gyro_poll_work) else s)
              (.cancel_delayed_work_sync .accel_poll_work)
           else (if s.cfg.gyro_enable ≠ 0 then
              hw_void s (.cancel_delayed_work_sync .gyro_poll_work) else s)) false).2 false := rfl

theorem mode_steps_suspend {P : Op → Prop} {s x : mpu6050_sensor} (K : Hdr) (env : Env)
    (hb : ∀ op, bus_op op = true → P op) (hc : ∀ w, P (.cancel_delayed_work_sync w))
    (hd : P .disable_irq) (h : steps P s x) :
    steps P s (mpu6050_suspend K env x).2 := by
  rw [suspend_eq]
  apply rail_steps_power_ctl env _ (fun _ ho => hb _ (rail_op_bus ho))
  apply pm_steps_set_power_mode K env _ (fun _ ho => hb _ (pm_op_bus ho))
  apply steps_ite
  · exact steps_hw_void _ h hd
  apply steps_ite
  · exact steps_hw_void _ (steps_ite (steps_hw_void _ h (hc _)) h) (hc _)
  · exact steps_ite (steps_hw_void _ h (hc _)) h

theorem mode_steps_resume {P : Op → Prop} {s x : mpu6050_sensor} (env : Env)
    (hb : ∀ op, bus_op op = true → P op)
    (hr : P (.schedule_delayed_work .delay_resume_work 100)) (h : steps P s x) :
    steps P s (mpu6050_resume env x).2 := by
  have he : ∀ {y : mpu6050_sensor} (r : Rail), steps P s y →
      steps P s (regulator_enable env y r).2 := fun r hy => steps_hw env _ hy (hb _ rfl)
  have hd : ∀ {y : mpu6050_sensor} (r : Rail), steps P s y →
      steps P s (regulator_disable env y r).2 := fun r hy => steps_hw env _ hy (hb _ rfl)
  unfold mpu6050_resume
  apply steps_ite2
  · apply steps_pair
    apply steps_power
    refine steps_hw_void _ ?_ hr
    apply steps_ite
    · refine steps_hw_void _ ?_ (hb (.gpio_set_value 1) rfl)
      apply steps_ite
      · exact hd _ (hd _ (he _ (steps_ite (hd _ (he _ (he _ h))) (he _ (he _ h)))))
      · exact he _ (steps_ite (hd _ (he _ (he _ h))) (he _ (he _ h)))
    · apply steps_ite
      · exact hd _ (hd _ (he _ (steps_ite (hd _ (he _ (he _ h))) (he _ (he _ h)))))
      · exact he _ (steps_ite (hd _ (he _ (he _ h))) (he _ (he _ h)))
  · exact h

theorem suspend_irq_first (K : Hdr) (env : Env) (s : mpu6050_sensor) (hs : s.use_poll = false) :
    steps (fun op => op ≠ .enable_irq) (hw_void s .disable_irq) (mpu6050_suspend K env s).2 := by
  rw [suspend_eq]
  simp only [hs, Bool.not_false, if_true]
  apply rail_steps_power_ctl env _ (fun op ho => by cases op <;> simp_all [rail_op])
  apply pm_steps_set_power_mode K env _ (fun op ho => by cases op <;> simp_all [pm_op])
  exact steps_refl _ _

/-- C21: in interrupt mode, `mpu6050_suspend` starts with `disable_irq`, and
neither it nor `mpu6050_resume` nor the run of
`mpu6050_delay_resume_work_fn` performs `enable_irq`, on any device and from
any state: the interrupt stays disabled after the round trip.  From the state
with both engines enabled and every operation succeeding, the round trip in
interrupt mode keeps both engine flags at 1 and re-arms nothing, while in
polled mode it ends with both timers scheduled with the cached 200 ms. -/
theorem resume_never_enables_irq :
    (∀ (K : Hdr) (env : Env) (s : mpu6050_sensor), s.use_poll = false →
      (new_events s (mpu6050_delay_resume_work_fn K env
        (mpu6050_resume env (mpu6050_suspend K env s).2).2)).head? = some ⟨.disable_irq, 0⟩ ∧
      ∀ e ∈ new_events s (mpu6050_delay_resume_work_fn K env
        (mpu6050_resume env (mpu6050_suspend K env s).2).2), e.op ≠ .enable_irq) ∧
    ((mpu6050_delay_resume_work_fn mpu6050_h env_ok
        (mpu6050_resume env_ok (mpu6050_suspend mpu6050_h env_ok
          (run_actions mpu6050_h env_ok sensor0_int
            [.gyro_set_enable true, .accel_set_enable true])).2).2).cfg.gyro_enable = 1 ∧
     (mpu6050_delay_resume_work_fn mpu6050_h env_ok
        (mpu6050_resume env_ok (mpu6050_suspend mpu6050_h env_ok
          (run_actions mpu6050_h env_ok sensor0_int
            [.gyro_set_enable true, .accel_set_enable true])).2).2).cfg.accel_enable = 1 ∧
     (new_events (run_actions mpu6050_h env_ok sensor0_int
          [.gyro_set_enable true, .accel_set_enable true])
        (mpu6050_delay_resume_work_fn mpu6050_h env_ok
          (mpu6050_resume env_ok (mpu6050_suspend mpu6050_h env_ok
            (run_actions mpu6050_h env_ok sensor0_int
              [.gyro_set_enable true, .accel_set_enable true])).2).2)).filter
        (fun e => arm_op e.op || decide (e.op = .disable_irq)) = [⟨.disable_irq, 0⟩]) ∧
    (new_events (run_actions mpu6050_h env_ok sensor0
        [.gyro_set_enable true, .accel_set_enable true])
      (mpu6050_delay_resume_work_fn mpu6050_h env_ok
        (mpu6050_resume env_ok (mpu6050_suspend mpu6050_h env_ok
          (run_actions mpu6050_h env_ok sensor0
            [.gyro_set_enable true, .accel_set_enable true])).2).2)).filter
      (fun e => arm_op e.op) =
        [⟨.schedule_delayed_work .gyro_poll_work 200, 0⟩,
         ⟨.schedule_delayed_work .accel_poll_work 200, 0⟩] := by
  refine ⟨?_, by decide, by decide⟩
  intro K env s hs
  have hne : ∀ op, bus_op op = true → op ≠ .enable_irq := by
    intro op ho
    cases op <;> simp_all [bus_op]
  have h1 := suspend_irq_first K env s hs
  have h2 := mode_steps_resume env hne (by simp) h1
  have hu : (hw_void s .disable_irq).use_poll = true → False := by
    intro h
    simp [hw_void, hs] at h
  have h3 := mode_steps_delay_resume_work_fn K env hne (fun h => (hu h).elim)
    (fun h => (hu h).elim) h2
  obtain ⟨hl, hp⟩ := steps_new_events h3
  have hn : new_events s (mpu6050_delay_resume_work_fn K env
      (mpu6050_resume env (mpu6050_suspend K env s).2).2) =
      ⟨.disable_irq, 0⟩ :: new_events (hw_void s .disable_irq)
        (mpu6050_delay_resume_work_fn K env
          (mpu6050_resume env (mpu6050_suspend K env s).2).2) := by
    conv_lhs => unfold new_events; rw [hl]
    simp [hw_void]
  rw [hn]
  refine ⟨rfl, ?_⟩
  intro e he
  rcases List.mem_cons.mp he with rfl | h
  · simp
  · exact hp e h

/-- Witness for C21: the sensor `sensor0_int` in interrupt mode, every
operation succeeding. -/
theorem resume_never_enables_irq_witness :
    sensor0_int.use_poll = false ∧
    ∀ e ∈ new_events sensor0_int (mpu6050_delay_resume_work_fn mpu6050_h env_ok
      (mpu6050_resume env_ok (mpu6050_suspend mpu6050_h env_ok sensor0_int).2).2),
      e.op ≠ .enable_irq :=
  ⟨rfl, (resume_never_enables_irq.1 mpu6050_h env_ok sensor0_int rfl).2⟩

/-! ### The poll-interval attribute (C22) -/

/-- C22: `mpu6050_accel_set_poll_delay` returns 0 for every device, state
and request, so the store method of the attribute returns the length of the
text whenever the text is a number.  When the write of the sample-rate
divider fails with -5, the call returns 0, the method returns the length (3
for the text "500") and the cached interval is still 200. -/
theorem accel_poll_delay_failure_swallowed :
    (∀ (K : Hdr) (env : Env) (s : mpu6050_sensor) (d size : Nat),
      (mpu6050_accel_set_poll_delay K env s d).1 = 0 ∧
      (mpu6050_accel_attr_set_polling_delay K env s (some d) size).1 = size) ∧
    (mpu6050_accel_set_poll_delay mpu6050_h (env_fail (.wr .sample_rate_div 4)) sensor0
      500).2.log =
        [⟨.wr .sample_rate_div 4, -5⟩, ⟨.cancel_delayed_work_sync .accel_poll_work, 0⟩,
         ⟨.schedule_delayed_work .accel_poll_work 200, 0⟩] ∧
    (mpu6050_accel_set_poll_delay mpu6050_h (env_fail (.wr .sample_rate_div 4)) sensor0
      500).1 = 0 ∧
    (mpu6050_accel_attr_set_polling_delay mpu6050_h (env_fail (.wr .sample_rate_div 4)) sensor0
      (some 500) 3).1 = 3 ∧
    (mpu6050_accel_attr_set_polling_delay mpu6050_h (env_fail (.wr .sample_rate_div 4)) sensor0
      (some 500) 3).2.accel_poll_ms = 200 := by
  refine ⟨fun K env s d size => ?_, by decide, by decide, by decide, by decide⟩
  have h : (mpu6050_accel_set_poll_delay K env s d).1 = 0 := by
    unfold mpu6050_accel_set_poll_delay
    simp only []
    split_ifs <;> rfl
  exact ⟨h, by simp [mpu6050_accel_attr_set_polling_delay, h]⟩

/-! ### Range of the reported values (C23) -/

theorem read_accel_remap_range (env : Env) (s : mpu6050_sensor) (place : Int) :
    (-32768 ≤ (mpu6050_remap_accel_data (mpu6050_read_accel_data env s).axis place).x ∧
      (mpu6050_remap_accel_data (mpu6050_read_accel_data env s).axis place).x ≤ 32767) ∧
    (-32768 ≤ (mpu6050_remap_accel_data (mpu6050_read_accel_data env s).axis place).y ∧
      (mpu6050_remap_accel_data (mpu6050_read_accel_data env s).axis place).y ≤ 32767) ∧
    (-32768 ≤ (mpu6050_remap_accel_data (mpu6050_read_accel_data env s).axis place).z ∧
      (mpu6050_remap_accel_data (mpu6050_read_accel_data env s).axis place).z ≤ 32767) := by
  unfold mpu6050_remap_accel_data
  split_ifs
  · exact ⟨be16_range _ _, be16_range _ _, be16_range _ _⟩
  · exact ⟨s16_range _, s16_range _, s16_range _⟩

theorem read_gyro_remap_range (env : Env) (s : mpu6050_sensor) (place : Int) :
    (-32768 ≤ (mpu6050_remap_gyro_data (mpu6050_read_gyro_data env s).axis place).ry ∧
      (mpu6050_remap_gyro_data (mpu6050_read_gyro_data env s).axis place).ry ≤ 32767) ∧
    (-32768 ≤ (mpu6050_remap_gyro_data (mpu6050_read_gyro_data env s).axis place).rz ∧
      (mpu6050_remap_gyro_data (mpu6050_read_gyro_data env s).axis place).rz ≤ 32767) := by
  unfold mpu6050_remap_gyro_data
  split_ifs
  · exact ⟨be16_range _ _, be16_range _ _⟩
  · exact ⟨s16_range _, s16_range _⟩

theorem polled_reports (env : Env) (s : mpu6050_sensor) :
    reported .accel_dev .ABS_X (new_events s (mpu6050_accel_work_fn env s)) =
      [((mpu6050_remap_accel_data (mpu6050_read_accel_data env s).axis s.place).x
          + s.axis.off_x) / 4] ∧
    reported .accel_dev .ABS_Y (new_events s (mpu6050_accel_work_fn env s)) =
      [((mpu6050_remap_accel_data (mpu6050_read_accel_data env s).axis s.place).y
          + s.axis.off_y) / 4] ∧
    reported .accel_dev .ABS_Z (new_events s (mpu6050_accel_work_fn env s)) =
      [((mpu6050_remap_accel_data (mpu6050_read_accel_data env s).axis s.place).z
          + s.axis.off_z) / 4] ∧
    reported .gyro_dev .ABS_RX (new_events s (mpu6050_gyro_work_fn env s)) =
      [s16 (-((mpu6050_remap_gyro_data (mpu6050_read_gyro_data env s).axis s.place).rx
          + s.axis.off_rx)) + s.axis.off_rx] ∧
    reported .gyro_dev .ABS_RY (new_events s (mpu6050_gyro_work_fn env s)) =
      [(mpu6050_remap_gyro_data (mpu6050_read_gyro_data env s).axis s.place).ry
          + s.axis.off_ry] ∧
    reported .gyro_dev .ABS_RZ (new_events s (mpu6050_gyro_work_fn env s)) =
      [(mpu6050_remap_gyro_data (mpu6050_read_gyro_data env s).axis s.place).rz
          + s.axis.off_rz] := by
  refine ⟨?_, ?_, ?_, ?_, ?_, ?_⟩ <;>
    cases hp : s.use_poll <;>
    simp [mpu6050_accel_work_fn, mpu6050_gyro_work_fn, mpu6050_read_accel_data,
      mpu6050_read_gyro_data, hw, hw_void, new_events, reported, hp, shiftRight_two,
      shiftRight_zero, MPU6050_ACCEL_SCALE_SHIFT_8G, MPU6050_GYRO_SCALE_SHIFT_FS0,
      remap_accel_off_x, remap_accel_off_y, remap_accel_off_z, remap_gyro_off_rx,
      remap_gyro_off_ry, remap_gyro_off_rz]

/-- C23: with offsets that fit their 16-bit fields, every value reported by
the polled accelerometer callback lies within [-16384, 16383], inside the
declared range, and every value reported by the polled gyroscope callback lies
within [-65536, 65534], which is wider than the declared range
[MPU6050_GYRO_MIN_VALUE, MPU6050_GYRO_MAX_VALUE] = [-32768, 32767]: the sum of
sample and offset is reported as it is.  With the raw word ry = 32767 and
off_ry = 1 the callback reports 32768 for RY. -/
theorem gyro_report_exceeds_range (env : Env) (s : mpu6050_sensor)
    (ho : offsets_s16 s.axis) :
    (∀ a : Abs, ∀ v ∈ reported .accel_dev a (new_events s (mpu6050_accel_work_fn env s)),
      -16384 ≤ v ∧ v ≤ 16383) ∧
    (∀ a : Abs, ∀ v ∈ reported .gyro_dev a (new_events s (mpu6050_gyro_work_fn env s)),
      -65536 ≤ v ∧ v ≤ 65534) ∧
    reported .gyro_dev .ABS_RY
      (new_events { sensor0 with axis := { sensor0.axis with off_ry := 1 } }
        (mpu6050_gyro_work_fn (env_raw [0, 0, 127, 255, 0, 0])
          { sensor0 with axis := { sensor0.axis with off_ry := 1 } })) = [32768] ∧
    MPU6050_GYRO_MAX_VALUE = 32767 := by
  obtain ⟨hx, hy, hz, hrx, hry, hrz⟩ := polled_reports env s
  obtain ⟨ax, ay, az⟩ := read_accel_remap_range env s s.place
  obtain ⟨gy, gz⟩ := read_gyro_remap_range env s s.place
  obtain ⟨ox, oy, oz, orx, ory, orz⟩ := ho
  have srx := s16_range (-((mpu6050_remap_gyro_data (mpu6050_read_gyro_data env s).axis
    s.place).rx + s.axis.off_rx))
  have hA : ∀ a : Abs, reported .accel_dev a (new_events s (mpu6050_accel_work_fn env s)) ≠ [] →
      a = .ABS_X ∨ a = .ABS_Y ∨ a = .ABS_Z := by
    intro a
    cases a <;> cases hp : s.use_poll <;>
      simp [mpu6050_accel_work_fn, mpu6050_read_accel_data, hw, hw_void, new_events, reported,
        hp]
  have hG : ∀ a : Abs, reported .gyro_dev a (new_events s (mpu6050_gyro_work_fn env s)) ≠ [] →
      a = .ABS_RX ∨ a = .ABS_RY ∨ a = .ABS_RZ := by
    intro a
    cases a <;> cases hp : s.use_poll <;>
      simp [mpu6050_gyro_work_fn, mpu6050_read_gyro_data, hw, hw_void, new_events, reported,
        hp]
  refine ⟨?_, ?_, by decide, rfl⟩
  · intro a v hv
    rcases hA a (List.ne_nil_of_mem hv) with rfl | rfl | rfl
    · rw [hx, List.mem_singleton] at hv
      omega
    · rw [hy, List.mem_singleton] at hv
      omega
    · rw [hz, List.mem_singleton] at hv
      omega
  · intro a v hv
    rcases hG a (List.ne_nil_of_mem hv) with rfl | rfl | rfl
    · rw [hrx, List.mem_singleton] at hv
      omega
    · rw [hry, List.mem_singleton] at hv
      omega
    · rw [hrz, List.mem_singleton] at hv
      omega

/-- Witness for C23: the sensor `sensor0`, whose offsets are 0. -/
theorem gyro_report_exceeds_range_witness :
    offsets_s16 sensor0.axis ∧
    ∀ a : Abs, ∀ v ∈ reported .accel_dev a
      (new_events sensor0 (mpu6050_accel_work_fn env_ok sensor0)), -16384 ≤ v ∧ v ≤ 16383 :=
  ⟨by decide, (gyro_report_exceeds_range env_ok sensor0 (by decide)).1⟩

/-! ### Enabling the accelerometer from the powered-down state (C24) -/

theorem power_ctl_on_ok (env : Env) (s : mpu6050_sensor)
    (hreg : ∀ log r, env.ret log (.regulator_enable r) = 0) (hp : s.power_enabled = false) :
    mpu6050_power_ctl env s true =
      (0, { s with power_enabled := true, log := s.log ++
        ([⟨.regulator_enable .vdd, 0⟩, ⟨.regulator_enable .vlogic, 0⟩,
          ⟨.regulator_enable .vi2c, 0⟩] ++
         (if s.enable_gpio_valid then [⟨.gpio_set_value 1, 0⟩] else [])) }) := by
  cases hg : s.enable_gpio_valid <;>
    simp [mpu6050_power_ctl, regulator_enable, hw, hw_void, hp, hg, hreg]

theorem restore_context_ok (K : Hdr) (env : Env) (s : mpu6050_sensor) (hok : bus_ok env) :
    0 ≤ (mpu6050_restore_context K env s).1 ∧ (mpu6050_restore_context K env s).2.cfg = s.cfg := by
  have hrd : ∀ log r, ¬ env.ret log (.rd r) < 0 := fun log r => not_lt.mpr (hok.1 log r)
  have hwr : ∀ log r v, ¬ env.ret log (.wr r v) < 0 := fun log r v => not_lt.mpr (hok.2 log r v)
  have hwr2 : ∀ log r v, 0 ≤ env.ret log (.wr r v) := hok.2
  by_cases ha : s.cfg.accel_fifo_enable = 0 <;> by_cases hg : s.cfg.gyro_fifo_enable = 0 <;>
    cases hc : s.chip_type <;>
    simp [mpu6050_restore_context, mpu6050_set_lpa_freq, i2c_smbus_read_byte_data,
      i2c_smbus_write_byte_data, hw, hrd, hwr, hwr2, ha, hg, hc]
  all_goals
    rcases s with ⟨_, cfg, _, _, _, _, _, _, _, _⟩
    cases cfg
    simp_all

theorem accel_enable_ok (K : Hdr) (env : Env) (s : mpu6050_sensor) (hok : bus_ok env)
    (hs : s.cfg.is_asleep = 0) :
    (mpu6050_accel_enable K env s true).1 = 0 ∧
    (mpu6050_accel_enable K env s true).2.cfg.accel_enable = 1 ∧
    (mpu6050_accel_enable K env s true).2.cfg.enable = 1 := by
  have hrd : ∀ log r, ¬ env.ret log (.rd r) < 0 := fun log r => not_lt.mpr (hok.1 log r)
  have hwr : ∀ log r v, ¬ env.ret log (.wr r v) < 0 := fun log r v => not_lt.mpr (hok.2 log r v)
  by_cases hg : K.BIT_PWR_GYRO_STBY_MASK = K.BIT_PWR_ACCEL_STBY_MASK <;>
    simp [mpu6050_accel_enable, mpu6050_switch_engine, i2c_smbus_read_byte_data,
      i2c_smbus_write_byte_data, hw, hs, hrd, hwr, hg]

theorem accel_set_enable_on_eq (K : Hdr) (env : Env) (s : mpu6050_sensor) (hok : all_ok env)
    (he : s.cfg.enable = 0) (hp : s.power_enabled = false) (ha : s.cfg.is_asleep = 0) :
    (mpu6050_power_ctl env s true).1 = 0 ∧
    0 ≤ (mpu6050_restore_context K env (mpu6050_power_ctl env s true).2).1 ∧
    (mpu6050_accel_enable K env
      (mpu6050_restore_context K env (mpu6050_power_ctl env s true).2).2 true).1 = 0 ∧
    (mpu6050_accel_enable K env
      (mpu6050_restore_context K env (mpu6050_power_ctl env s true).2).2
        true).2.cfg.accel_enable = 1 ∧
    mpu6050_accel_set_enable K env s true =
      (0, hw_void (mpu6050_accel_enable K env
          (mpu6050_restore_context K env (mpu6050_power_ctl env s true).2).2 true).2
        (if s.use_poll then .schedule_delayed_work .accel_poll_work s.accel_poll_ms
         else .enable_irq)) := by
  have hP := power_ctl_on_ok env s hok.2.1 hp
  have hP1 : (mpu6050_power_ctl env s true).1 = 0 := by rw [hP]
  have hPc : (mpu6050_power_ctl env s true).2.cfg = s.cfg := by rw [hP]
  obtain ⟨hR1, hRc⟩ := restore_context_ok K env (mpu6050_power_ctl env s true).2 hok.1
  have hRa : (mpu6050_restore_context K env (mpu6050_power_ctl env s true).2).2.cfg.is_asleep
      = 0 := by rw [hRc, hPc, ha]
  obtain ⟨hA1, hA2, -⟩ := accel_enable_ok K env
    (mpu6050_restore_context K env (mpu6050_power_ctl env s true).2).2 hok.1 hRa
  have hst : steps (fun _ => True) s (mpu6050_accel_enable K env
      (mpu6050_restore_context K env (mpu6050_power_ctl env s true).2).2 true).2 :=
    pm_steps_accel_enable K env true (fun _ _ => trivial)
      (restore_steps_context K env (fun _ _ => trivial)
        (rail_steps_power_ctl env true (fun _ _ => trivial) (steps_refl _ s)))
  refine ⟨hP1, hR1, hA1, hA2, ?_⟩
  unfold mpu6050_accel_set_enable
  simp only [if_true, he, hP1, lt_self_iff_false, if_false, not_lt.mpr hR1, hA1, ne_eq,
    not_true_eq_false, hst.2.2.2.1, hst.2.2.1]
  cases s.use_poll <;> rfl

theorem accel_set_enable_when_enabled (K : Hdr) (env : Env) (s : mpu6050_sensor)
    (he : s.cfg.enable ≠ 0) :
    ∀ e ∈ new_events s (mpu6050_accel_set_enable K env s true).2,
      pm_op e.op = true ∨ arm_op e.op = true := by
  have hA : steps (fun op => pm_op op = true ∨ arm_op op = true) s
      (mpu6050_accel_enable K env s true).2 :=
    pm_steps_accel_enable K env true (fun _ h => Or.inl h) (steps_refl _ s)
  have h : steps (fun op => pm_op op = true ∨ arm_op op = true) s
      (mpu6050_accel_set_enable K env s true).2 := by
    unfold mpu6050_accel_set_enable
    simp only [if_true, he, if_false]
    apply steps_ite2
    · exact steps_refl _ _
    apply steps_ite2
    · exact hA
    apply steps_ite2
    · refine steps_hw_void _ hA ?_
      exact Or.inr rfl
    · refine steps_hw_void _ hA ?_
      exact Or.inr rfl
  exact (steps_new_events h).2

/-- The operations of a restore on a device whose bus accesses all succeed,
from a state without FIFO use: the three configuration writes, the read of
the FIFO-enable register, on the MPU6050 the read-modify-write of power-mgmt-2
that sets the 5 Hz wake code, and the write of the sample-rate divider. -/
theorem restore_context_trace (K : Hdr) (env : Env) (x : mpu6050_sensor) (hok : bus_ok env)
    (haf : x.cfg.accel_fifo_enable = 0) (hgf : x.cfg.gyro_fifo_enable = 0) :
    ∃ r1 r2 r3 f y w5 w6 : Int, 0 ≤ r1 ∧ 0 ≤ r2 ∧ 0 ≤ r3 ∧ 0 ≤ f ∧ 0 ≤ y ∧ 0 ≤ w5 ∧ 0 ≤ w6 ∧
      new_events x (mpu6050_restore_context K env x).2 =
        [⟨.wr .gyro_config ((x.cfg.fsr <<< K.GYRO_CONFIG_FSR_SHIFT) % 256), r1⟩,
         ⟨.wr .lpf (x.cfg.lpf % 256), r2⟩,
         ⟨.wr .accel_config ((K.ACCEL_FS_08G <<< K.ACCL_CONFIG_FSR_SHIFT) % 256), r3⟩,
         ⟨.rd .fifo_en, f⟩] ++
        (if x.chip_type = .INV_MPU6050 then
          [⟨.rd .pwr_mgmt_2, y⟩,
           ⟨.wr .pwr_mgmt_2
             (set_bits (clear_bits (u8 y) K.BIT_LPA_FREQ_MASK) K.MPU6050_LPA_5HZ % 256), w5⟩]
         else []) ++
        [⟨.wr .sample_rate_div (sample_rate_divider K % 256), w6⟩] ∧
      (mpu6050_restore_context K env x).2.power_enabled = x.power_enabled := by
  have hrd : ∀ log r, ¬ env.ret log (.rd r) < 0 := fun log r => not_lt.mpr (hok.1 log r)
  have hwr : ∀ log r v, ¬ env.ret log (.wr r v) < 0 := fun log r v => not_lt.mpr (hok.2 log r v)
  let e1 : Ev := ⟨.wr .gyro_config ((x.cfg.fsr <<< K.GYRO_CONFIG_FSR_SHIFT) % 256),
    env.ret x.log (.wr .gyro_config ((x.cfg.fsr <<< K.GYRO_CONFIG_FSR_SHIFT) % 256))⟩
  let e2 : Ev := ⟨.wr .lpf (x.cfg.lpf % 256), env.ret (x.log ++ [e1]) (.wr .lpf (x.cfg.lpf % 256))⟩
  let e3 : Ev := ⟨.wr .accel_config ((K.ACCEL_FS_08G <<< K.ACCL_CONFIG_FSR_SHIFT) % 256),
    env.ret (x.log ++ [e1, e2])
      (.wr .accel_config ((K.ACCEL_FS_08G <<< K.ACCL_CONFIG_FSR_SHIFT) % 256))⟩
  let e4 : Ev := ⟨.rd .fifo_en, env.ret (x.log ++ [e1, e2, e3]) (.rd .fifo_en)⟩
  let e5 : Ev := ⟨.rd .pwr_mgmt_2, env.ret (x.log ++ [e1, e2, e3, e4]) (.rd .pwr_mgmt_2)⟩
  let e6 : Ev := ⟨.wr .pwr_mgmt_2
      (set_bits (clear_bits (u8 e5.ret) K.BIT_LPA_FREQ_MASK) K.MPU6050_LPA_5HZ % 256),
    env.ret (x.log ++ [e1, e2, e3, e4, e5]) (.wr .pwr_mgmt_2
      (set_bits (clear_bits (u8 e5.ret) K.BIT_LPA_FREQ_MASK) K.MPU6050_LPA_5HZ % 256))⟩
  cases hc : x.chip_type
  · refine ⟨e1.ret, e2.ret, e3.ret, e4.ret, e5.ret, e6.ret,
      env.ret (x.log ++ [e1, e2, e3, e4, e5, e6])
        (.wr .sample_rate_div (sample_rate_divider K % 256)),
      hok.2 _ _ _, hok.2 _ _ _, hok.2 _ _ _, hok.1 _ _, hok.1 _ _, hok.2 _ _ _, hok.2 _ _ _, ?_, ?_⟩
    · simp [mpu6050_restore_context, mpu6050_set_lpa_freq, i2c_smbus_read_byte_data,
        i2c_smbus_write_byte_data, hw, hrd, hwr, haf, hgf, hc, new_events, e1, e2, e3, e4, e5, e6]
    · simp [mpu6050_restore_context, mpu6050_set_lpa_freq, i2c_smbus_read_byte_data,
        i2c_smbus_write_byte_data, hw, hrd, hwr, haf, hgf, hc]
  · refine ⟨e1.ret, e2.ret, e3.ret, e4.ret, 0, 0,
      env.ret (x.log ++ [e1, e2, e3, e4])
        (.wr .sample_rate_div (sample_rate_divider K % 256)),
      hok.2 _ _ _, hok.2 _ _ _, hok.2 _ _ _, hok.1 _ _, le_refl _, le_refl _, hok.2 _ _ _, ?_, ?_⟩
    · simp [mpu6050_restore_context, mpu6050_set_lpa_freq, i2c_smbus_read_byte_data,
        i2c_smbus_write_byte_data, hw, hrd, hwr, haf, hgf, hc, new_events, e1, e2, e3, e4]
    · simp [mpu6050_restore_context, mpu6050_set_lpa_freq, i2c_smbus_read_byte_data,
        i2c_smbus_write_byte_data, hw, hrd, hwr, haf, hgf, hc]

/-- The operations of `mpu6050_accel_enable(sensor, true)` on a device whose
bus accesses all succeed: power-mgmt-1 is read, power-mgmt-2 is read and
written back with the accelerometer standby bits cleared, and power-mgmt-1 is
written with the value read at the start and the sleep bit cleared. -/
theorem accel_enable_trace (K : Hdr) (env : Env) (x : mpu6050_sensor) (hok : bus_ok env)
    (hK : K.BIT_PWR_GYRO_STBY_MASK ≠ K.BIT_PWR_ACCEL_STBY_MASK) (hs : x.cfg.is_asleep = 0) :
    ∃ p z w7 w8 : Int, 0 ≤ p ∧ 0 ≤ z ∧ 0 ≤ w7 ∧ 0 ≤ w8 ∧
      new_events x (mpu6050_accel_enable K env x true).2 =
        [⟨.rd .pwr_mgmt_1, p⟩, ⟨.rd .pwr_mgmt_2, z⟩,
         ⟨.wr .pwr_mgmt_2 (clear_bits (u8 z) K.BIT_PWR_ACCEL_STBY_MASK % 256), w7⟩,
         ⟨.wr .pwr_mgmt_1 (clear_bits (u8 p) K.BIT_SLEEP % 256), w8⟩] ∧
      (mpu6050_accel_enable K env x true).2.cfg =
        { x.cfg with accel_enable := 1, enable := 1 } ∧
      (mpu6050_accel_enable K env x true).2.power_enabled = x.power_enabled := by
  have hrd : ∀ log r, ¬ env.ret log (.rd r) < 0 := fun log r => not_lt.mpr (hok.1 log r)
  have hwr : ∀ log r v, ¬ env.ret log (.wr r v) < 0 := fun log r v => not_lt.mpr (hok.2 log r v)
  let e1 : Ev := ⟨.rd .pwr_mgmt_1, env.ret x.log (.rd .pwr_mgmt_1)⟩
  let e2 : Ev := ⟨.rd .pwr_mgmt_2, env.ret (x.log ++ [e1]) (.rd .pwr_mgmt_2)⟩
  let e3 : Ev := ⟨.wr .pwr_mgmt_2 (clear_bits (u8 e2.ret) K.BIT_PWR_ACCEL_STBY_MASK % 256),
    env.ret (x.log ++ [e1, e2])
      (.wr .pwr_mgmt_2 (clear_bits (u8 e2.ret) K.BIT_PWR_ACCEL_STBY_MASK % 256))⟩
  refine ⟨e1.ret, e2.ret, e3.ret, env.ret (x.log ++ [e1, e2, e3])
      (.wr .pwr_mgmt_1 (clear_bits (u8 e1.ret) K.BIT_SLEEP % 256)),
    hok.1 _ _, hok.1 _ _, hok.2 _ _ _, hok.2 _ _ _, ?_, ?_, ?_⟩
  · simp [mpu6050_accel_enable, mpu6050_switch_engine, i2c_smbus_read_byte_data,
      i2c_smbus_write_byte_data, hw, hs, hrd, hwr, hK, new_events, e1, e2, e3]
  · simp [mpu6050_accel_enable, mpu6050_switch_engine, i2c_smbus_read_byte_data,
      i2c_smbus_write_byte_data, hw, hs, hrd, hwr, hK]
  · simp [mpu6050_accel_enable, mpu6050_switch_engine, i2c_smbus_read_byte_data,
      i2c_smbus_write_byte_data, hw, hs, hrd, hwr, hK]

theorem accel_set_enable_enabled_trace (K : Hdr) (env : Env) (t : mpu6050_sensor)
    (hok : bus_ok env) (hK : K.BIT_PWR_GYRO_STBY_MASK ≠ K.BIT_PWR_ACCEL_STBY_MASK)
    (ht : t.cfg.enable ≠ 0) (hta : t.cfg.is_asleep = 0) :
    ∃ p z w7 w8 : Int, 0 ≤ p ∧ 0 ≤ z ∧ 0 ≤ w7 ∧ 0 ≤ w8 ∧
      new_events t (mpu6050_accel_set_enable K env t true).2 =
        [⟨.rd .pwr_mgmt_1, p⟩, ⟨.rd .pwr_mgmt_2, z⟩,
         ⟨.wr .pwr_mgmt_2 (clear_bits (u8 z) K.BIT_PWR_ACCEL_STBY_MASK % 256), w7⟩,
         ⟨.wr .pwr_mgmt_1 (clear_bits (u8 p) K.BIT_SLEEP % 256), w8⟩,
         ⟨if t.use_poll then .schedule_delayed_work .accel_poll_work t.accel_poll_ms
          else .enable_irq, 0⟩] := by
  obtain ⟨p, z, w7, w8, q8, q9, q10, q11, hAt, -, -⟩ := accel_enable_trace K env t hok hK hta
  obtain ⟨hA1, -, -⟩ := accel_enable_ok K env t hok hta
  have hst : steps (fun op => pm_op op = true) t (mpu6050_accel_enable K env t true).2 :=
    pm_steps_accel_enable K env true (fun _ h => h) (steps_refl _ t)
  obtain ⟨hAl, -⟩ := steps_new_events hst
  have heq : mpu6050_accel_set_enable K env t true =
      (0, hw_void (mpu6050_accel_enable K env t true).2
        (if t.use_poll then .schedule_delayed_work .accel_poll_work t.accel_poll_ms
         else .enable_irq)) := by
    unfold mpu6050_accel_set_enable
    simp only [if_true, ht, if_false, lt_self_iff_false, hA1, ne_eq, not_true_eq_false,
      hst.2.2.2.1, hst.2.2.1]
    cases t.use_poll <;> rfl
  refine ⟨p, z, w7, w8, q8, q9, q10, q11, ?_⟩
  rw [heq]
  conv_lhs => unfold new_events
  simp only [hw_void]
  rw [hAl, hAt]
  simp only [List.append_assoc, drop_log_append]
  simp

/-- C24: from the state left by a successful `mpu6050_init_config`
(`cfg.enable == 0`, not asleep, no FIFO use, `cfg.accel_fs = ACCEL_FS_08G`;
`cfg.fsr` and `cfg.lpf` may have any value) with the power off, on a device
where every register access succeeds and every regulator call returns 0,
`mpu6050_accel_set_enable(sensor, true)` returns 0, leaves the cached
configuration as it was apart from `accel_enable == 1` and `enable == 1`, and
leaves the power on.  Its operations are, in this order:
the operations of `mpu6050_power_ctl(sensor, true)`, which are the enables of
vdd, vlogic and vi2c and the raising of the enable line;
the operations of `mpu6050_restore_context`, which are the writes of
gyro-config with `cfg.fsr << shift`, of the filter register with `cfg.lpf` and
of accel-config with `cfg.accel_fs << shift`, the read of the FIFO-enable
register, on the MPU6050 the read of power-mgmt-2 and its write with the 5 Hz
wake code, and the write of the sample-rate divider;
the operations of `mpu6050_accel_enable(sensor, true)`, which are the reads of
power-mgmt-1 and power-mgmt-2, the write of power-mgmt-2 with the
accelerometer standby bits cleared and the write of power-mgmt-1 with the
sleep bit cleared;
and one last operation: in polled mode the scheduling of the accelerometer
timer after `accel_poll_ms`, in interrupt mode `enable_irq`.
The restore does not fail and the engine enable returns 0.
From a state with `cfg.enable != 0` every operation of the call is an access
to a power-management register or the arming: no regulator call and no
configuration write, on any device; on the device above, if the state is not
marked asleep, the operations are exactly those of
`mpu6050_accel_enable(sensor, true)` followed by the arming. -/
theorem accel_set_enable_from_off (K : Hdr) (env : Env) (s : mpu6050_sensor)
    (hok : all_ok env) (hK : K.BIT_PWR_GYRO_STBY_MASK ≠ K.BIT_PWR_ACCEL_STBY_MASK)
    (he : s.cfg.enable = 0) (hp : s.power_enabled = false) (ha : s.cfg.is_asleep = 0)
    (hfs : s.cfg.accel_fs = K.ACCEL_FS_08G)
    (haf : s.cfg.accel_fifo_enable = 0) (hgf : s.cfg.gyro_fifo_enable = 0) :
    (mpu6050_accel_set_enable K env s true).1 = 0 ∧
    (mpu6050_accel_set_enable K env s true).2.cfg =
      { s.cfg with accel_enable := 1, enable := 1 } ∧
    (mpu6050_accel_set_enable K env s true).2.power_enabled = true ∧
    new_events s (mpu6050_accel_set_enable K env s true).2 =
      new_events s (mpu6050_power_ctl env s true).2 ++
      new_events (mpu6050_power_ctl env s true).2
        (mpu6050_restore_context K env (mpu6050_power_ctl env s true).2).2 ++
      new_events (mpu6050_restore_context K env (mpu6050_power_ctl env s true).2).2
        (mpu6050_accel_enable K env
          (mpu6050_restore_context K env (mpu6050_power_ctl env s true).2).2 true).2 ++
      [⟨if s.use_poll then .schedule_delayed_work .accel_poll_work s.accel_poll_ms
        else .enable_irq, 0⟩] ∧
    new_events s (mpu6050_power_ctl env s true).2 =
      [⟨.regulator_enable .vdd, 0⟩, ⟨.regulator_enable .vlogic, 0⟩,
       ⟨.regulator_enable .vi2c, 0⟩] ++
      (if s.enable_gpio_valid then [⟨.gpio_set_value 1, 0⟩] else []) ∧
    (∃ r1 r2 r3 f y w5 w6 : Int,
      0 ≤ r1 ∧ 0 ≤ r2 ∧ 0 ≤ r3 ∧ 0 ≤ f ∧ 0 ≤ y ∧ 0 ≤ w5 ∧ 0 ≤ w6 ∧
      new_events (mpu6050_power_ctl env s true).2
          (mpu6050_restore_context K env (mpu6050_power_ctl env s true).2).2 =
        [⟨.wr .gyro_config ((s.cfg.fsr <<< K.GYRO_CONFIG_FSR_SHIFT) % 256), r1⟩,
         ⟨.wr .lpf (s.cfg.lpf % 256), r2⟩,
         ⟨.wr .accel_config ((s.cfg.accel_fs <<< K.ACCL_CONFIG_FSR_SHIFT) % 256), r3⟩,
         ⟨.rd .fifo_en, f⟩] ++
        (if s.chip_type = .INV_MPU6050 then
          [⟨.rd .pwr_mgmt_2, y⟩,
           ⟨.wr .pwr_mgmt_2
             (set_bits (clear_bits (u8 y) K.BIT_LPA_FREQ_MASK) K.MPU6050_LPA_5HZ % 256), w5⟩]
         else []) ++
        [⟨.wr .sample_rate_div (sample_rate_divider K % 256), w6⟩]) ∧
    (∃ p z w7 w8 : Int, 0 ≤ p ∧ 0 ≤ z ∧ 0 ≤ w7 ∧ 0 ≤ w8 ∧
      new_events (mpu6050_restore_context K env (mpu6050_power_ctl env s true).2).2
          (mpu6050_accel_enable K env
            (mpu6050_restore_context K env (mpu6050_power_ctl env s true).2).2 true).2 =
        [⟨.rd .pwr_mgmt_1, p⟩, ⟨.rd .pwr_mgmt_2, z⟩,
         ⟨.wr .pwr_mgmt_2 (clear_bits (u8 z) K.BIT_PWR_ACCEL_STBY_MASK % 256), w7⟩,
         ⟨.wr .pwr_mgmt_1 (clear_bits (u8 p) K.BIT_SLEEP % 256), w8⟩]) ∧
    (0 ≤ (mpu6050_restore_context K env (mpu6050_power_ctl env s true).2).1 ∧
      (mpu6050_accel_enable K env
        (mpu6050_restore_context K env (mpu6050_power_ctl env s true).2).2 true).1 = 0) ∧
    (∀ t : mpu6050_sensor, t.cfg.enable ≠ 0 →
      ∀ e ∈ new_events t (mpu6050_accel_set_enable K env t true).2,
        pm_op e.op = true ∨ arm_op e.op = true) ∧
    (∀ t : mpu6050_sensor, t.cfg.enable ≠ 0 → t.cfg.is_asleep = 0 →
      ∃ p z w7 w8 : Int, 0 ≤ p ∧ 0 ≤ z ∧ 0 ≤ w7 ∧ 0 ≤ w8 ∧
        new_events t (mpu6050_accel_set_enable K env t true).2 =
          [⟨.rd .pwr_mgmt_1, p⟩, ⟨.rd .pwr_mgmt_2, z⟩,
           ⟨.wr .pwr_mgmt_2 (clear_bits (u8 z) K.BIT_PWR_ACCEL_STBY_MASK % 256), w7⟩,
           ⟨.wr .pwr_mgmt_1 (clear_bits (u8 p) K.BIT_SLEEP % 256), w8⟩,
           ⟨if t.use_poll then .schedule_delayed_work .accel_poll_work t.accel_poll_ms
            else .enable_irq, 0⟩]) := by
  obtain ⟨hP1, hR1, hA1, hA2, heq⟩ := accel_set_enable_on_eq K env s hok he hp ha
  have hP := power_ctl_on_ok env s hok.2.1 hp
  have hPc : (mpu6050_power_ctl env s true).2.cfg = s.cfg := by rw [hP]
  have hPt : (mpu6050_power_ctl env s true).2.chip_type = s.chip_type := by rw [hP]
  have hPp : (mpu6050_power_ctl env s true).2.power_enabled = true := by rw [hP]
  obtain ⟨-, hRc⟩ := restore_context_ok K env (mpu6050_power_ctl env s true).2 hok.1
  obtain ⟨r1, r2, r3, f, y, w5, w6, q1, q2, q3, q4, q5, q6, q7, hRt, hRp⟩ :=
    restore_context_trace K env (mpu6050_power_ctl env s true).2 hok.1
      (by rw [hPc]; exact haf) (by rw [hPc]; exact hgf)
  rw [hPc, hPt, ← hfs] at hRt
  obtain ⟨p, z, w7, w8, q8, q9, q10, q11, hAt, hAc, hAp⟩ :=
    accel_enable_trace K env (mpu6050_restore_context K env (mpu6050_power_ctl env s true).2).2
      hok.1 hK (by rw [hRc, hPc]; exact ha)
  obtain ⟨hRl, -⟩ := steps_new_events
    (restore_steps_context K env (P := fun op => restore_op op = true) (fun _ h => h)
      (steps_refl _ (mpu6050_power_ctl env s true).2))
  obtain ⟨hAl, -⟩ := steps_new_events
    (pm_steps_accel_enable K env true (P := fun op => pm_op op = true) (fun _ h => h)
      (steps_refl _ (mpu6050_restore_context K env (mpu6050_power_ctl env s true).2).2))
  have hPl : (mpu6050_power_ctl env s true).2.log =
      s.log ++ new_events s (mpu6050_power_ctl env s true).2 := by
    rw [hP]
    simp [new_events]
  refine ⟨by rw [heq], ?_, ?_, ?_, ?_, ⟨r1, r2, r3, f, y, w5, w6, q1, q2, q3, q4, q5, q6, q7, hRt⟩,
    ⟨p, z, w7, w8, q8, q9, q10, q11, hAt⟩, ⟨hR1, hA1⟩,
    fun t ht => accel_set_enable_when_enabled K env t ht,
    fun t ht hta => accel_set_enable_enabled_trace K env t hok.1 hK ht hta⟩
  · rw [heq]
    show (mpu6050_accel_enable K env _ true).2.cfg = _
    rw [hAc, hRc, hPc]
  · rw [heq]
    show (mpu6050_accel_enable K env _ true).2.power_enabled = _
    rw [hAp, hRp, hPp]
  · rw [heq]
    conv_lhs => unfold new_events
    simp only [hw_void]
    rw [hAl, hRl, hPl]
    simp only [List.append_assoc, drop_log_append]
  · rw [hP]
    simp [new_events]

/-- Witness for C24: the sensor as the probe leaves it, on a register file
whose registers all hold 0x40 at the start (asleep, wake code 5 Hz): the
configuration writes carry 0x18 (2000 dps), 3 (42 Hz) and 0x10 (8g), and the
last write of power-mgmt-1 clears the sleep bit. -/
theorem accel_set_enable_from_off_witness :
    all_ok (env_regfile fun _ => 0x40) ∧
    mpu6050_h.BIT_PWR_GYRO_STBY_MASK ≠ mpu6050_h.BIT_PWR_ACCEL_STBY_MASK ∧
    sensor_probed.cfg.enable = 0 ∧ sensor_probed.power_enabled = false ∧
    sensor_probed.cfg.is_asleep = 0 ∧ sensor_probed.cfg.accel_fs = mpu6050_h.ACCEL_FS_08G ∧
    sensor_probed.cfg.accel_fifo_enable = 0 ∧ sensor_probed.cfg.gyro_fifo_enable = 0 ∧
    (mpu6050_accel_set_enable mpu6050_h (env_regfile fun _ => 0x40) sensor_probed true).1 = 0 ∧
    (mpu6050_accel_set_enable mpu6050_h (env_regfile fun _ => 0x40) sensor_probed true).2.cfg =
      { sensor_probed.cfg with accel_enable := 1, enable := 1 } ∧
    new_events sensor_probed
        (mpu6050_accel_set_enable mpu6050_h (env_regfile fun _ => 0x40) sensor_probed true).2 =
      [⟨.regulator_enable .vdd, 0⟩, ⟨.regulator_enable .vlogic, 0⟩,
       ⟨.regulator_enable .vi2c, 0⟩, ⟨.gpio_set_value 1, 0⟩,
       ⟨.wr .gyro_config 0x18, 0⟩, ⟨.wr .lpf 3, 0⟩, ⟨.wr .accel_config 0x10, 0⟩,
       ⟨.rd .fifo_en, 0x40⟩, ⟨.rd .pwr_mgmt_2, 0x40⟩, ⟨.wr .pwr_mgmt_2 0x40, 0⟩,
       ⟨.wr .sample_rate_div 4, 0⟩,
       ⟨.rd .pwr_mgmt_1, 0x40⟩, ⟨.rd .pwr_mgmt_2, 0x40⟩, ⟨.wr .pwr_mgmt_2 0x40, 0⟩,
       ⟨.wr .pwr_mgmt_1 0, 0⟩,
       ⟨.schedule_delayed_work .accel_poll_work 200, 0⟩] :=
  have hok : all_ok (env_regfile fun _ => 0x40) :=
    ⟨⟨fun _ _ => Int.natCast_nonneg _, fun _ _ _ => le_refl _⟩, fun _ _ => rfl, fun _ _ => rfl⟩
  have h := accel_set_enable_from_off mpu6050_h (env_regfile fun _ => 0x40) sensor_probed hok
    (by decide) rfl rfl rfl rfl rfl rfl
  ⟨hok, by decide, rfl, rfl, rfl, rfl, rfl, rfl, h.1, h.2.1, by decide⟩

/-! ### Resume with a failing rail (C25) -/

/-- C25: `mpu6050_resume` returns 0 on every device and from every state,
and from a state with `power_enabled == false` it leaves `power_enabled`
true, whatever the regulator calls return.  When the enable of vdd fails with
-5 the call still returns 0 with `power_enabled` true, after going on with the
other two rails, the enable line and the scheduling of the resume work. -/
theorem resume_ignores_rail_failure :
    (∀ (env : Env) (s : mpu6050_sensor),
      (mpu6050_resume env s).1 = 0 ∧
      (mpu6050_resume env { s with power_enabled := false }).2.power_enabled = true) ∧
    mpu6050_resume (env_fail (.regulator_enable .vdd)) sensor0 =
      (0, { sensor0 with power_enabled := true, log :=
        [⟨.regulator_enable .vdd, -5⟩, ⟨.regulator_enable .vlogic, 0⟩,
         ⟨.regulator_enable .vi2c, 0⟩, ⟨.gpio_set_value 1, 0⟩,
         ⟨.schedule_delayed_work .delay_resume_work 100, 0⟩] }) := by
  refine ⟨fun env s => ⟨?_, ?_⟩, by decide⟩
  · unfold mpu6050_resume
    split_ifs <;> rfl
  · simp [mpu6050_resume]

/-! ### The two acquisition modes (C26) -/

theorem mode_ok_bus (b : Bool) {op : Op} (h : bus_op op = true) : mode_ok b op := by
  cases op <;> simp_all [bus_op, mode_ok]

theorem mode_of_steps {b : Bool} {s t : mpu6050_sensor} (h : steps (mode_ok b) s t) :
    t.use_poll = s.use_poll ∧ ∃ evs, t.log = s.log ++ evs ∧ ∀ e ∈ evs, mode_ok b e.op :=
  ⟨h.2.2.2.1, h.2.2.2.2.2.2⟩

theorem gyro_set_poll_delay_mode (s : mpu6050_sensor) (d : Nat) :
    (mpu6050_gyro_set_poll_delay s d).2.use_poll = s.use_poll ∧
    ∃ evs, (mpu6050_gyro_set_poll_delay s d).2.log = s.log ++ evs ∧
      ∀ e ∈ evs, mode_ok s.use_poll e.op := by
  unfold mpu6050_gyro_set_poll_delay
  cases hp : s.use_poll
  · exact ⟨by simp [hp], [], by simp [hp], by simp⟩
  · refine ⟨by simp [hp, hw_void], _, by simp [hp, hw_void]; rfl, ?_⟩
    intro e he
    simp only [List.mem_cons, List.mem_singleton, List.not_mem_nil, or_false] at he
    rcases he with rfl | rfl <;> simp [mode_ok]

theorem accel_set_poll_delay_mode (K : Hdr) (env : Env) (s : mpu6050_sensor) (d : Nat) :
    (mpu6050_accel_set_poll_delay K env s d).2.use_poll = s.use_poll ∧
    ∃ evs, (mpu6050_accel_set_poll_delay K env s d).2.log = s.log ++ evs ∧
      ∀ e ∈ evs, mode_ok s.use_poll e.op := by
  unfold mpu6050_accel_set_poll_delay
  simp only [MPU6050_ACCEL_MIN_POLL_INTERVAL_MS, MPU6050_ACCEL_MAX_POLL_INTERVAL_MS, hw_void,
    i2c_smbus_write_byte_data, hw, clamp_eq]
  generalize min (max d 1) 5000 = c
  by_cases h1 : s.accel_poll_ms = c <;>
    by_cases h2 : env.ret s.log (.wr .sample_rate_div (sample_rate_divider K % 256)) = 0 <;>
    cases hp : s.use_poll <;>
    simp only [h1, h2, hp, ne_eq, not_true_eq_false, not_false_eq_true, if_true, if_false,
      Bool.false_eq_true] <;>
    refine ⟨trivial, _, by simp; rfl, ?_⟩ <;>
    intro e he <;>
    simp only [List.mem_cons, List.mem_singleton, List.not_mem_nil, or_false,
      List.mem_append] at he <;>
    (try rcases he with rfl | rfl | rfl) <;>
    simp [mode_ok]

theorem gyro_work_fn_mode (env : Env) (s : mpu6050_sensor) :
    (mpu6050_gyro_work_fn env s).use_poll = s.use_poll ∧
    (mpu6050_gyro_work_fn env s).log = s.log ++ new_events s (mpu6050_gyro_work_fn env s) ∧
    ∀ e ∈ new_events s (mpu6050_gyro_work_fn env s), mode_ok s.use_poll e.op := by
  cases hp : s.use_poll <;>
    simp [mpu6050_gyro_work_fn, mpu6050_read_gyro_data, hw, hw_void, new_events, hp, mode_ok]

theorem accel_work_fn_mode (env : Env) (s : mpu6050_sensor) :
    (mpu6050_accel_work_fn env s).use_poll = s.use_poll ∧
    (mpu6050_accel_work_fn env s).log = s.log ++ new_events s (mpu6050_accel_work_fn env s) ∧
    ∀ e ∈ new_events s (mpu6050_accel_work_fn env s), mode_ok s.use_poll e.op := by
  cases hp : s.use_poll <;>
    simp [mpu6050_accel_work_fn, mpu6050_read_accel_data, hw, hw_void, new_events, hp, mode_ok]

theorem action_mode (K : Hdr) (env : Env) (s : mpu6050_sensor) (a : Action) :
    (a.run K env s).use_poll = s.use_poll ∧
    ∃ evs, (a.run K env s).log = s.log ++ evs ∧ ∀ e ∈ evs, mode_ok s.use_poll e.op := by
  have hb : ∀ op, bus_op op = true → mode_ok s.use_poll op := fun _ h => mode_ok_bus _ h
  cases a with
  | gyro_set_poll_delay d => exact gyro_set_poll_delay_mode s d
  | accel_set_poll_delay d => exact accel_set_poll_delay_mode K env s d
  | gyro_set_enable b =>
    exact mode_of_steps (mode_steps_gyro_set_enable K env b hb (fun h => h) (fun h => h)
      (fun _ => trivial) trivial (steps_refl _ _))
  | accel_set_enable b =>
    exact mode_of_steps (mode_steps_accel_set_enable K env b hb (fun h => h) (fun h => h)
      (fun _ => trivial) trivial (steps_refl _ _))
  | gyro_work_fn =>
    obtain ⟨h1, h2, h3⟩ := gyro_work_fn_mode env s
    exact ⟨h1, _, h2, h3⟩
  | accel_work_fn =>
    obtain ⟨h1, h2, h3⟩ := accel_work_fn_mode env s
    exact ⟨h1, _, h2, h3⟩
  | delay_resume_work_fn =>
    exact mode_of_steps (mode_steps_delay_resume_work_fn K env hb (fun h => h) (fun h => h)
      (steps_refl _ _))

theorem run_actions_mode (K : Hdr) (env : Env) :
    ∀ (acts : List Action) (s : mpu6050_sensor),
    (run_actions K env s acts).use_poll = s.use_poll ∧
    ∃ evs, (run_actions K env s acts).log = s.log ++ evs ∧
      ∀ e ∈ evs, mode_ok s.use_poll e.op := by
  intro acts
  induction acts with
  | nil =>
    intro s
    exact ⟨rfl, [], by simp [run_actions], by simp⟩
  | cons a acts ih =>
    intro s
    obtain ⟨hu1, ev1, hl1, hp1⟩ := action_mode K env s a
    obtain ⟨hu2, ev2, hl2, hp2⟩ := ih (a.run K env s)
    rw [hu1] at hp2
    refine ⟨?_, ev1 ++ ev2, ?_, ?_⟩
    · show (run_actions K env (a.run K env s) acts).use_poll = _
      rw [hu2, hu1]
    · show (run_actions K env (a.run K env s) acts).log = _
      rw [hl2, hl1, List.append_assoc]
    · intro e he
      rcases List.mem_append.mp he with h | h
      · exact hp1 e h
      · exact hp2 e h

/-- C26: for every device, every state and every sequence of calls of the
enable functions, the poll-interval setters, the two timer callbacks and the
resume work, `use_poll` keeps its value; when it is false (interrupt mode) no
operation of the sequence schedules the accelerometer or the gyroscope polling
timer, and when it is true (polled mode) none enables the sampling
interrupt. -/
theorem acquisition_modes_exclusive (K : Hdr) (env : Env) (s : mpu6050_sensor)
    (acts : List Action) :
    (run_actions K env s acts).use_poll = s.use_poll ∧
    (s.use_poll = false → ∀ e ∈ new_events s (run_actions K env s acts), ∀ ms,
      e.op ≠ .schedule_delayed_work .accel_poll_work ms ∧
      e.op ≠ .schedule_delayed_work .gyro_poll_work ms) ∧
    (s.use_poll = true → ∀ e ∈ new_events s (run_actions K env s acts),
      e.op ≠ .enable_irq) := by
  obtain ⟨hu, evs, hl, hp⟩ := run_actions_mode K env acts s
  have hn : new_events s (run_actions K env s acts) = evs := by
    unfold new_events
    rw [hl, drop_log_append]
  rw [hn]
  refine ⟨hu, ?_, ?_⟩
  · intro hs e he ms
    have := hp e he
    rw [hs] at this
    constructor <;> intro hop <;> rw [hop] at this <;> simp [mode_ok] at this
  · intro hs e he hop
    have := hp e he
    rw [hs, hop] at this
    simp [mode_ok] at this

/-- Witness for C26: in interrupt mode, enabling both engines, changing a
poll interval and running the resume work schedules no polling timer; in
polled mode the same calls never enable the interrupt. -/
theorem acquisition_modes_exclusive_witness :
    (∀ e ∈ new_events sensor0_int (run_actions mpu6050_h env_ok sensor0_int
        [.gyro_set_enable true, .accel_set_enable true, .gyro_set_poll_delay 50,
         .delay_resume_work_fn]), ∀ ms,
      e.op ≠ .schedule_delayed_work .accel_poll_work ms ∧
      e.op ≠ .schedule_delayed_work .gyro_poll_work ms) ∧
    (∀ e ∈ new_events sensor0 (run_actions mpu6050_h env_ok sensor0
        [.gyro_set_enable true, .accel_set_enable true, .gyro_set_poll_delay 50,
         .delay_resume_work_fn]), e.op ≠ .enable_irq) :=
  ⟨(acquisition_modes_exclusive mpu6050_h env_ok sensor0_int _).2.1 rfl,
   (acquisition_modes_exclusive mpu6050_h env_ok sensor0 _).2.2 rfl⟩

/-! ### Clock source and standby (C27, C28) -/

/-- C27: on a bus where every access succeeds, the accesses of
`mpu6050_switch_engine` are, for the gyroscope mask with `en = false`: read
power-mgmt-1, write power-mgmt-1 with the clock field set to the internal
reference, read power-mgmt-2, write power-mgmt-2 with the gyroscope standby
bits set; for the gyroscope mask with `en = true`: read power-mgmt-1, read
power-mgmt-2, write power-mgmt-2 with the standby bits cleared, write
power-mgmt-1 with the clock field set to the gyroscope reference; for the
accelerometer mask: read and write power-mgmt-2 only. -/
theorem switch_engine_clock_order (K : Hdr) (env : Env) (s : mpu6050_sensor)
    (hok : bus_ok env) (hne : K.BIT_PWR_GYRO_STBY_MASK ≠ K.BIT_PWR_ACCEL_STBY_MASK) :
    (∃ x1 x2 : Int,
      (new_events s (mpu6050_switch_engine K env s false K.BIT_PWR_GYRO_STBY_MASK).2).map Ev.op =
        [.rd .pwr_mgmt_1,
         .wr .pwr_mgmt_1 (set_bits (clear_bits (u8 x1) K.BIT_CLK_MASK) K.MPU_CLK_INTERNAL),
         .rd .pwr_mgmt_2,
         .wr .pwr_mgmt_2 (set_bits (u8 x2) K.BIT_PWR_GYRO_STBY_MASK)]) ∧
    (∃ x1 x2 : Int,
      (new_events s (mpu6050_switch_engine K env s true K.BIT_PWR_GYRO_STBY_MASK).2).map Ev.op =
        [.rd .pwr_mgmt_1,
         .rd .pwr_mgmt_2,
         .wr .pwr_mgmt_2 (clear_bits (u8 x2) K.BIT_PWR_GYRO_STBY_MASK),
         .wr .pwr_mgmt_1 (set_bits (clear_bits (u8 x1) K.BIT_CLK_MASK) K.MPU_CLK_PLL_X)]) ∧
    (∃ x : Int,
      (new_events s (mpu6050_switch_engine K env s false K.BIT_PWR_ACCEL_STBY_MASK).2).map Ev.op =
        [.rd .pwr_mgmt_2, .wr .pwr_mgmt_2 (set_bits (u8 x) K.BIT_PWR_ACCEL_STBY_MASK)]) ∧
    (∃ x : Int,
      (new_events s (mpu6050_switch_engine K env s true K.BIT_PWR_ACCEL_STBY_MASK).2).map Ev.op =
        [.rd .pwr_mgmt_2, .wr .pwr_mgmt_2 (clear_bits (u8 x) K.BIT_PWR_ACCEL_STBY_MASK)]) := by
  have hrd : ∀ log r, ¬ env.ret log (.rd r) < 0 := fun log r => not_lt.mpr (hok.1 log r)
  have hwr : ∀ log r v, ¬ env.ret log (.wr r v) < 0 := fun log r v => not_lt.mpr (hok.2 log r v)
  refine ⟨⟨env.ret s.log (.rd .pwr_mgmt_1), env.ret (s.log ++
      [⟨.rd .pwr_mgmt_1, env.ret s.log (.rd .pwr_mgmt_1)⟩,
       ⟨.wr .pwr_mgmt_1 (set_bits (clear_bits (u8 (env.ret s.log (.rd .pwr_mgmt_1)))
          K.BIT_CLK_MASK) K.MPU_CLK_INTERNAL),
        env.ret (s.log ++ [⟨.rd .pwr_mgmt_1, env.ret s.log (.rd .pwr_mgmt_1)⟩])
          (.wr .pwr_mgmt_1 (set_bits (clear_bits (u8 (env.ret s.log (.rd .pwr_mgmt_1)))
            K.BIT_CLK_MASK) K.MPU_CLK_INTERNAL))⟩]) (.rd .pwr_mgmt_2), ?_⟩,
    ⟨env.ret s.log (.rd .pwr_mgmt_1),
      env.ret (s.log ++ [⟨.rd .pwr_mgmt_1, env.ret s.log (.rd .pwr_mgmt_1)⟩])
        (.rd .pwr_mgmt_2), ?_⟩,
    ⟨env.ret s.log (.rd .pwr_mgmt_2), ?_⟩, ⟨env.ret s.log (.rd .pwr_mgmt_2), ?_⟩⟩ <;>
  simp [mpu6050_switch_engine, i2c_smbus_read_byte_data, i2c_smbus_write_byte_data, hw,
    new_events, hrd, hwr, clear_bits_mod, set_bits_mod, hne]

/-- Witness for C27: every register reads 0; turning the gyroscope off. -/
theorem switch_engine_clock_order_witness :
    bus_ok env_ok ∧
    ∃ x1 x2 : Int,
      (new_events sensor0 (mpu6050_switch_engine mpu6050_h env_ok sensor0 false
        mpu6050_h.BIT_PWR_GYRO_STBY_MASK).2).map Ev.op =
        [.rd .pwr_mgmt_1,
         .wr .pwr_mgmt_1 (set_bits (clear_bits (u8 x1) mpu6050_h.BIT_CLK_MASK)
            mpu6050_h.MPU_CLK_INTERNAL),
         .rd .pwr_mgmt_2,
         .wr .pwr_mgmt_2 (set_bits (u8 x2) mpu6050_h.BIT_PWR_GYRO_STBY_MASK)] :=
  ⟨⟨fun _ _ => le_refl _, fun _ _ _ => le_refl _⟩,
   (switch_engine_clock_order mpu6050_h env_ok sensor0
      ⟨fun _ _ => le_refl _, fun _ _ _ => le_refl _⟩ (by decide)).1⟩

theorem u8_natCast (n : Nat) : u8 (n : Int) = n % 256 := by
  unfold u8
  omega

theorem clear_bits_mod_left (x m : Nat) : clear_bits (x % 256) m = clear_bits x m := by
  simp [clear_bits]

theorem natCast_not_neg (n : Nat) : ¬ ((n : Int) < 0) := by omega

/-- C28: on a faithful register file, for every initial content and every
state that is not asleep, `mpu6050_gyro_enable(sensor, true)` returns 0 and
leaves in power-mgmt-1 the content it had before the call with the sleep bit
cleared: the value read at the start of the call is written back after
`mpu6050_switch_engine` has selected the gyroscope clock, so the clock field
is the one of before the call.  With power-mgmt-1 at 0x40 (asleep, internal
clock) the writes of power-mgmt-1 are 0x41 and then 0x00, and the clock field
ends as 0, the internal reference, not MPU_CLK_PLL_X = 1. -/
theorem gyro_enable_restores_stale_clock :
    (∀ (K : Hdr) (init : Reg → Nat) (s : mpu6050_sensor),
      (mpu6050_gyro_enable K (env_regfile init)
        { s with cfg := { s.cfg with is_asleep := 0 } } true).1 = 0 ∧
      reg_value init .pwr_mgmt_1 (mpu6050_gyro_enable K (env_regfile init)
        { s with cfg := { s.cfg with is_asleep := 0 } } true).2.log =
          clear_bits (reg_value init .pwr_mgmt_1 s.log) K.BIT_SLEEP) ∧
    (mpu6050_gyro_enable mpu6050_h (env_regfile fun r => if r = .pwr_mgmt_1 then 0x40 else 0)
      sensor0 true).1 = 0 ∧
    ((mpu6050_gyro_enable mpu6050_h (env_regfile fun r => if r = .pwr_mgmt_1 then 0x40 else 0)
      sensor0 true).2.log.map Ev.op).filter
        (fun op => match op with
          | .wr .pwr_mgmt_1 _ => true
          | _ => false) = [.wr .pwr_mgmt_1 0x41, .wr .pwr_mgmt_1 0x00] ∧
    reg_value (fun r => if r = .pwr_mgmt_1 then 0x40 else 0) .pwr_mgmt_1
      (mpu6050_gyro_enable mpu6050_h (env_regfile fun r => if r = .pwr_mgmt_1 then 0x40 else 0)
        sensor0 true).2.log &&& mpu6050_h.BIT_CLK_MASK = 0 ∧
    mpu6050_h.MPU_CLK_PLL_X = 1 := by
  refine ⟨fun K init s => ?_, by decide, by decide, by decide, by decide⟩
  simp [mpu6050_gyro_enable, mpu6050_switch_engine, i2c_smbus_read_byte_data,
    i2c_smbus_write_byte_data, hw, env_regfile, reg_value, List.foldl_append, u8_natCast,
    natCast_not_neg, clear_bits_mod, set_bits_mod, clear_bits_mod_left]

/-! ### The trace of chip identification (C29) -/

theorem set_bits_keeps_clear (x m h : Nat) (hx : (x % 256) &&& h = 0) (hm : m &&& h = 0) :
    set_bits x m &&& h = 0 := by
  apply Nat.eq_of_testBit_eq
  intro j
  have h1 := congrArg (fun n => Nat.testBit n j) hx
  have h2 := congrArg (fun n => Nat.testBit n j) hm
  simp only [mod_256_eq, Nat.testBit_and, Nat.testBit_mod_two_pow, Nat.zero_testBit] at h1 h2
  simp only [set_bits, mod_256_eq, Nat.testBit_and, Nat.testBit_or, Nat.testBit_mod_two_pow,
    Nat.zero_testBit]
  by_cases hj : j < 8
  · simp only [hj, decide_True, Bool.true_and] at h1 h2 ⊢
    cases hxj : x.testBit j <;> cases hmj : m.testBit j <;> simp_all
  · simp [hj]

theorem clear_bits_keeps_clear (x m h : Nat) (hx : (x % 256) &&& h = 0) :
    clear_bits x m &&& h = 0 := by
  apply Nat.eq_of_testBit_eq
  intro j
  have h1 := congrArg (fun n => Nat.testBit n j) hx
  simp only [mod_256_eq, Nat.testBit_and, Nat.testBit_mod_two_pow, Nat.zero_testBit] at h1
  simp only [clear_bits, mod_256_eq, Nat.testBit_and, Nat.testBit_xor, Nat.testBit_mod_two_pow,
    testBit_255, Nat.zero_testBit]
  by_cases hj : j < 8 <;> simp_all

theorem set_power_mode_trace (K : Hdr) (env : Env) (s : mpu6050_sensor) (b : Bool)
    (hrd : ∀ log, 0 ≤ env.ret log (.rd .pwr_mgmt_1))
    (hwr : ∀ log v, env.ret log (.wr .pwr_mgmt_1 v) = 0) :
    mpu6050_set_power_mode K env s b =
      (0, { s with log := s.log ++
        [⟨.rd .pwr_mgmt_1, env.ret s.log (.rd .pwr_mgmt_1)⟩,
         ⟨.wr .pwr_mgmt_1 (if b then clear_bits (u8 (env.ret s.log (.rd .pwr_mgmt_1))) K.BIT_SLEEP
            else set_bits (u8 (env.ret s.log (.rd .pwr_mgmt_1))) K.BIT_SLEEP), 0⟩] }) := by
  have h1 : ¬ env.ret s.log (.rd .pwr_mgmt_1) < 0 := not_lt.mpr (hrd _)
  cases b <;>
    simp [mpu6050_set_power_mode, i2c_smbus_read_byte_data, i2c_smbus_write_byte_data, hw, h1,
      hwr, clear_bits_mod, set_bits_mod]

/-- C29 (amended): with the reads of power-mgmt-1 not failing and its writes
returning 0, the bus trace of `mpu_check_chip_type` is: a read of
power-mgmt-1, a write of the value read with the sleep bit set, a second read
of power-mgmt-1, a write of the value read with the sleep bit cleared, and,
for the name "mpu6xxx" only, the read of the identity register.  The trace
starts with a read, and a written value has the reset bit only if the read
before it returned that bit: no reset is requested. -/
theorem chip_type_trace (K : Hdr) (env : Env) (s : mpu6050_sensor)
    (hrd : ∀ log, 0 ≤ env.ret log (.rd .pwr_mgmt_1))
    (hwr : ∀ log v, env.ret log (.wr .pwr_mgmt_1 v) = 0)
    (hS : K.BIT_SLEEP < 256) (hR : K.BIT_SLEEP &&& K.BIT_H_RESET = 0) :
    ∃ x1 x2 id : Int,
      new_events s (mpu_check_chip_type K env s "mpu6050").2 =
        [⟨.rd .pwr_mgmt_1, x1⟩, ⟨.wr .pwr_mgmt_1 (set_bits (u8 x1) K.BIT_SLEEP), 0⟩,
         ⟨.rd .pwr_mgmt_1, x2⟩, ⟨.wr .pwr_mgmt_1 (clear_bits (u8 x2) K.BIT_SLEEP), 0⟩] ∧
      new_events s (mpu_check_chip_type K env s "mpu6xxx").2 =
        [⟨.rd .pwr_mgmt_1, x1⟩, ⟨.wr .pwr_mgmt_1 (set_bits (u8 x1) K.BIT_SLEEP), 0⟩,
         ⟨.rd .pwr_mgmt_1, x2⟩, ⟨.wr .pwr_mgmt_1 (clear_bits (u8 x2) K.BIT_SLEEP), 0⟩,
         ⟨.rd .whoami, id⟩] ∧
      set_bits (u8 x1) K.BIT_SLEEP &&& K.BIT_SLEEP = K.BIT_SLEEP ∧
      clear_bits (u8 x2) K.BIT_SLEEP &&& K.BIT_SLEEP = 0 ∧
      (u8 x1 &&& K.BIT_H_RESET = 0 → set_bits (u8 x1) K.BIT_SLEEP &&& K.BIT_H_RESET = 0) ∧
      (u8 x2 &&& K.BIT_H_RESET = 0 → clear_bits (u8 x2) K.BIT_SLEEP &&& K.BIT_H_RESET = 0) := by
  have ha := set_power_mode_trace K env { s with chip_type := .INV_MPU6050 } false hrd hwr
  have hb := set_power_mode_trace K env
    { s with chip_type := .INV_MPU6050, log := s.log ++
      [⟨.rd .pwr_mgmt_1, env.ret s.log (.rd .pwr_mgmt_1)⟩,
       ⟨.wr .pwr_mgmt_1 (set_bits (u8 (env.ret s.log (.rd .pwr_mgmt_1))) K.BIT_SLEEP), 0⟩] }
    true hrd hwr
  simp only [Bool.false_eq_true, if_false, if_true] at ha hb
  refine ⟨env.ret s.log (.rd .pwr_mgmt_1),
    env.ret (s.log ++
      [⟨.rd .pwr_mgmt_1, env.ret s.log (.rd .pwr_mgmt_1)⟩,
       ⟨.wr .pwr_mgmt_1 (set_bits (u8 (env.ret s.log (.rd .pwr_mgmt_1))) K.BIT_SLEEP), 0⟩])
      (.rd .pwr_mgmt_1),
    env.ret ((mpu6050_set_power_mode K env (mpu6050_set_power_mode K env
      { s with chip_type := .INV_MPU6050 } false).2 true).2.log) (.rd .whoami),
    ?_, ?_, set_bits_and _ _ hS, clear_bits_and _ _, ?_, ?_⟩
  · simp [mpu_check_chip_type, ha, hb, new_events]
  · simp [mpu_check_chip_type, ha, hb, new_events, i2c_smbus_read_byte_data, hw]
    split_ifs <;> simp
  · intro h
    exact set_bits_keeps_clear _ _ _ (by rw [u8_mod]; exact h) hR
  · intro h
    exact clear_bits_keeps_clear _ _ _ (by rw [u8_mod]; exact h)

/-- Witness for C29: every register reads 0. -/
theorem chip_type_trace_witness :
    ∃ x1 x2 : Int,
      new_events sensor0 (mpu_check_chip_type mpu6050_h env_ok sensor0 "mpu6050").2 =
        [⟨.rd .pwr_mgmt_1, x1⟩,
         ⟨.wr .pwr_mgmt_1 (set_bits (u8 x1) mpu6050_h.BIT_SLEEP), 0⟩,
         ⟨.rd .pwr_mgmt_1, x2⟩,
         ⟨.wr .pwr_mgmt_1 (clear_bits (u8 x2) mpu6050_h.BIT_SLEEP), 0⟩] := by
  obtain ⟨x1, x2, _, h, _⟩ := chip_type_trace mpu6050_h env_ok sensor0
    (fun _ => le_refl _) (fun _ _ => rfl) (by decide) (by decide)
  exact ⟨x1, x2, h⟩

/-- Counterexample for C29: on a device whose registers read 0 and whose
identity register reads 0x68, the trace of the identification under the name
"mpu6xxx" starts with a read, and its two writes carry 0x40 and 0x00: the
reset bit 0x80 is never written. -/
theorem chip_type_no_reset_counterexample :
    (new_events sensor0
      (mpu_check_chip_type mpu6050_h (env_whoami 0x68) sensor0 "mpu6xxx").2).map Ev.op =
      [.rd .pwr_mgmt_1, .wr .pwr_mgmt_1 0x40, .rd .pwr_mgmt_1, .wr .pwr_mgmt_1 0x00,
       .rd .whoami] ∧
    (mpu_check_chip_type mpu6050_h (env_whoami 0x68) sensor0 "mpu6xxx").1 = 0 ∧
    mpu6050_h.BIT_H_RESET = 0x80 := by
  decide

/-! ### Power-off with a failing vi2c disable (C30) -/

/-- C30: `mpu6050_power_ctl(sensor, false)` on a powered sensor, where the
disables of vdd and vlogic return 0, the disable of vi2c returns `c ≠ 0`
and both compensating enables return 0: the call returns `c`, sets
`power_enabled` to false, and its regulator calls are the three disables
followed by the enables of vi2c and vdd, so that vdd and vi2c are on after
the call (vlogic is off) while the cached flag says the device is off. -/
theorem power_off_vi2c_failure_clears_flag (env : Env) (s : mpu6050_sensor) (c : Int)
    (hp : s.power_enabled = true)
    (h1 : ∀ log, env.ret log (.regulator_disable .vdd) = 0)
    (h2 : ∀ log, env.ret log (.regulator_disable .vlogic) = 0)
    (h3 : ∀ log, env.ret log (.regulator_disable .vi2c) = c) (hc : c ≠ 0)
    (h4 : ∀ log, env.ret log (.regulator_enable .vi2c) = 0)
    (h5 : ∀ log, env.ret log (.regulator_enable .vdd) = 0) :
    (mpu6050_power_ctl env s false).1 = c ∧
    (mpu6050_power_ctl env s false).2.power_enabled = false ∧
    new_events s (mpu6050_power_ctl env s false).2 =
      (if s.enable_gpio_valid then [⟨.gpio_set_value 0, 0⟩] else []) ++
      [⟨.regulator_disable .vdd, 0⟩, ⟨.regulator_disable .vlogic, 0⟩,
       ⟨.regulator_disable .vi2c, c⟩, ⟨.regulator_enable .vi2c, 0⟩,
       ⟨.regulator_enable .vdd, 0⟩] ∧
    rail_on .vdd true (new_events s (mpu6050_power_ctl env s false).2) = true ∧
    rail_on .vi2c true (new_events s (mpu6050_power_ctl env s false).2) = true ∧
    rail_on .vlogic true (new_events s (mpu6050_power_ctl env s false).2) = false := by
  cases hg : s.enable_gpio_valid <;>
    simp [mpu6050_power_ctl, regulator_enable, regulator_disable, hw, hw_void, new_events, hp,
      hg, h1, h2, h3, h4, h5, hc, rail_on]

/-- Witness for C30: a powered sensor on a device whose disable of vi2c
fails with -5. -/
theorem power_off_vi2c_failure_clears_flag_witness :
    (mpu6050_power_ctl (env_fail (.regulator_disable .vi2c))
      { sensor0 with power_enabled := true } false).1 = -5 ∧
    (mpu6050_power_ctl (env_fail (.regulator_disable .vi2c))
      { sensor0 with power_enabled := true } false).2.power_enabled = false :=
  have h := power_off_vi2c_failure_clears_flag (env_fail (.regulator_disable .vi2c))
    { sensor0 with power_enabled := true } (-5) rfl (fun _ => rfl) (fun _ => rfl)
    (fun _ => rfl) (by decide) (fun _ => rfl) (fun _ => rfl)
  ⟨h.1, h.2.1⟩

end MPU6050
